import Mathlib

/-! RUDP header codec (src/rudp-header.cc) and socket (src/rudp-socket-impl.cc)

Shallow embedding of `ns3::RudpHeader`: its mutators and accessors,
`GetSerializedSize`, `Serialize` and `Deserialize`, together with the byte
level operations of `ns3::Buffer::Iterator` that the codec calls; and of
`ns3::RudpSocketImpl`: binding, connecting, the send paths, the receive queue,
shutdown and close, as functions on an explicit socket state that also records
the calls made on the collaborators and the notifications raised.

Machine integers are natural numbers; every conversion to a fixed width that
the C++ performs is written as an explicit `% 2 ^ w`. A failed `NS_ASSERT`
is the result `none`.
-/

set_option autoImplicit false

namespace Rudp

/-! ## Buffer iterator -/

/-- Modelled from the spec: `Buffer::Iterator` is used by the codec but is not
among the source files. `data` holds the bytes between the data start and the
data end of the buffer, `cur` is the offset of the iterator from the data
start. -/
structure Iterator where
  data : List Nat
  cur : Nat
deriving DecidableEq

namespace Iterator

/-- Modelled from the spec: `Buffer::Iterator::GetSize` (not among the source
files) is the size of the underlying buffer, header and payload, whatever the
position of the iterator. -/
def GetSize (i : Iterator) : Nat :=
  i.data.length

/-- Modelled from the spec: `Buffer::Iterator::WriteU8` (not among the source
files) stores one byte at the current position and advances by one; writing
outside the buffer is an assertion failure (`none`). -/
def WriteU8 (i : Iterator) (b : Nat) : Option Iterator :=
  if i.cur < i.data.length then
    some { data := i.data.set i.cur (b % 256), cur := i.cur + 1 }
  else
    none

/-- Modelled from the spec: `Buffer::Iterator::ReadU8` (not among the source
files) reads the byte at the current position and advances by one; reading
outside the buffer is an assertion failure (`none`). -/
def ReadU8 (i : Iterator) : Option (Nat × Iterator) :=
  match i.data[i.cur]? with
  | some b => some (b, { i with cur := i.cur + 1 })
  | none => none

/-- Modelled from the spec: `Buffer::Iterator::WriteHtonU16 (uint16_t data)` (not
among the source files) writes in network byte order; the argument is converted
to 16 bits, then the high byte and the low byte are written in that order. -/
def WriteHtonU16 (i : Iterator) (v : Nat) : Option Iterator := do
  let data := v % 2 ^ 16
  let i ← i.WriteU8 ((data >>> 8) &&& 0xff)
  i.WriteU8 ((data >>> 0) &&& 0xff)

/-- Modelled from the spec: `Buffer::Iterator::WriteHtonU32 (uint32_t data)` (not
among the source files) writes in network byte order; the argument is converted
to 32 bits, then its four bytes are written, most significant first. -/
def WriteHtonU32 (i : Iterator) (v : Nat) : Option Iterator := do
  let data := v % 2 ^ 32
  let i ← i.WriteU8 ((data >>> 24) &&& 0xff)
  let i ← i.WriteU8 ((data >>> 16) &&& 0xff)
  let i ← i.WriteU8 ((data >>> 8) &&& 0xff)
  i.WriteU8 ((data >>> 0) &&& 0xff)

/-- Modelled from the spec: `Buffer::Iterator::ReadNtohU16` (not among the source
files) reads in network byte order: two bytes, most significant first,
accumulated in a `uint16_t`. -/
def ReadNtohU16 (i : Iterator) : Option (Nat × Iterator) := do
  let retval := 0
  let (b, i) ← i.ReadU8
  let retval := retval ||| b
  let retval := (retval <<< 8) % 2 ^ 16
  let (b, i) ← i.ReadU8
  let retval := retval ||| b
  pure (retval, i)

/-- Modelled from the spec: `Buffer::Iterator::ReadNtohU32` (not among the source
files) reads in network byte order: four bytes, most significant first,
accumulated in a `uint32_t`. -/
def ReadNtohU32 (i : Iterator) : Option (Nat × Iterator) := do
  let retval := 0
  let (b, i) ← i.ReadU8
  let retval := retval ||| b
  let retval := (retval <<< 8) % 2 ^ 32
  let (b, i) ← i.ReadU8
  let retval := retval ||| b
  let retval := (retval <<< 8) % 2 ^ 32
  let (b, i) ← i.ReadU8
  let retval := retval ||| b
  let retval := (retval <<< 8) % 2 ^ 32
  let (b, i) ← i.ReadU8
  let retval := retval ||| b
  pure (retval, i)

end Iterator

/-- Every element of the buffer is an octet. -/
def Octets (data : List Nat) : Prop :=
  ∀ b ∈ data, b < 256

instance (data : List Nat) : Decidable (Octets data) := by
  unfold Octets; infer_instance

/-- Big-endian 16-bit value held by the two bytes at offset `off`. -/
def wireU16 (data : List Nat) (off : Nat) : Nat :=
  data.getD off 0 * 2 ^ 8 + data.getD (off + 1) 0

/-- Big-endian 32-bit value held by the four bytes at offset `off`. -/
def wireU32 (data : List Nat) (off : Nat) : Nat :=
  data.getD off 0 * 2 ^ 24 + data.getD (off + 1) 0 * 2 ^ 16
    + data.getD (off + 2) 0 * 2 ^ 8 + data.getD (off + 3) 0

/-! ## Header -/

/-- The data members of `class RudpHeader` that the codec touches, with the
names used in rudp-header.cc (rudp-header.h spells two of them
`m_postionFlag` and `m_inOrderFlag`). The port and size members are `uint16_t`, the
sequence and message numbers `uint32_t`, the type bits and position flag
`uint8_t`, the in-order and control flags `bool`. -/
structure RudpHeader where
  m_sourcePort : Nat
  m_destinationPort : Nat
  m_payloadSize : Nat
  m_sequenceNumber : Nat
  m_messageNumber : Nat
  m_typeBits : Nat
  m_positionFlag : Nat
  m_inorderFlag : Bool
  m_controlFlag : Bool
deriving DecidableEq

namespace RudpHeader

/-- Each member holds a value of its C++ type. -/
def WellTyped (h : RudpHeader) : Prop :=
  h.m_sourcePort < 2 ^ 16 ∧ h.m_destinationPort < 2 ^ 16 ∧ h.m_payloadSize < 2 ^ 16 ∧
  h.m_sequenceNumber < 2 ^ 32 ∧ h.m_messageNumber < 2 ^ 32 ∧
  h.m_typeBits < 2 ^ 8 ∧ h.m_positionFlag < 2 ^ 8

instance (h : RudpHeader) : Decidable (WellTyped h) := by
  unfold WellTyped; infer_instance

/-- The field ranges of the wire layout: a 31-bit sequence number, a 29-bit
message number, three type bits and a one-bit position flag. -/
def InRange (h : RudpHeader) : Prop :=
  h.m_sequenceNumber < 2 ^ 31 ∧ h.m_messageNumber < 2 ^ 29 ∧
  h.m_typeBits < 8 ∧ h.m_positionFlag < 2

instance (h : RudpHeader) : Decidable (InRange h) := by
  unfold InRange; infer_instance

/-- Constructor `RudpHeader::RudpHeader ()`: it initialises the two ports and
the payload size; the remaining members are taken here as zero / false. -/
def init : RudpHeader :=
  { m_sourcePort := 0xfffd
    m_destinationPort := 0xfffd
    m_payloadSize := 0
    m_sequenceNumber := 0
    m_messageNumber := 0
    m_typeBits := 0
    m_positionFlag := 0
    m_inorderFlag := false
    m_controlFlag := false }

def SetDestinationPort (h : RudpHeader) (port : Nat) : RudpHeader :=
  { h with m_destinationPort := port }

def SetSourcePort (h : RudpHeader) (port : Nat) : RudpHeader :=
  { h with m_sourcePort := port }

def SetControlFlag (h : RudpHeader) (controlFlag : Bool) : RudpHeader :=
  { h with m_controlFlag := controlFlag }

def SetPositionFlag (h : RudpHeader) (positionFlag : Nat) : RudpHeader :=
  { h with m_positionFlag := positionFlag }

def SetTypeBits (h : RudpHeader) (typeBits : Nat) : RudpHeader :=
  { h with m_typeBits := typeBits }

def SetInorderFlag (h : RudpHeader) (inorderFlag : Bool) : RudpHeader :=
  { h with m_inorderFlag := inorderFlag }

/-- Source statement: `m_sequenceNumber = (sequenceNumber & 0x7fffffff)`. -/
def SetSequenceNumber (h : RudpHeader) (sequenceNumber : Nat) : RudpHeader :=
  { h with m_sequenceNumber := sequenceNumber &&& 0x7fffffff }

/-- Source statement: `m_messageNumber = (messageNumber & 0x1ffffffff)`; the literal has nine
hexadecimal digits, so the conjunction is computed in 64 bits and the result is
converted back to the 32-bit member. -/
def SetMessageNumber (h : RudpHeader) (messageNumber : Nat) : RudpHeader :=
  { h with m_messageNumber := (messageNumber &&& 0x1ffffffff) % 2 ^ 32 }

def GetSourcePort (h : RudpHeader) : Nat := h.m_sourcePort

def GetDestinationPort (h : RudpHeader) : Nat := h.m_destinationPort

def GetControlFlag (h : RudpHeader) : Bool := h.m_controlFlag

def GetPositionFlag (h : RudpHeader) : Nat := h.m_positionFlag

def GetTypeBits (h : RudpHeader) : Nat := h.m_typeBits

def GetInorderFlag (h : RudpHeader) : Bool := h.m_inorderFlag

def GetSequenceNumber (h : RudpHeader) : Nat := h.m_sequenceNumber

def GetMessageNumber (h : RudpHeader) : Nat := h.m_messageNumber

def ForcePayloadSize (h : RudpHeader) (payloadSize : Nat) : RudpHeader :=
  { h with m_payloadSize := payloadSize }

/-- Model of `RudpHeader::GetSerializedSize`. -/
def GetSerializedSize : Nat := 16

/-- Model of `RudpHeader::Serialize`. The result is the final state of the local
iterator `i`: the buffer after the writes and the position reached. The
operands of the two 32-bit words are promoted flags shifted left and combined
with the stored numbers; `WriteHtonU32` converts the word to 32 bits. -/
def Serialize (h : RudpHeader) (start : Iterator) : Option Iterator := do
  let i := start
  let i ← i.WriteHtonU16 h.m_sourcePort
  let i ← i.WriteHtonU16 h.m_destinationPort
  let i ←
    if h.m_payloadSize = 0 then
      i.WriteHtonU16 start.GetSize
    else
      i.WriteHtonU16 h.m_payloadSize
  let i ← i.WriteHtonU32 ((h.m_controlFlag.toNat <<< 31) ||| h.m_sequenceNumber)
  if h.m_controlFlag then
    i.WriteHtonU32 ((h.m_typeBits <<< 29) ||| h.m_messageNumber)
  else
    i.WriteHtonU32
      ((h.m_positionFlag <<< 30) ||| (h.m_inorderFlag.toNat <<< 29) ||| h.m_messageNumber)

/-- Outcome of `Deserialize`: the header after the call, the value returned,
and the final state of the local iterator `i`. -/
structure Decoded where
  header : RudpHeader
  consumed : Nat
  last : Iterator
deriving DecidableEq

/-- Model of `RudpHeader::Deserialize`. Members that the taken branch does not assign
keep the value they had in `h`. The payload size is the 16-bit length field
minus `GetSerializedSize ()`, computed in `uint32_t` and stored in the
`uint16_t` member. -/
def Deserialize (h : RudpHeader) (start : Iterator) : Option Decoded := do
  let i := start
  let (sourcePort, i) ← i.ReadNtohU16
  let (destinationPort, i) ← i.ReadNtohU16
  let (len, i) ← i.ReadNtohU16
  let payloadSize := ((len + 2 ^ 32 - GetSerializedSize) % 2 ^ 32) % 2 ^ 16
  let (rudpSequenceNumber, i) ← i.ReadNtohU32
  let (rudpMessageNumber, i) ← i.ReadNtohU32
  let controlFlag : Bool := decide ((rudpSequenceNumber &&& 0x80000000) ≠ 0)
  let h :=
    { h with
      m_sourcePort := sourcePort
      m_destinationPort := destinationPort
      m_payloadSize := payloadSize
      m_controlFlag := controlFlag
      m_sequenceNumber := rudpSequenceNumber &&& 0x7fffffff
      m_messageNumber := rudpMessageNumber &&& 0x1fffffff }
  let h :=
    if controlFlag then
      { h with m_typeBits := (rudpMessageNumber >>> 29) % 2 ^ 8 }
    else
      { h with
        m_positionFlag := (rudpMessageNumber >>> 30) % 2 ^ 8
        m_inorderFlag := decide (((rudpMessageNumber >>> 29) &&& 1) ≠ 0) }
  pure { header := h, consumed := GetSerializedSize, last := i }

end RudpHeader

/-- A buffer of `n` zero bytes with the iterator at its start. -/
def zeroBuffer (n : Nat) : Iterator :=
  { data := List.replicate n 0, cur := 0 }

/-! ## Auxiliary definitions used in the proofs -/

/-- Buffer contents after `WriteHtonU16` of `v` at offset `c`. -/
def putU16 (d : List Nat) (c v : Nat) : List Nat :=
  (d.set c (v % 2 ^ 16 / 2 ^ 8)).set (c + 1) (v % 2 ^ 8)

/-- Buffer contents after `WriteHtonU32` of `v` at offset `c`. -/
def putU32 (d : List Nat) (c v : Nat) : List Nat :=
  (((d.set c (v % 2 ^ 32 / 2 ^ 24)).set (c + 1) (v % 2 ^ 24 / 2 ^ 16)).set (c + 2)
    (v % 2 ^ 16 / 2 ^ 8)).set (c + 3) (v % 2 ^ 8)

/-- Value accumulated by `ReadNtohU16` at offset `c`. -/
def getU16 (d : List Nat) (c : Nat) : Nat :=
  (((0 ||| d.getD c 0) <<< 8) % 2 ^ 16) ||| d.getD (c + 1) 0

/-- Value accumulated by `ReadNtohU32` at offset `c`. -/
def getU32 (d : List Nat) (c : Nat) : Nat :=
  (((((((0 ||| d.getD c 0) <<< 8) % 2 ^ 32 ||| d.getD (c + 1) 0) <<< 8) % 2 ^ 32
    ||| d.getD (c + 2) 0) <<< 8) % 2 ^ 32) ||| d.getD (c + 3) 0

/-- Buffer contents after the five writes of `Serialize` at offset `c`. -/
def putHeader (d : List Nat) (c sp dp len w1 w2 : Nat) : List Nat :=
  putU32 (putU32 (putU16 (putU16 (putU16 d c sp) (c + 2) dp) (c + 4) len) (c + 6) w1) (c + 10) w2

namespace RudpHeader

/-- The value `Serialize` passes to the third `WriteHtonU16`. -/
def lengthField (h : RudpHeader) (start : Iterator) : Nat :=
  if h.m_payloadSize = 0 then start.GetSize else h.m_payloadSize

/-- The value `Serialize` passes to the first `WriteHtonU32`. -/
def firstWord (h : RudpHeader) : Nat :=
  (h.m_controlFlag.toNat <<< 31) ||| h.m_sequenceNumber

/-- The value `Serialize` passes to the second `WriteHtonU32`. -/
def secondWord (h : RudpHeader) : Nat :=
  if h.m_controlFlag then
    (h.m_typeBits <<< 29) ||| h.m_messageNumber
  else
    (h.m_positionFlag <<< 30) ||| (h.m_inorderFlag.toNat <<< 29) ||| h.m_messageNumber

/-- The assignments `Deserialize` makes from the five values it reads. -/
def assign (h : RudpHeader) (sp dp len w1 w2 : Nat) : RudpHeader :=
  let h1 : RudpHeader :=
    { h with
      m_sourcePort := sp
      m_destinationPort := dp
      m_payloadSize := ((len + 2 ^ 32 - GetSerializedSize) % 2 ^ 32) % 2 ^ 16
      m_controlFlag := decide ((w1 &&& 0x80000000) ≠ 0)
      m_sequenceNumber := w1 &&& 0x7fffffff
      m_messageNumber := w2 &&& 0x1fffffff }
  if decide ((w1 &&& 0x80000000) ≠ 0) then
    { h1 with m_typeBits := (w2 >>> 29) % 2 ^ 8 }
  else
    { h1 with
      m_positionFlag := (w2 >>> 30) % 2 ^ 8
      m_inorderFlag := decide (((w2 >>> 29) &&& 1) ≠ 0) }

/-- A control header with every field in range and non-zero. -/
def sampleControl : RudpHeader :=
  { m_sourcePort := 4660
    m_destinationPort := 9000
    m_payloadSize := 0
    m_sequenceNumber := 0x7ffffffe
    m_messageNumber := 0x1ffffffd
    m_typeBits := 5
    m_positionFlag := 1
    m_inorderFlag := true
    m_controlFlag := true }

/-- A data header with every field in range and non-zero. -/
def sampleData : RudpHeader :=
  { sampleControl with m_controlFlag := false }

/-- A buffer whose second 32-bit word (offset 10) is `b0 b1 b2 b3` and whose
length field declares 16 bytes; every other byte is zero. -/
def wordBuffer (b0 b1 b2 b3 : Nat) : Iterator :=
  { data := [0, 0, 0, 0, 0, 16, 0, 0, 0, 0, b0, b1, b2, b3, 0, 0], cur := 0 }

end RudpHeader

/-! ## Socket endpoint engine (src/rudp-socket-impl.cc) -/

/-- The values of `Socket::SocketErrno`. -/
inductive SocketErrno
  | ERROR_NOTERROR
  | ERROR_ISCONN
  | ERROR_NOTCONN
  | ERROR_MSGSIZE
  | ERROR_AGAIN
  | ERROR_SHUTDOWN
  | ERROR_OPNOTSUPP
  | ERROR_AFNOSUPPORT
  | ERROR_INVAL
  | ERROR_BADF
  | ERROR_NOROUTETOHOST
  | ERROR_NODEV
  | ERROR_ADDRNOTAVAIL
  | ERROR_ADDRINUSE
deriving DecidableEq

/-- A polymorphic `ns3::Address` value, by the type it was built from. IPv4
addresses are 32-bit numbers, IPv6 addresses 128-bit numbers, ports 16-bit
numbers. `invalid` is the default-constructed `Address ()`. -/
inductive Address
  | invalid
  | Ipv4Address (ipv4 : Nat)
  | Ipv6Address (ipv6 : Nat)
  | InetSocketAddress (ipv4 : Nat) (port : Nat)
  | Inet6SocketAddress (ipv6 : Nat) (port : Nat)
  | other (type : Nat)
deriving DecidableEq

/-- The packet tags that the socket attaches or reads; `other` stands for tags
of other layers. Of the packet-info tags only the receiving interface is
kept. -/
inductive Tag
  | SocketIpTosTag (tos : Nat)
  | SocketIpTtlTag (ttl : Nat)
  | SocketSetDontFragmentTag (enabled : Bool)
  | SocketIpv6TclassTag (tclass : Nat)
  | SocketIpv6HopLimitTag (hopLimit : Nat)
  | SocketAddressTag (address : Address)
  | Ipv4PacketInfoTag (recvIf : Nat)
  | Ipv6PacketInfoTag (recvIf : Nat)
  | other (id : Nat)
deriving DecidableEq

/-- A packet as the socket sees it: its size in bytes (`GetSize ()`, a
`uint32_t`), its packet tags in the order they were added, and an identifier
of the payload. -/
structure Packet where
  size : Nat
  tags : List Tag
  uid : Nat
deriving DecidableEq

namespace Packet

/-- Attaches a tag; the byte size of the packet is not changed. -/
def AddPacketTag (p : Packet) (t : Tag) : Packet :=
  { p with tags := p.tags ++ [t] }

/-- Removes the first tag of the kind recognised by `kind`; the second
component says whether one was found. -/
def RemovePacketTag (p : Packet) (kind : Tag → Bool) : Packet × Bool :=
  ({ p with tags := p.tags.eraseP kind }, p.tags.any kind)

/-- The address carried by the first `SocketAddressTag`, if there is one. -/
def PeekSocketAddressTag (p : Packet) : Option Address :=
  p.tags.findSome? fun t =>
    match t with
    | Tag.SocketAddressTag a => some a
    | _ => none

end Packet

/-- Recognises a `SocketSetDontFragmentTag`. -/
def isDontFragmentTag : Tag → Bool
  | Tag.SocketSetDontFragmentTag _ => true
  | _ => false

/-- Recognises an `Ipv4PacketInfoTag`. -/
def isIpv4PacketInfoTag : Tag → Bool
  | Tag.Ipv4PacketInfoTag _ => true
  | _ => false

/-- Recognises an `Ipv6PacketInfoTag`. -/
def isIpv6PacketInfoTag : Tag → Bool
  | Tag.Ipv6PacketInfoTag _ => true
  | _ => false

/-- The callbacks a socket registers with an end point. -/
inductive Callback
  | ForwardUp
  | ForwardIcmp
  | Destroy
  | ForwardUp6
  | ForwardIcmp6
  | Destroy6
deriving DecidableEq

/-- An `Ipv4EndPoint` or `Ipv6EndPoint`: the bound local address and port, the
registered callbacks, whether reception is enabled and the device it is
restricted to. The wildcard address `GetAny ()` is 0 in both families. -/
structure EndPoint where
  localAddress : Nat
  localPort : Nat
  rxCallback : Option Callback
  icmpCallback : Option Callback
  destroyCallback : Option Callback
  rxEnabled : Bool
  boundNetDevice : Option Nat
deriving DecidableEq

/-- The four allocation strategies of `Allocate` and `Allocate6`. -/
inductive AllocRequest
  | any
  | port (port : Nat)
  | address (address : Nat)
  | addressPort (address : Nat) (port : Nat)
deriving DecidableEq

/-- Modelled from the spec: the outcome of `RudpL4Protocol::Allocate` /
`Allocate6`, which are not among the source files. The caller receives an end
point or a null pointer; why an allocation failed (the port is taken, or the
address cannot be bound) is not visible to the caller and is kept only to
state what the socket reports. -/
inductive AllocResult
  | ok (endPoint : EndPoint)
  | portInUse
  | addressNotAvailable
deriving DecidableEq

/-- The pointer returned by the allocator: null on either failure. -/
def AllocResult.ptr : AllocResult → Option EndPoint
  | AllocResult.ok ep => some ep
  | AllocResult.portInUse => none
  | AllocResult.addressNotAvailable => none

/-- An `Ipv4Route` or `Ipv6Route`: its source address and an identifier. -/
structure Route where
  source : Nat
  uid : Nat
deriving DecidableEq

/-- What `RouteOutput` hands back: the route pointer (null when there is no
route) and the value it stored in the `errno_` output parameter. -/
structure RouteResult where
  route : Option Route
  errno_ : SocketErrno
deriving DecidableEq

/-- Modelled from the spec: the collaborators of the socket that are not among
the source files. `Allocate` and `Allocate6` are the end point allocator of
`RudpL4Protocol`; `RoutingProtocol` and `RoutingProtocol6` are the result of
`GetRoutingProtocol ()` on the node (`none` when it is null), applied to the
packet, the destination and the outgoing device as `RouteOutput`. -/
structure Env where
  Allocate : AllocRequest → AllocResult
  Allocate6 : AllocRequest → AllocResult
  RoutingProtocol : Option (Packet → Nat → Option Nat → RouteResult)
  RoutingProtocol6 : Option (Packet → Nat → Option Nat → RouteResult)

/-- The calls the socket makes on its collaborators and the notifications it
raises, recorded in the order they happen. `Send` and `Send6` are
`RudpL4Protocol::Send` with the packet copy, source address, destination
address, source port, destination port and route. -/
inductive Event
  | Allocate (request : AllocRequest)
  | Allocate6 (request : AllocRequest)
  | DeAllocate (endPoint : EndPoint)
  | DeAllocate6 (endPoint : EndPoint)
  | Send (p : Packet) (saddr daddr sport dport : Nat) (route : Option Route)
  | Send6 (p : Packet) (saddr daddr sport dport : Nat) (route : Option Route)
  | NotifyConnectionSucceeded
  | NotifyDataSent (size : Nat)
  | NotifySend (available : Nat)
  | NotifyDataRecv
  | Drop (p : Packet)
  | Ipv6LeaveGroup
deriving DecidableEq

/-- The fields of an `Ipv4Header` that `ForwardUp` reads. -/
structure Ipv4Header where
  source : Nat
  tos : Nat
  ttl : Nat
deriving DecidableEq

/-- The fields of an `Ipv6Header` that `ForwardUp6` reads. -/
structure Ipv6Header where
  source : Nat
  trafficClass : Nat
  hopLimit : Nat
deriving DecidableEq

/-- Model of `Ipv4Address::IsMulticast`: the address lies in 224.0.0.0/4. -/
def Ipv4IsMulticast (a : Nat) : Bool :=
  a &&& 0xf0000000 == 0xe0000000

/-- Model of `Ipv4Address::IsBroadcast`: the address is 255.255.255.255. -/
def Ipv4IsBroadcast (a : Nat) : Bool :=
  a == 0xffffffff

/-- Model of `Ipv6Address::IsMulticast`: the first byte is 0xff. -/
def Ipv6IsMulticast (a : Nat) : Bool :=
  a >>> 120 == 0xff

/-- Model of `Ipv6Address::IsIpv4MappedAddress`: the address lies in `::ffff:0:0/96`. -/
def IsIpv4MappedAddress (a : Nat) : Bool :=
  a >>> 32 == 0xffff

/-- Model of `Ipv6Address::GetIpv4MappedAddress`: the low 32 bits. -/
def GetIpv4MappedAddress (a : Nat) : Nat :=
  a % 2 ^ 32

/-- The data members of `RudpSocketImpl` that the source file uses (the class
declaration, rudp-socket-impl.h, is not among the source files), the options of
the `Socket` base class that it queries, and the record `trace` of the calls
and notifications made so far. -/
structure RudpSocketImpl where
  m_endPoint : Option EndPoint
  m_endPoint6 : Option EndPoint
  m_errno : SocketErrno
  m_shutdownSend : Bool
  m_shutdownRecv : Bool
  m_connected : Bool
  m_rxAvailable : Nat
  m_deliveryQueue : List Packet
  m_rcvBufSize : Nat
  m_mtuDiscover : Bool
  m_defaultAddress : Address
  m_defaultPort : Nat
  m_boundnetdevice : Option Nat
  m_manualIpTos : Bool
  m_ipTos : Nat
  m_manualIpTtl : Bool
  m_ipTtl : Nat
  m_manualIpv6Tclass : Bool
  m_ipv6Tclass : Nat
  m_manualIpv6HopLimit : Bool
  m_ipv6HopLimit : Nat
  m_recvPktInfo : Bool
  m_ipRecvTos : Bool
  m_ipRecvTtl : Bool
  m_ipv6RecvTclass : Bool
  m_ipv6RecvHoplimit : Bool
  m_ipv6MulticastGroupAddress : Nat
  trace : List Event
deriving DecidableEq

namespace RudpSocketImpl

/-- Constructor `RudpSocketImpl::RudpSocketImpl ()` followed by the attribute
`RcvBufSize`: no end point, no error, no shutdown, not connected, nothing
queued; the options of the base class are off. -/
def fresh (rcvBufSize : Nat) : RudpSocketImpl :=
  { m_endPoint := none
    m_endPoint6 := none
    m_errno := SocketErrno.ERROR_NOTERROR
    m_shutdownSend := false
    m_shutdownRecv := false
    m_connected := false
    m_rxAvailable := 0
    m_deliveryQueue := []
    m_rcvBufSize := rcvBufSize
    m_mtuDiscover := false
    m_defaultAddress := Address.invalid
    m_defaultPort := 0
    m_boundnetdevice := none
    m_manualIpTos := false
    m_ipTos := 0
    m_manualIpTtl := false
    m_ipTtl := 0
    m_manualIpv6Tclass := false
    m_ipv6Tclass := 0
    m_manualIpv6HopLimit := false
    m_ipv6HopLimit := 0
    m_recvPktInfo := false
    m_ipRecvTos := false
    m_ipRecvTtl := false
    m_ipv6RecvTclass := false
    m_ipv6RecvHoplimit := false
    m_ipv6MulticastGroupAddress := 0
    trace := [] }

/-- Appends one event to the record. -/
def emit (s : RudpSocketImpl) (e : Event) : RudpSocketImpl :=
  { s with trace := s.trace ++ [e] }

def GetErrno (s : RudpSocketImpl) : SocketErrno := s.m_errno

def Destroy (s : RudpSocketImpl) : RudpSocketImpl :=
  { s with m_endPoint := none }

def Destroy6 (s : RudpSocketImpl) : RudpSocketImpl :=
  { s with m_endPoint6 := none }

/-- Model of `RudpSocketImpl::DeallocateEndPoint`: each non-null end point has
its destroy callback cleared, is handed to `DeAllocate` and the reference is
set to null. -/
def DeallocateEndPoint (s : RudpSocketImpl) : RudpSocketImpl :=
  let s :=
    match s.m_endPoint with
    | some ep =>
      { emit s (Event.DeAllocate { ep with destroyCallback := none }) with m_endPoint := none }
    | none => s
  match s.m_endPoint6 with
  | some ep =>
    { emit s (Event.DeAllocate6 { ep with destroyCallback := none }) with m_endPoint6 := none }
  | none => s

/-- Model of `RudpSocketImpl::FinishBind`: registers the three callbacks with
each non-null end point; returns 0 when at least one end point is non-null and
-1 otherwise. -/
def FinishBind (s : RudpSocketImpl) : RudpSocketImpl × Int :=
  let done := false
  let r : RudpSocketImpl × Bool :=
    match s.m_endPoint with
    | some ep =>
      ({ s with
          m_endPoint := some
            { ep with
              rxCallback := some Callback.ForwardUp
              icmpCallback := some Callback.ForwardIcmp
              destroyCallback := some Callback.Destroy } }, true)
    | none => (s, done)
  let r : RudpSocketImpl × Bool :=
    match r.1.m_endPoint6 with
    | some ep =>
      ({ r.1 with
          m_endPoint6 := some
            { ep with
              rxCallback := some Callback.ForwardUp6
              icmpCallback := some Callback.ForwardIcmp6
              destroyCallback := some Callback.Destroy6 } }, true)
    | none => r
  if r.2 then (r.1, 0) else (r.1, -1)

/-- Model of `RudpSocketImpl::Bind (void)`. -/
def Bind (env : Env) (s : RudpSocketImpl) : RudpSocketImpl × Int :=
  FinishBind
    { emit s (Event.Allocate AllocRequest.any) with
      m_endPoint := (env.Allocate AllocRequest.any).ptr }

/-- Model of `RudpSocketImpl::Bind6 (void)`. -/
def Bind6 (env : Env) (s : RudpSocketImpl) : RudpSocketImpl × Int :=
  FinishBind
    { emit s (Event.Allocate6 AllocRequest.any) with
      m_endPoint6 := (env.Allocate6 AllocRequest.any).ptr }

/-- The allocation strategy chosen by `Bind (const Address &)` for a local
address and port: wildcard address is 0, wildcard port is 0. -/
def bindRequest (address port : Nat) : AllocRequest :=
  if address = 0 ∧ port = 0 then AllocRequest.any
  else if address = 0 ∧ port ≠ 0 then AllocRequest.port port
  else if address ≠ 0 ∧ port = 0 then AllocRequest.address address
  else AllocRequest.addressPort address port

/-- Model of `RudpSocketImpl::Bind (const Address &address)`. The result is
`none` when `NS_ASSERT_MSG (m_endPoint == 0, ...)` (or its IPv6 twin) fails. -/
def BindAddress (env : Env) (s : RudpSocketImpl) (address : Address) :
    Option (RudpSocketImpl × Int) :=
  match address with
  | Address.InetSocketAddress ipv4 port =>
    if s.m_endPoint ≠ none then none
    else
      let s :=
        { emit s (Event.Allocate (bindRequest ipv4 port)) with
          m_endPoint := (env.Allocate (bindRequest ipv4 port)).ptr }
      if s.m_endPoint = none then
        some ({ s with
          m_errno :=
            if port ≠ 0 then SocketErrno.ERROR_ADDRINUSE else SocketErrno.ERROR_ADDRNOTAVAIL },
          -1)
      else some (FinishBind s)
  | Address.Inet6SocketAddress ipv6 port =>
    if s.m_endPoint ≠ none then none
    else
      let s :=
        { emit s (Event.Allocate6 (bindRequest ipv6 port)) with
          m_endPoint6 := (env.Allocate6 (bindRequest ipv6 port)).ptr }
      if s.m_endPoint6 = none then
        some ({ s with
          m_errno :=
            if port ≠ 0 then SocketErrno.ERROR_ADDRINUSE else SocketErrno.ERROR_ADDRNOTAVAIL },
          -1)
      else some (FinishBind s)
  | _ => some ({ s with m_errno := SocketErrno.ERROR_INVAL }, -1)

def ShutdownSend (s : RudpSocketImpl) : RudpSocketImpl × Int :=
  ({ s with m_shutdownSend := true }, 0)

/-- Model of `RudpSocketImpl::ShutdownRecv`: sets the flag and disables
reception at each non-null end point. -/
def ShutdownRecv (s : RudpSocketImpl) : RudpSocketImpl × Int :=
  ({ s with
      m_shutdownRecv := true
      m_endPoint := s.m_endPoint.map fun ep => { ep with rxEnabled := false }
      m_endPoint6 := s.m_endPoint6.map fun ep => { ep with rxEnabled := false } }, 0)

/-- Model of `Socket::Ipv6LeaveGroup` of the base class: nothing when no group
was joined, otherwise the group is left and forgotten. -/
def Ipv6LeaveGroup (s : RudpSocketImpl) : RudpSocketImpl :=
  if s.m_ipv6MulticastGroupAddress = 0 then s
  else { emit s Event.Ipv6LeaveGroup with m_ipv6MulticastGroupAddress := 0 }

/-- Model of `RudpSocketImpl::Close`. -/
def Close (s : RudpSocketImpl) : RudpSocketImpl × Int :=
  if s.m_shutdownRecv = true ∧ s.m_shutdownSend = true then
    ({ s with m_errno := SocketErrno.ERROR_BADF }, -1)
  else
    let s := Ipv6LeaveGroup s
    let s := { s with m_shutdownRecv := true }
    let s := { s with m_shutdownSend := true }
    (DeallocateEndPoint s, 0)

/-- Model of `RudpSocketImpl::Connect`. -/
def Connect (s : RudpSocketImpl) (address : Address) : RudpSocketImpl × Int :=
  match address with
  | Address.InetSocketAddress ipv4 port =>
    (emit { s with
        m_defaultAddress := Address.Ipv4Address ipv4
        m_defaultPort := port
        m_connected := true } Event.NotifyConnectionSucceeded, 0)
  | Address.Inet6SocketAddress ipv6 port =>
    (emit { s with
        m_defaultAddress := Address.Ipv6Address ipv6
        m_defaultPort := port
        m_connected := true } Event.NotifyConnectionSucceeded, 0)
  | _ => (s, -1)

def Listen (s : RudpSocketImpl) : RudpSocketImpl × Int :=
  ({ s with m_errno := SocketErrno.ERROR_OPNOTSUPP }, -1)

/-- Model of `RudpSocketImpl::GetTxAvailable`: `MAX_IPV4_RUDP_DATAGRAM_SIZE`. -/
def GetTxAvailable : Nat := 65507

/-- Model of `RudpSocketImpl::GetRxAvailable`. -/
def GetRxAvailable (s : RudpSocketImpl) : Nat := s.m_rxAvailable

/-- The part of `DoSendTo (Ptr<Packet>, Ipv4Address, uint16_t)` that follows the
lazy bind (from the shutdown check to the end). `none` stands for the
dereference of a null `m_endPoint`. -/
def DoSendToIpv4Bound (env : Env) (s : RudpSocketImpl) (p : Packet) (dest port : Nat) :
    Option (RudpSocketImpl × Int) :=
  if s.m_shutdownSend then
    some ({ s with m_errno := SocketErrno.ERROR_SHUTDOWN }, -1)
  else if p.size > GetTxAvailable then
    some ({ s with m_errno := SocketErrno.ERROR_MSGSIZE }, -1)
  else
    let p := if s.m_manualIpTos then p.AddPacketTag (Tag.SocketIpTosTag s.m_ipTos) else p
    let p :=
      if s.m_manualIpTtl && s.m_ipTtl != 0 && !Ipv4IsMulticast dest && !Ipv4IsBroadcast dest then
        p.AddPacketTag (Tag.SocketIpTtlTag s.m_ipTtl)
      else p
    let p :=
      if (p.RemovePacketTag isDontFragmentTag).2 then (p.RemovePacketTag isDontFragmentTag).1
      else
        (p.RemovePacketTag isDontFragmentTag).1.AddPacketTag
          (Tag.SocketSetDontFragmentTag s.m_mtuDiscover)
    match s.m_endPoint with
    | none => none
    | some ep =>
      if ep.localAddress ≠ 0 then
        some (emit (emit (emit s (Event.Send p ep.localAddress dest ep.localPort port none))
          (Event.NotifyDataSent p.size)) (Event.NotifySend GetTxAvailable), (p.size : Int))
      else
        match env.RoutingProtocol with
        | some routing =>
          match (routing p dest s.m_boundnetdevice).route with
          | some route =>
            some (emit (emit s (Event.Send p route.source dest ep.localPort port (some route)))
              (Event.NotifyDataSent p.size), (p.size : Int))
          | none =>
            some ({ s with m_errno := (routing p dest s.m_boundnetdevice).errno_ }, -1)
        | none => some ({ s with m_errno := SocketErrno.ERROR_NOROUTETOHOST }, -1)

/-- Model of `RudpSocketImpl::DoSendTo (Ptr<Packet>, Ipv4Address, uint16_t)`:
lazy bind with its two assertions (`none` when one fails), then the rest. -/
def DoSendToIpv4 (env : Env) (s : RudpSocketImpl) (p : Packet) (dest port : Nat) :
    Option (RudpSocketImpl × Int) :=
  if s.m_endPoint = none then
    if (Bind env s).2 = -1 then
      if (Bind env s).1.m_endPoint = none then some ((Bind env s).1, -1) else none
    else if (Bind env s).1.m_endPoint = none then none
    else DoSendToIpv4Bound env (Bind env s).1 p dest port
  else DoSendToIpv4Bound env s p dest port

/-- The part of `DoSendTo (Ptr<Packet>, Ipv6Address, uint16_t)` that follows the
lazy bind. `none` stands for the dereference of a null `m_endPoint6`. -/
def DoSendToIpv6Bound (env : Env) (s : RudpSocketImpl) (p : Packet) (dest port : Nat) :
    Option (RudpSocketImpl × Int) :=
  if s.m_shutdownSend then
    some ({ s with m_errno := SocketErrno.ERROR_SHUTDOWN }, -1)
  else if p.size > GetTxAvailable then
    some ({ s with m_errno := SocketErrno.ERROR_MSGSIZE }, -1)
  else
    let p :=
      if s.m_manualIpv6Tclass then p.AddPacketTag (Tag.SocketIpv6TclassTag s.m_ipv6Tclass)
      else p
    let p :=
      if s.m_manualIpv6HopLimit && s.m_ipv6HopLimit != 0 && !Ipv6IsMulticast dest then
        p.AddPacketTag (Tag.SocketIpv6HopLimitTag s.m_ipv6HopLimit)
      else p
    match s.m_endPoint6 with
    | none => none
    | some ep =>
      if ep.localAddress ≠ 0 then
        some (emit (emit (emit s (Event.Send6 p ep.localAddress dest ep.localPort port none))
          (Event.NotifyDataSent p.size)) (Event.NotifySend GetTxAvailable), (p.size : Int))
      else
        match env.RoutingProtocol6 with
        | some routing =>
          match (routing p dest s.m_boundnetdevice).route with
          | some route =>
            some (emit (emit s (Event.Send6 p route.source dest ep.localPort port (some route)))
              (Event.NotifyDataSent p.size), (p.size : Int))
          | none =>
            some ({ s with m_errno := (routing p dest s.m_boundnetdevice).errno_ }, -1)
        | none => some ({ s with m_errno := SocketErrno.ERROR_NOROUTETOHOST }, -1)

/-- Model of `RudpSocketImpl::DoSendTo (Ptr<Packet>, Ipv6Address, uint16_t)`: an
IPv4-mapped destination goes to the IPv4 path; otherwise lazy bind with its two
assertions (`none` when one fails), then the rest. -/
def DoSendToIpv6 (env : Env) (s : RudpSocketImpl) (p : Packet) (dest port : Nat) :
    Option (RudpSocketImpl × Int) :=
  if IsIpv4MappedAddress dest then DoSendToIpv4 env s p (GetIpv4MappedAddress dest) port
  else if s.m_endPoint6 = none then
    if (Bind6 env s).2 = -1 then
      if (Bind6 env s).1.m_endPoint6 = none then some ((Bind6 env s).1, -1) else none
    else if (Bind6 env s).1.m_endPoint6 = none then none
    else DoSendToIpv6Bound env (Bind6 env s).1 p dest port
  else DoSendToIpv6Bound env s p dest port

/-- Model of `RudpSocketImpl::DoSendTo (Ptr<Packet>, const Address &)`. -/
def DoSendToAddress (env : Env) (s : RudpSocketImpl) (p : Packet) (address : Address) :
    Option (RudpSocketImpl × Int) :=
  if !s.m_connected then
    match address with
    | Address.InetSocketAddress ipv4 port => DoSendToIpv4 env s p ipv4 port
    | Address.Inet6SocketAddress ipv6 port => DoSendToIpv6 env s p ipv6 port
    | _ => some (s, -1)
  else
    match s.m_defaultAddress with
    | Address.Ipv4Address ipv4 => DoSendToIpv4 env s p ipv4 s.m_defaultPort
    | Address.Ipv6Address ipv6 => DoSendToIpv6 env s p ipv6 s.m_defaultPort
    | _ => some ({ s with m_errno := SocketErrno.ERROR_AFNOSUPPORT }, -1)

/-- What `DoSend` does after its lazy bind: the shutdown check and the send to
the default address. -/
def DoSendBound (env : Env) (s : RudpSocketImpl) (p : Packet) : Option (RudpSocketImpl × Int) :=
  if s.m_shutdownSend then
    some ({ s with m_errno := SocketErrno.ERROR_SHUTDOWN }, -1)
  else DoSendToAddress env s p s.m_defaultAddress

/-- Whether `InetSocketAddress::IsMatchingType` holds of an address. -/
def isInetSocketAddress : Address → Bool
  | Address.InetSocketAddress _ _ => true
  | _ => false

/-- Whether `Inet6SocketAddress::IsMatchingType` holds of an address. -/
def isInet6SocketAddress : Address → Bool
  | Address.Inet6SocketAddress _ _ => true
  | _ => false

/-- Model of `RudpSocketImpl::DoSend`: the lazy bind tests the default address
with `InetSocketAddress::IsMatchingType` / `Inet6SocketAddress::IsMatchingType`
(`none` when an assertion fails). -/
def DoSend (env : Env) (s : RudpSocketImpl) (p : Packet) : Option (RudpSocketImpl × Int) :=
  if s.m_endPoint = none ∧ isInetSocketAddress s.m_defaultAddress = true then
    if (Bind env s).2 = -1 then
      if (Bind env s).1.m_endPoint = none then some ((Bind env s).1, -1) else none
    else if (Bind env s).1.m_endPoint = none then none
    else DoSendBound env (Bind env s).1 p
  else if s.m_endPoint6 = none ∧ isInet6SocketAddress s.m_defaultAddress = true then
    if (Bind6 env s).2 = -1 then
      if (Bind6 env s).1.m_endPoint6 = none then some ((Bind6 env s).1, -1) else none
    else if (Bind6 env s).1.m_endPoint6 = none then none
    else DoSendBound env (Bind6 env s).1 p
  else DoSendBound env s p

/-- Model of `RudpSocketImpl::Send`. -/
def Send (env : Env) (s : RudpSocketImpl) (p : Packet) : Option (RudpSocketImpl × Int) :=
  if !s.m_connected then
    some ({ s with m_errno := SocketErrno.ERROR_NOTCONN }, -1)
  else DoSend env s p

/-- Model of `RudpSocketImpl::SendTo`. -/
def SendTo (env : Env) (s : RudpSocketImpl) (p : Packet) (address : Address) :
    Option (RudpSocketImpl × Int) :=
  match address with
  | Address.InetSocketAddress ipv4 port =>
    let p := if s.m_manualIpTos then p.AddPacketTag (Tag.SocketIpTosTag s.m_ipTos) else p
    DoSendToIpv4 env s p ipv4 port
  | Address.Inet6SocketAddress ipv6 port =>
    let p :=
      if s.m_manualIpv6Tclass then p.AddPacketTag (Tag.SocketIpv6TclassTag s.m_ipv6Tclass)
      else p
    DoSendToIpv6 env s p ipv6 port
  | _ => some (s, -1)

/-- Model of `RudpSocketImpl::Recv`. The subtraction `m_rxAvailable -=
p->GetSize ()` is on `uint32_t`. -/
def Recv (s : RudpSocketImpl) (maxSize : Nat) : RudpSocketImpl × Option Packet :=
  match s.m_deliveryQueue with
  | [] => ({ s with m_errno := SocketErrno.ERROR_AGAIN }, none)
  | p :: rest =>
    if p.size ≤ maxSize then
      ({ s with
          m_deliveryQueue := rest
          m_rxAvailable := (s.m_rxAvailable + (2 ^ 32 - p.size % 2 ^ 32)) % 2 ^ 32 }, some p)
    else (s, none)

/-- Model of `RudpSocketImpl::RecvFrom`: the packet of `Recv` and the value of
`fromAddress` after the call. `none` when `NS_ASSERT (found)` fails. -/
def RecvFrom (s : RudpSocketImpl) (maxSize : Nat) (fromAddress : Address) :
    Option (RudpSocketImpl × Option Packet × Address) :=
  match (Recv s maxSize).2 with
  | some packet =>
    match packet.PeekSocketAddressTag with
    | some a => some ((Recv s maxSize).1, some packet, a)
    | none => none
  | none => some ((Recv s maxSize).1, none, fromAddress)

/-- Model of `RudpSocketImpl::ForwardUp`. The sum `m_rxAvailable +
packet->GetSize ()` is on `uint32_t`. -/
def ForwardUp (s : RudpSocketImpl) (packet : Packet) (header : Ipv4Header) (port : Nat)
    (incomingInterface : Nat) : RudpSocketImpl :=
  if s.m_shutdownRecv then s
  else
    let packet :=
      if s.m_recvPktInfo then
        (packet.RemovePacketTag isIpv4PacketInfoTag).1.AddPacketTag
          (Tag.Ipv4PacketInfoTag incomingInterface)
      else packet
    let packet :=
      if s.m_ipRecvTos then packet.AddPacketTag (Tag.SocketIpTosTag header.tos) else packet
    let packet :=
      if s.m_ipRecvTtl then packet.AddPacketTag (Tag.SocketIpTtlTag header.ttl) else packet
    if (s.m_rxAvailable + packet.size) % 2 ^ 32 ≤ s.m_rcvBufSize then
      let packet :=
        packet.AddPacketTag (Tag.SocketAddressTag (Address.InetSocketAddress header.source port))
      emit { s with
          m_deliveryQueue := s.m_deliveryQueue ++ [packet]
          m_rxAvailable := (s.m_rxAvailable + packet.size) % 2 ^ 32 } Event.NotifyDataRecv
    else emit s (Event.Drop packet)

/-- Model of `RudpSocketImpl::ForwardUp6`. -/
def ForwardUp6 (s : RudpSocketImpl) (packet : Packet) (header : Ipv6Header) (port : Nat)
    (incomingInterface : Nat) : RudpSocketImpl :=
  if s.m_shutdownRecv then s
  else
    let packet :=
      if s.m_recvPktInfo then
        (packet.RemovePacketTag isIpv6PacketInfoTag).1.AddPacketTag
          (Tag.Ipv6PacketInfoTag incomingInterface)
      else packet
    let packet :=
      if s.m_ipv6RecvTclass then
        packet.AddPacketTag (Tag.SocketIpv6TclassTag header.trafficClass)
      else packet
    let packet :=
      if s.m_ipv6RecvHoplimit then
        packet.AddPacketTag (Tag.SocketIpv6HopLimitTag header.hopLimit)
      else packet
    if (s.m_rxAvailable + packet.size) % 2 ^ 32 ≤ s.m_rcvBufSize then
      let packet :=
        packet.AddPacketTag (Tag.SocketAddressTag (Address.Inet6SocketAddress header.source port))
      emit { s with
          m_deliveryQueue := s.m_deliveryQueue ++ [packet]
          m_rxAvailable := (s.m_rxAvailable + packet.size) % 2 ^ 32 } Event.NotifyDataRecv
    else emit s (Event.Drop packet)

def SetRcvBufSize (s : RudpSocketImpl) (size : Nat) : RudpSocketImpl :=
  { s with m_rcvBufSize := size }

def GetRcvBufSize (s : RudpSocketImpl) : Nat := s.m_rcvBufSize

/-- Sum of the sizes of the payloads in the delivery queue. -/
def queuedBytes (s : RudpSocketImpl) : Nat :=
  (s.m_deliveryQueue.map Packet.size).sum

end RudpSocketImpl

/-- The receive-side and shutdown operations that can be applied to a socket,
with their arguments. -/
inductive Op
  | ForwardUp (packet : Packet) (header : Ipv4Header) (port : Nat) (incomingInterface : Nat)
  | ForwardUp6 (packet : Packet) (header : Ipv6Header) (port : Nat) (incomingInterface : Nat)
  | Recv (maxSize : Nat)
  | RecvFrom (maxSize : Nat)
  | ShutdownRecv
  | ShutdownSend
  | Close
deriving DecidableEq

namespace Op

/-- The state after one operation; `none` when the operation stops at an
assertion. -/
def apply (s : RudpSocketImpl) : Op → Option RudpSocketImpl
  | ForwardUp packet header port incomingInterface =>
    some (s.ForwardUp packet header port incomingInterface)
  | ForwardUp6 packet header port incomingInterface =>
    some (s.ForwardUp6 packet header port incomingInterface)
  | Recv maxSize => some (s.Recv maxSize).1
  | RecvFrom maxSize => (s.RecvFrom maxSize Address.invalid).map fun r => r.1
  | ShutdownRecv => some s.ShutdownRecv.1
  | ShutdownSend => some s.ShutdownSend.1
  | Close => some s.Close.1

/-- The state after a sequence of operations, first to last. -/
def run (s : RudpSocketImpl) : List Op → Option RudpSocketImpl
  | [] => some s
  | op :: ops => (apply s op).bind fun s1 => run s1 ops

/-- A delivery or a retrieval: `ForwardUp`, `ForwardUp6`, `Recv` or
`RecvFrom`. -/
def isReceivePath : Op → Bool
  | ForwardUp _ _ _ _ => true
  | ForwardUp6 _ _ _ _ => true
  | Recv _ => true
  | RecvFrom _ => true
  | _ => false

/-- The size of the payload a delivery carries; 0 for the other operations. -/
def deliveredSize : Op → Nat
  | ForwardUp packet _ _ _ => packet.size
  | ForwardUp6 packet _ _ _ => packet.size
  | _ => 0

end Op

/-! ## Auxiliary definitions for the socket proofs -/

namespace RudpSocketImpl

/-- The packet of `ForwardUp` after the optional packet-info, TOS and TTL tags
have been attached. -/
def tagged (s : RudpSocketImpl) (packet : Packet) (header : Ipv4Header)
    (incomingInterface : Nat) : Packet :=
  let packet :=
    if s.m_recvPktInfo then
      (packet.RemovePacketTag isIpv4PacketInfoTag).1.AddPacketTag
        (Tag.Ipv4PacketInfoTag incomingInterface)
    else packet
  let packet :=
    if s.m_ipRecvTos then packet.AddPacketTag (Tag.SocketIpTosTag header.tos) else packet
  if s.m_ipRecvTtl then packet.AddPacketTag (Tag.SocketIpTtlTag header.ttl) else packet

/-- The packet of `ForwardUp6` after the optional packet-info, traffic class
and hop limit tags have been attached. -/
def tagged6 (s : RudpSocketImpl) (packet : Packet) (header : Ipv6Header)
    (incomingInterface : Nat) : Packet :=
  let packet :=
    if s.m_recvPktInfo then
      (packet.RemovePacketTag isIpv6PacketInfoTag).1.AddPacketTag
        (Tag.Ipv6PacketInfoTag incomingInterface)
    else packet
  let packet :=
    if s.m_ipv6RecvTclass then
      packet.AddPacketTag (Tag.SocketIpv6TclassTag header.trafficClass)
    else packet
  if s.m_ipv6RecvHoplimit then
    packet.AddPacketTag (Tag.SocketIpv6HopLimitTag header.hopLimit)
  else packet

/-- What `ForwardUp` does when it accepts the packet `q`. -/
def enqueue (s : RudpSocketImpl) (q : Packet) : RudpSocketImpl :=
  emit { s with
      m_deliveryQueue := s.m_deliveryQueue ++ [q]
      m_rxAvailable := (s.m_rxAvailable + q.size) % 2 ^ 32 } Event.NotifyDataRecv

/-- The delivery of `packet` took `s` to `t` by queueing it: the payload, with
its tags, is at the back of the queue, the counter grew by its size and a
data-available notification was raised. -/
def Enqueued (s t : RudpSocketImpl) (packet : Packet) : Prop :=
  ∃ q, q.size = packet.size ∧ q.uid = packet.uid ∧
    t.m_deliveryQueue = s.m_deliveryQueue ++ [q] ∧
    t.m_rxAvailable = s.m_rxAvailable + packet.size ∧
    t.trace = s.trace ++ [Event.NotifyDataRecv]

/-- The delivery of `packet` took `s` to `t` by dropping it: queue and counter
are as before and the drop trace fired with the payload. -/
def Dropped (s t : RudpSocketImpl) (packet : Packet) : Prop :=
  ∃ q, q.size = packet.size ∧ q.uid = packet.uid ∧
    t.m_deliveryQueue = s.m_deliveryQueue ∧
    t.m_rxAvailable = s.m_rxAvailable ∧
    t.trace = s.trace ++ [Event.Drop q]

/-- The counter is the queued byte total reduced to 32 bits. -/
def CounterMatches (s : RudpSocketImpl) : Prop :=
  s.m_rxAvailable = s.queuedBytes % 2 ^ 32

/-- The state of a socket whose counter is exact and within the budget `B`,
with reception not shut down. -/
def WithinBudget (B : Nat) (s : RudpSocketImpl) : Prop :=
  s.m_rcvBufSize = B ∧ s.m_shutdownRecv = false ∧ s.m_rxAvailable = s.queuedBytes ∧
  s.m_rxAvailable ≤ B

end RudpSocketImpl

/-- A packet of `n` bytes without tags. -/
def samplePacket (n : Nat) : Packet :=
  { size := n, tags := [], uid := n }

/-- An IPv4 header from 10.0.0.7 with TOS 0 and TTL 64. -/
def sampleHeader : Ipv4Header :=
  { source := 0x0a000007, tos := 0, ttl := 64 }

/-- An IPv6 header from ::7 with traffic class 0 and hop limit 64. -/
def sampleHeader6 : Ipv6Header :=
  { source := 7, trafficClass := 0, hopLimit := 64 }

/-- Two accepted deliveries, one dropped delivery, one retrieval, then
`ShutdownSend` and `Close`. -/
def sampleOps : List Op :=
  [Op.ForwardUp (samplePacket 60) sampleHeader 9000 1,
   Op.ForwardUp6 (samplePacket 30) sampleHeader6 9000 1,
   Op.ForwardUp (samplePacket 20) sampleHeader 9000 1,
   Op.RecvFrom 100, Op.ShutdownSend, Op.Close]

/-- Deliveries of 60, 30 and 20 bytes and one retrieval. -/
def sampleDeliveries : List Op :=
  [Op.ForwardUp (samplePacket 60) sampleHeader 9000 1,
   Op.ForwardUp6 (samplePacket 30) sampleHeader6 9000 1,
   Op.Recv 100,
   Op.ForwardUp (samplePacket 20) sampleHeader 9000 1]

/-- A socket holding a 100-byte payload in front of a 10-byte payload, with the
counter at 110. -/
def sampleQueued : RudpSocketImpl :=
  { RudpSocketImpl.fresh 131072 with
    m_deliveryQueue := [samplePacket 100, samplePacket 10]
    m_rxAvailable := 110 }

/-- An end point bound to 10.0.0.1, port 49153, as the allocator returns it. -/
def sampleEndPoint : EndPoint :=
  { localAddress := 0x0a000001
    localPort := 49153
    rxCallback := none
    icmpCallback := none
    destroyCallback := none
    rxEnabled := true
    boundNetDevice := none }

/-- An end point bound to the wildcard address, port 49153. -/
def wildcardEndPoint : EndPoint :=
  { sampleEndPoint with localAddress := 0 }

/-- A socket holding an IPv4 and an IPv6 end point, with two payloads queued. -/
def sampleBound : RudpSocketImpl :=
  { sampleQueued with
    m_endPoint := some sampleEndPoint
    m_endPoint6 := some wildcardEndPoint }

/-- Recognises a call of `DeAllocate` on the allocator, of either family. -/
def isDeAllocate : Event → Bool
  | Event.DeAllocate _ => true
  | Event.DeAllocate6 _ => true
  | _ => false

/-- The deallocations that `DeallocateEndPoint` requests for the end points a
socket holds: one per non-null reference, IPv4 first. -/
def pendingDeallocations (s : RudpSocketImpl) : List Event :=
  (s.m_endPoint.toList.map fun ep => Event.DeAllocate { ep with destroyCallback := none }) ++
  (s.m_endPoint6.toList.map fun ep => Event.DeAllocate6 { ep with destroyCallback := none })

namespace RudpSocketImpl

/-- An IPv4 end point after `FinishBind` registered the three callbacks. -/
def registered (ep : EndPoint) : EndPoint :=
  { ep with
    rxCallback := some Callback.ForwardUp
    icmpCallback := some Callback.ForwardIcmp
    destroyCallback := some Callback.Destroy }

/-- An IPv6 end point after `FinishBind` registered the three callbacks. -/
def registered6 (ep : EndPoint) : EndPoint :=
  { ep with
    rxCallback := some Callback.ForwardUp6
    icmpCallback := some Callback.ForwardIcmp6
    destroyCallback := some Callback.Destroy6 }

/-- The packet of the IPv4 send path after the TOS, TTL and don't-fragment
tags have been settled. -/
def sendTagged (s : RudpSocketImpl) (p : Packet) (dest : Nat) : Packet :=
  let p := if s.m_manualIpTos then p.AddPacketTag (Tag.SocketIpTosTag s.m_ipTos) else p
  let p :=
    if s.m_manualIpTtl && s.m_ipTtl != 0 && !Ipv4IsMulticast dest && !Ipv4IsBroadcast dest then
      p.AddPacketTag (Tag.SocketIpTtlTag s.m_ipTtl)
    else p
  if (p.RemovePacketTag isDontFragmentTag).2 then (p.RemovePacketTag isDontFragmentTag).1
  else
    (p.RemovePacketTag isDontFragmentTag).1.AddPacketTag
      (Tag.SocketSetDontFragmentTag s.m_mtuDiscover)

/-- The packet of the IPv6 send path after the traffic class and hop limit
tags have been attached. -/
def sendTagged6 (s : RudpSocketImpl) (p : Packet) (dest : Nat) : Packet :=
  let p :=
    if s.m_manualIpv6Tclass then p.AddPacketTag (Tag.SocketIpv6TclassTag s.m_ipv6Tclass)
    else p
  if s.m_manualIpv6HopLimit && s.m_ipv6HopLimit != 0 && !Ipv6IsMulticast dest then
    p.AddPacketTag (Tag.SocketIpv6HopLimitTag s.m_ipv6HopLimit)
  else p

end RudpSocketImpl

/-- Recognises a packet handed to the network layer (`RudpL4Protocol::Send`),
of either family. -/
def isSend : Event → Bool
  | Event.Send _ _ _ _ _ _ => true
  | Event.Send6 _ _ _ _ _ _ => true
  | _ => false

/-- Recognises a data-sent notification. -/
def isNotifyDataSent : Event → Bool
  | Event.NotifyDataSent _ => true
  | _ => false

/-- Collaborators for the examples: the allocator hands out `sampleEndPoint`
(bound to 10.0.0.1) for IPv4 and `wildcardEndPoint` for IPv6, and there is no
routing protocol. -/
def sampleEnv : Env :=
  { Allocate := fun _ => AllocResult.ok sampleEndPoint
    Allocate6 := fun _ => AllocResult.ok wildcardEndPoint
    RoutingProtocol := none
    RoutingProtocol6 := none }

/-- Collaborators whose routing layer finds no route and reports
`ERROR_NODEV` in `errno_`. -/
def noRouteEnv : Env :=
  { sampleEnv with
    RoutingProtocol := some fun _ _ _ => { route := none, errno_ := SocketErrno.ERROR_NODEV }
    RoutingProtocol6 := some fun _ _ _ => { route := none, errno_ := SocketErrno.ERROR_NODEV } }

/-- Collaborators whose routing layer returns a route with source 10.0.0.1
(IPv4) or ::1 (IPv6). -/
def routedEnv : Env :=
  { sampleEnv with
    RoutingProtocol := some fun _ _ _ =>
      { route := some { source := 0x0a000001, uid := 1 }, errno_ := SocketErrno.ERROR_NOTERROR }
    RoutingProtocol6 := some fun _ _ _ =>
      { route := some { source := 1, uid := 2 }, errno_ := SocketErrno.ERROR_NOTERROR } }

/-- Collaborators whose allocator cannot bind a requested address; requests
without an address succeed. -/
def addressFailEnv : Env :=
  { sampleEnv with
    Allocate := fun r =>
      match r with
      | AllocRequest.address _ => AllocResult.addressNotAvailable
      | AllocRequest.addressPort _ _ => AllocResult.addressNotAvailable
      | _ => AllocResult.ok sampleEndPoint }

/-- A socket holding registered IPv4 and IPv6 end points, both bound to the
wildcard address. -/
def sampleWildcard : RudpSocketImpl :=
  { RudpSocketImpl.fresh 131072 with
    m_endPoint := some (RudpSocketImpl.registered wildcardEndPoint)
    m_endPoint6 := some (RudpSocketImpl.registered6 wildcardEndPoint) }

/-- A socket holding a registered IPv4 end point bound to the wildcard
address and no IPv6 end point. -/
def sampleWildcard4 : RudpSocketImpl :=
  { RudpSocketImpl.fresh 131072 with
    m_endPoint := some (RudpSocketImpl.registered wildcardEndPoint) }

/-- A socket holding a registered IPv6 end point bound to the wildcard
address and no IPv4 end point. -/
def sampleWildcard6 : RudpSocketImpl :=
  { RudpSocketImpl.fresh 131072 with
    m_endPoint6 := some (RudpSocketImpl.registered6 wildcardEndPoint) }

/-- A fresh socket after `Connect` to 10.0.0.5, port 9000. -/
def sampleConnected : RudpSocketImpl :=
  (RudpSocketImpl.Connect (RudpSocketImpl.fresh 131072)
    (Address.InetSocketAddress 0x0a000005 9000)).1

/-- The 100-byte sample packet as the IPv4 send path hands it on: with the
don't-fragment tag, disabled. -/
def sentPacket : Packet :=
  (samplePacket 100).AddPacketTag (Tag.SocketSetDontFragmentTag false)

/-! ## Socket endpoint engine: name queries, device binding and the public operations -/

namespace RudpSocketImpl

def SetMtuDiscover (s : RudpSocketImpl) (discover : Bool) : RudpSocketImpl :=
  { s with m_mtuDiscover := discover }

def GetMtuDiscover (s : RudpSocketImpl) : Bool := s.m_mtuDiscover

/-- Model of `RudpSocketImpl::GetSockName`: the address stored in the output
parameter and the value returned. `Ipv4Address::GetZero ()` is 0. -/
def GetSockName (s : RudpSocketImpl) : Address × Int :=
  match s.m_endPoint with
  | some ep => (Address.InetSocketAddress ep.localAddress ep.localPort, 0)
  | none =>
    match s.m_endPoint6 with
    | some ep => (Address.Inet6SocketAddress ep.localAddress ep.localPort, 0)
    | none => (Address.InetSocketAddress 0 0, 0)

/-- Model of `RudpSocketImpl::GetPeerName`: the socket (the method stores into
`m_errno`), the value of the output parameter `address` after the call and the
value returned. `none` when `NS_ASSERT_MSG (false, "unexpected address type")`
is reached. -/
def GetPeerName (s : RudpSocketImpl) (address : Address) :
    Option (RudpSocketImpl × Address × Int) :=
  if !s.m_connected then
    some ({ s with m_errno := SocketErrno.ERROR_NOTCONN }, address, -1)
  else
    match s.m_defaultAddress with
    | Address.Ipv4Address addr =>
      some (s, Address.InetSocketAddress addr s.m_defaultPort, 0)
    | Address.Ipv6Address addr =>
      some (s, Address.Inet6SocketAddress addr s.m_defaultPort, 0)
    | _ => none

/-- The second half of `BindToNetDevice`: the IPv4 end point is restricted to
the device, then the IPv6 end point is bound if need be (`none` when an
assertion fails) and restricted to the device. -/
def BindToNetDeviceIpv6 (env : Env) (s : RudpSocketImpl) (netdevice : Option Nat) :
    Option RudpSocketImpl :=
  let s :=
    { s with m_endPoint := s.m_endPoint.map fun ep => { ep with boundNetDevice := netdevice } }
  if s.m_endPoint6 = none then
    if (Bind6 env s).2 = -1 then
      if (Bind6 env s).1.m_endPoint6 = none then some (Bind6 env s).1 else none
    else if (Bind6 env s).1.m_endPoint6 = none then none
    else
      some { (Bind6 env s).1 with
        m_endPoint6 :=
          (Bind6 env s).1.m_endPoint6.map fun ep => { ep with boundNetDevice := netdevice } }
  else
    some { s with
      m_endPoint6 := s.m_endPoint6.map fun ep => { ep with boundNetDevice := netdevice } }

/-- Model of `RudpSocketImpl::BindToNetDevice`: `Socket::BindToNetDevice` of the
base class records the device (its sanity check is taken to pass), then the
IPv4 end point is bound if need be (`none` when an assertion fails) and the
second half follows. -/
def BindToNetDevice (env : Env) (s : RudpSocketImpl) (netdevice : Option Nat) :
    Option RudpSocketImpl :=
  let s := { s with m_boundnetdevice := netdevice }
  if s.m_endPoint = none then
    if (Bind env s).2 = -1 then
      if (Bind env s).1.m_endPoint = none then some (Bind env s).1 else none
    else if (Bind env s).1.m_endPoint = none then none
    else BindToNetDeviceIpv6 env (Bind env s).1 netdevice
  else BindToNetDeviceIpv6 env s netdevice

/-- Model of the option setters of the `Socket` base class (`SetIpTos`,
`SetIpTtl`, `SetIpv6Tclass`, `SetIpv6HopLimit`, `SetRecvPktInfo`,
`SetIpRecvTos`, `SetIpRecvTtl`, `SetIpv6RecvTclass`, `SetIpv6RecvHopLimit`,
`Ipv6JoinGroup`): the options of `s` take the values they have in `o`. -/
def SetSocketOptions (s o : RudpSocketImpl) : RudpSocketImpl :=
  { s with
    m_manualIpTos := o.m_manualIpTos
    m_ipTos := o.m_ipTos
    m_manualIpTtl := o.m_manualIpTtl
    m_ipTtl := o.m_ipTtl
    m_manualIpv6Tclass := o.m_manualIpv6Tclass
    m_ipv6Tclass := o.m_ipv6Tclass
    m_manualIpv6HopLimit := o.m_manualIpv6HopLimit
    m_ipv6HopLimit := o.m_ipv6HopLimit
    m_recvPktInfo := o.m_recvPktInfo
    m_ipRecvTos := o.m_ipRecvTos
    m_ipRecvTtl := o.m_ipRecvTtl
    m_ipv6RecvTclass := o.m_ipv6RecvTclass
    m_ipv6RecvHoplimit := o.m_ipv6RecvHoplimit
    m_ipv6MulticastGroupAddress := o.m_ipv6MulticastGroupAddress }

end RudpSocketImpl

/-- The operations that modify a socket, with their arguments: the public
methods of `RudpSocketImpl`, the option setters of the base class, and the
callbacks that the end points invoke. Each operation that calls a collaborator
carries the collaborators as they answer during that call. The `const`
accessors other than `GetPeerName` and the two ICMP callbacks do not modify the
socket and are not listed. -/
inductive PublicOp
  | Bind (env : Env)
  | Bind6 (env : Env)
  | BindAddress (env : Env) (address : Address)
  | ShutdownSend
  | ShutdownRecv
  | Close
  | Connect (address : Address)
  | Listen
  | Send (env : Env) (p : Packet)
  | SendTo (env : Env) (p : Packet) (address : Address)
  | Recv (maxSize : Nat)
  | RecvFrom (maxSize : Nat)
  | GetPeerName
  | BindToNetDevice (env : Env) (netdevice : Option Nat)
  | SetRcvBufSize (size : Nat)
  | SetMtuDiscover (discover : Bool)
  | SetSocketOptions (o : RudpSocketImpl)
  | ForwardUp (packet : Packet) (header : Ipv4Header) (port : Nat) (incomingInterface : Nat)
  | ForwardUp6 (packet : Packet) (header : Ipv6Header) (port : Nat) (incomingInterface : Nat)
  | Destroy
  | Destroy6

namespace PublicOp

/-- The state after one operation; `none` when the operation stops at an
assertion or at a null end point. -/
def apply (s : RudpSocketImpl) : PublicOp → Option RudpSocketImpl
  | Bind env => some (s.Bind env).1
  | Bind6 env => some (s.Bind6 env).1
  | BindAddress env address => (s.BindAddress env address).map fun r => r.1
  | ShutdownSend => some s.ShutdownSend.1
  | ShutdownRecv => some s.ShutdownRecv.1
  | Close => some s.Close.1
  | Connect address => some (s.Connect address).1
  | Listen => some s.Listen.1
  | Send env p => (s.Send env p).map fun r => r.1
  | SendTo env p address => (s.SendTo env p address).map fun r => r.1
  | Recv maxSize => some (s.Recv maxSize).1
  | RecvFrom maxSize => (s.RecvFrom maxSize Address.invalid).map fun r => r.1
  | GetPeerName => (s.GetPeerName Address.invalid).map fun r => r.1
  | BindToNetDevice env netdevice => s.BindToNetDevice env netdevice
  | SetRcvBufSize size => some (s.SetRcvBufSize size)
  | SetMtuDiscover discover => some (s.SetMtuDiscover discover)
  | SetSocketOptions o => some (s.SetSocketOptions o)
  | ForwardUp packet header port incomingInterface =>
    some (s.ForwardUp packet header port incomingInterface)
  | ForwardUp6 packet header port incomingInterface =>
    some (s.ForwardUp6 packet header port incomingInterface)
  | Destroy => some s.Destroy
  | Destroy6 => some s.Destroy6

/-- The state after a sequence of operations, first to last. -/
def run (s : RudpSocketImpl) : List PublicOp → Option RudpSocketImpl
  | [] => some s
  | op :: ops => (apply s op).bind fun s1 => run s1 ops

end PublicOp

/-! ## Auxiliary definitions for the reachability proofs -/

namespace RudpSocketImpl

/-- The peer latched by `Connect`: the connected flag, the default address and
the default port. -/
def peer (s : RudpSocketImpl) : Bool × Address × Nat :=
  (s.m_connected, s.m_defaultAddress, s.m_defaultPort)

/-- Whether `Ipv4Address::IsMatchingType` or `Ipv6Address::IsMatchingType`
holds of an address. -/
def isIpAddress : Address → Bool
  | Address.Ipv4Address _ => true
  | Address.Ipv6Address _ => true
  | _ => false

end RudpSocketImpl

namespace RudpSocketImpl

/-- A connected socket has a default address of IPv4 or IPv6 address type. -/
def PeerIsIp (s : RudpSocketImpl) : Prop :=
  s.m_connected = true → isIpAddress s.m_defaultAddress = true

end RudpSocketImpl

/-- Collaborators whose IPv4 allocator has nothing to hand out; the IPv6
allocator works. -/
def v4FailEnv : Env :=
  { sampleEnv with Allocate := fun _ => AllocResult.portInUse }

/-- Collaborators whose IPv6 allocator has nothing to hand out; the IPv4
allocator works. -/
def v6FailEnv : Env :=
  { sampleEnv with Allocate6 := fun _ => AllocResult.portInUse }

/-- A fresh socket after a successful `Close`: both shutdown flags set, no end
point. -/
def sampleClosed : RudpSocketImpl :=
  (RudpSocketImpl.Close (RudpSocketImpl.fresh 131072)).1

/-- A connect, a rejected connect, a send, a send to another address, a
peer-name query, a delivery, a device binding and a close. -/
def samplePublicOps : List PublicOp :=
  [PublicOp.Connect (Address.InetSocketAddress 0x0a000005 9000),
   PublicOp.Connect (Address.other 3),
   PublicOp.Send sampleEnv (samplePacket 100),
   PublicOp.SendTo sampleEnv (samplePacket 100) (Address.InetSocketAddress 0x0a000009 7000),
   PublicOp.GetPeerName,
   PublicOp.ForwardUp (samplePacket 60) sampleHeader 9000 1,
   PublicOp.BindToNetDevice sampleEnv (some 1),
   PublicOp.Close]

/-! ## Lemmas -/

theorem shl_or_eq_add (a b n : Nat) (hb : b < 2 ^ n) : a <<< n ||| b = a * 2 ^ n + b := by
  rw [Nat.shiftLeft_eq, Nat.mul_comm a, Nat.mul_add_lt_is_or hb]

theorem and_bit31 (x : Nat) : (x &&& 0x80000000 ≠ 0) ↔ x / 2 ^ 31 % 2 = 1 := by
  have h := Nat.and_two_pow x 31
  have h2 := Nat.testBit_to_div_mod (x := x) (i := 31)
  norm_num at h h2 ⊢
  rw [h]
  cases hb : x.testBit 31 <;> simp [hb] at h2 ⊢ <;> omega

theorem and_ff (x : Nat) : x &&& 0xff = x % 256 :=
  Nat.and_pow_two_sub_one_eq_mod x 8

theorem WriteU8_eq (i : Iterator) (b : Nat) (h : i.cur < i.data.length) :
    i.WriteU8 b = some ⟨i.data.set i.cur (b % 256), i.cur + 1⟩ := by
  simp [Iterator.WriteU8, h]

theorem WriteHtonU16_eq (i : Iterator) (v : Nat) (h : i.cur + 2 ≤ i.data.length) :
    i.WriteHtonU16 v = some ⟨putU16 i.data i.cur v, i.cur + 2⟩ := by
  have e1 : ((v % 2 ^ 16) >>> 8 &&& 0xff) % 256 = v % 2 ^ 16 / 2 ^ 8 := by
    rw [Nat.shiftRight_eq_div_pow, and_ff]; omega
  have e2 : ((v % 2 ^ 16) >>> 0 &&& 0xff) % 256 = v % 2 ^ 8 := by
    rw [Nat.shiftRight_eq_div_pow, and_ff]; omega
  unfold Iterator.WriteHtonU16
  dsimp only
  rw [WriteU8_eq _ _ (by omega)]
  simp only [Option.bind_eq_bind, Option.some_bind]
  rw [WriteU8_eq _ _ (by simp; omega)]
  simp only [e1, e2, putU16]

theorem WriteHtonU32_eq (i : Iterator) (v : Nat) (h : i.cur + 4 ≤ i.data.length) :
    i.WriteHtonU32 v = some ⟨putU32 i.data i.cur v, i.cur + 4⟩ := by
  have e1 : ((v % 2 ^ 32) >>> 24 &&& 0xff) % 256 = v % 2 ^ 32 / 2 ^ 24 := by
    rw [Nat.shiftRight_eq_div_pow, and_ff]; omega
  have e2 : ((v % 2 ^ 32) >>> 16 &&& 0xff) % 256 = v % 2 ^ 24 / 2 ^ 16 := by
    rw [Nat.shiftRight_eq_div_pow, and_ff]; omega
  have e3 : ((v % 2 ^ 32) >>> 8 &&& 0xff) % 256 = v % 2 ^ 16 / 2 ^ 8 := by
    rw [Nat.shiftRight_eq_div_pow, and_ff]; omega
  have e4 : ((v % 2 ^ 32) >>> 0 &&& 0xff) % 256 = v % 2 ^ 8 := by
    rw [Nat.shiftRight_eq_div_pow, and_ff]; omega
  unfold Iterator.WriteHtonU32
  dsimp only
  rw [WriteU8_eq _ _ (by omega)]
  simp only [Option.bind_eq_bind, Option.some_bind]
  rw [WriteU8_eq _ _ (by simp; omega)]
  simp only [Option.some_bind]
  rw [WriteU8_eq _ _ (by simp; omega)]
  simp only [Option.some_bind]
  rw [WriteU8_eq _ _ (by simp; omega)]
  simp only [e1, e2, e3, e4, putU32]

@[simp] theorem length_putU16 (d : List Nat) (c v : Nat) : (putU16 d c v).length = d.length := by
  simp [putU16]

@[simp] theorem length_putU32 (d : List Nat) (c v : Nat) : (putU32 d c v).length = d.length := by
  simp [putU32]

theorem ReadU8_eq (i : Iterator) (h : i.cur < i.data.length) :
    i.ReadU8 = some (i.data.getD i.cur 0, ⟨i.data, i.cur + 1⟩) := by
  simp [Iterator.ReadU8, List.getD_eq_getElem?_getD, List.getElem?_eq_getElem h]

theorem ReadNtohU16_eq (i : Iterator) (h : i.cur + 2 ≤ i.data.length) :
    i.ReadNtohU16 = some (getU16 i.data i.cur, ⟨i.data, i.cur + 2⟩) := by
  unfold Iterator.ReadNtohU16
  rw [ReadU8_eq _ (by omega)]
  simp only [Option.bind_eq_bind, Option.some_bind]
  rw [ReadU8_eq _ (by simp; omega)]
  simp [getU16]

theorem ReadNtohU32_eq (i : Iterator) (h : i.cur + 4 ≤ i.data.length) :
    i.ReadNtohU32 = some (getU32 i.data i.cur, ⟨i.data, i.cur + 4⟩) := by
  unfold Iterator.ReadNtohU32
  rw [ReadU8_eq _ (by omega)]
  simp only [Option.bind_eq_bind, Option.some_bind]
  rw [ReadU8_eq _ (by simp; omega)]
  simp only [Option.some_bind]
  rw [ReadU8_eq _ (by simp; omega)]
  simp only [Option.some_bind]
  rw [ReadU8_eq _ (by simp; omega)]
  simp [getU32]

theorem getD_set_self (d : List Nat) (i a : Nat) (h : i < d.length) :
    (d.set i a).getD i 0 = a := by
  rw [List.getD_eq_getElem?_getD, List.getElem?_set]
  simp [h]

theorem getD_set_ne (d : List Nat) (i j a : Nat) (h : i ≠ j) :
    (d.set i a).getD j 0 = d.getD j 0 := by
  rw [List.getD_eq_getElem?_getD, List.getElem?_set, List.getD_eq_getElem?_getD]
  simp [h]

@[simp] theorem length_putHeader (d : List Nat) (c sp dp len w1 w2 : Nat) :
    (putHeader d c sp dp len w1 w2).length = d.length := by
  simp [putHeader]

theorem or_byte (a b : Nat) (hb : b < 256) : a * 256 ||| b = a * 256 + b := by
  have := Nat.mul_add_lt_is_or (i := 8) (b := b) (by simpa using hb) a
  rw [Nat.mul_comm a]
  exact this.symm

theorem getU16_eq_wire (d : List Nat) (c : Nat) (h0 : d.getD c 0 < 256)
    (h1 : d.getD (c + 1) 0 < 256) : getU16 d c = wireU16 d c := by
  unfold getU16 wireU16
  rw [Nat.zero_or, Nat.shiftLeft_eq, Nat.mod_eq_of_lt (by omega)]
  exact or_byte _ _ h1

theorem getU32_eq_wire (d : List Nat) (c : Nat) (h0 : d.getD c 0 < 256)
    (h1 : d.getD (c + 1) 0 < 256) (h2 : d.getD (c + 2) 0 < 256)
    (h3 : d.getD (c + 3) 0 < 256) : getU32 d c = wireU32 d c := by
  unfold getU32 wireU32
  generalize d.getD c 0 = b0 at *
  generalize d.getD (c + 1) 0 = b1 at *
  generalize d.getD (c + 2) 0 = b2 at *
  generalize d.getD (c + 3) 0 = b3 at *
  have e1 : (0 ||| b0) <<< 8 % 2 ^ 32 ||| b1 = b0 * 256 + b1 := by
    rw [Nat.zero_or, Nat.shiftLeft_eq, Nat.mod_eq_of_lt (by omega)]
    exact or_byte _ _ h1
  have e2 : (b0 * 256 + b1) <<< 8 % 2 ^ 32 ||| b2 = (b0 * 256 + b1) * 256 + b2 := by
    rw [Nat.shiftLeft_eq, Nat.mod_eq_of_lt (by omega)]
    exact or_byte _ _ h2
  have e3 : ((b0 * 256 + b1) * 256 + b2) <<< 8 % 2 ^ 32 ||| b3
      = ((b0 * 256 + b1) * 256 + b2) * 256 + b3 := by
    rw [Nat.shiftLeft_eq, Nat.mod_eq_of_lt (by omega)]
    exact or_byte _ _ h3
  rw [e1, e2, e3]
  omega

theorem putHeader_bytes (d : List Nat) (c sp dp len w1 w2 : Nat) (h : c + 14 ≤ d.length) :
    let o := putHeader d c sp dp len w1 w2
    o.getD c 0 = sp % 2 ^ 16 / 2 ^ 8 ∧ o.getD (c + 1) 0 = sp % 2 ^ 8 ∧
    o.getD (c + 2) 0 = dp % 2 ^ 16 / 2 ^ 8 ∧ o.getD (c + 3) 0 = dp % 2 ^ 8 ∧
    o.getD (c + 4) 0 = len % 2 ^ 16 / 2 ^ 8 ∧ o.getD (c + 5) 0 = len % 2 ^ 8 ∧
    o.getD (c + 6) 0 = w1 % 2 ^ 32 / 2 ^ 24 ∧ o.getD (c + 7) 0 = w1 % 2 ^ 24 / 2 ^ 16 ∧
    o.getD (c + 8) 0 = w1 % 2 ^ 16 / 2 ^ 8 ∧ o.getD (c + 9) 0 = w1 % 2 ^ 8 ∧
    o.getD (c + 10) 0 = w2 % 2 ^ 32 / 2 ^ 24 ∧ o.getD (c + 11) 0 = w2 % 2 ^ 24 / 2 ^ 16 ∧
    o.getD (c + 12) 0 = w2 % 2 ^ 16 / 2 ^ 8 ∧ o.getD (c + 13) 0 = w2 % 2 ^ 8 := by
  simp only [putHeader, putU16, putU32, Nat.add_assoc, Nat.reduceAdd]
  refine ⟨?_, ?_, ?_, ?_, ?_, ?_, ?_, ?_, ?_, ?_, ?_, ?_, ?_, ?_⟩ <;>
    simp (disch := first | omega | (simp only [List.length_set]; omega)) only
      [getD_set_ne, getD_set_self]

namespace RudpHeader

theorem Serialize_eq (h : RudpHeader) (start : Iterator)
    (hfit : start.cur + 14 ≤ start.data.length) :
    Serialize h start =
      some ⟨putHeader start.data start.cur h.m_sourcePort h.m_destinationPort
        (lengthField h start) (firstWord h) (secondWord h), start.cur + 14⟩ := by
  unfold Serialize
  dsimp only
  rw [WriteHtonU16_eq _ _ (by omega)]
  simp only [Option.bind_eq_bind, Option.some_bind]
  rw [WriteHtonU16_eq _ _ (by simp; omega)]
  simp only [Option.some_bind]
  have tail : ∀ v : Nat,
      ((Iterator.WriteHtonU16 ⟨putU16 (putU16 start.data start.cur h.m_sourcePort)
          (start.cur + 2) h.m_destinationPort, start.cur + 2 + 2⟩ v).bind fun y =>
        (y.WriteHtonU32 (h.m_controlFlag.toNat <<< 31 ||| h.m_sequenceNumber)).bind fun i =>
          if h.m_controlFlag = true then
            i.WriteHtonU32 (h.m_typeBits <<< 29 ||| h.m_messageNumber)
          else
            i.WriteHtonU32
              (h.m_positionFlag <<< 30 ||| h.m_inorderFlag.toNat <<< 29 ||| h.m_messageNumber))
      = some ⟨putHeader start.data start.cur h.m_sourcePort h.m_destinationPort
          v (firstWord h) (secondWord h), start.cur + 14⟩ := by
    intro v
    rw [WriteHtonU16_eq _ _ (by simp; omega)]
    simp only [Option.some_bind]
    rw [WriteHtonU32_eq _ _ (by simp; omega)]
    simp only [Option.some_bind]
    unfold secondWord
    split <;> rw [WriteHtonU32_eq _ _ (by simp; omega)] <;> rfl
  unfold lengthField
  split <;> exact tail _

theorem Deserialize_eq (h : RudpHeader) (start : Iterator)
    (hfit : start.cur + 14 ≤ start.data.length) :
    Deserialize h start =
      some ⟨assign h (getU16 start.data start.cur) (getU16 start.data (start.cur + 2))
          (getU16 start.data (start.cur + 4)) (getU32 start.data (start.cur + 6))
          (getU32 start.data (start.cur + 10)),
        GetSerializedSize, ⟨start.data, start.cur + 14⟩⟩ := by
  unfold Deserialize
  dsimp only
  rw [ReadNtohU16_eq _ (by omega)]
  simp only [Option.bind_eq_bind, Option.some_bind]
  rw [ReadNtohU16_eq _ (by simp; omega)]
  simp only [Option.some_bind]
  rw [ReadNtohU16_eq _ (by simp; omega)]
  simp only [Option.some_bind]
  rw [ReadNtohU32_eq _ (by simp; omega)]
  simp only [Option.some_bind]
  rw [ReadNtohU32_eq _ (by simp; omega)]
  simp only [Option.some_bind]
  rfl

end RudpHeader

theorem wireU16_putHeader_0 (d : List Nat) (c sp dp len w1 w2 : Nat) (h : c + 14 ≤ d.length) :
    wireU16 (putHeader d c sp dp len w1 w2) c = sp % 2 ^ 16 := by
  obtain ⟨b0, b1, -⟩ := putHeader_bytes d c sp dp len w1 w2 h
  rw [wireU16, b0, b1]; omega

theorem wireU16_putHeader_2 (d : List Nat) (c sp dp len w1 w2 : Nat) (h : c + 14 ≤ d.length) :
    wireU16 (putHeader d c sp dp len w1 w2) (c + 2) = dp % 2 ^ 16 := by
  obtain ⟨-, -, b2, b3, -⟩ := putHeader_bytes d c sp dp len w1 w2 h
  rw [wireU16, b2, b3]; omega

theorem wireU16_putHeader_4 (d : List Nat) (c sp dp len w1 w2 : Nat) (h : c + 14 ≤ d.length) :
    wireU16 (putHeader d c sp dp len w1 w2) (c + 4) = len % 2 ^ 16 := by
  obtain ⟨-, -, -, -, b4, b5, -⟩ := putHeader_bytes d c sp dp len w1 w2 h
  rw [wireU16, b4, b5]; omega

theorem wireU32_putHeader_6 (d : List Nat) (c sp dp len w1 w2 : Nat) (h : c + 14 ≤ d.length) :
    wireU32 (putHeader d c sp dp len w1 w2) (c + 6) = w1 % 2 ^ 32 := by
  obtain ⟨-, -, -, -, -, -, b6, b7, b8, b9, -⟩ := putHeader_bytes d c sp dp len w1 w2 h
  rw [wireU32, b6, b7, b8, b9]; omega

theorem wireU32_putHeader_10 (d : List Nat) (c sp dp len w1 w2 : Nat) (h : c + 14 ≤ d.length) :
    wireU32 (putHeader d c sp dp len w1 w2) (c + 10) = w2 % 2 ^ 32 := by
  obtain ⟨-, -, -, -, -, -, -, -, -, -, b10, b11, b12, b13⟩ := putHeader_bytes d c sp dp len w1 w2 h
  rw [wireU32, b10, b11, b12, b13]; omega

theorem getU16_putHeader_0 (d : List Nat) (c sp dp len w1 w2 : Nat) (h : c + 14 ≤ d.length) :
    getU16 (putHeader d c sp dp len w1 w2) c = sp % 2 ^ 16 := by
  obtain ⟨b0, b1, -⟩ := putHeader_bytes d c sp dp len w1 w2 h
  rw [getU16_eq_wire _ _ (by rw [b0]; omega) (by rw [b1]; omega)]
  exact wireU16_putHeader_0 d c sp dp len w1 w2 h

theorem getU16_putHeader_2 (d : List Nat) (c sp dp len w1 w2 : Nat) (h : c + 14 ≤ d.length) :
    getU16 (putHeader d c sp dp len w1 w2) (c + 2) = dp % 2 ^ 16 := by
  obtain ⟨-, -, b2, b3, -⟩ := putHeader_bytes d c sp dp len w1 w2 h
  rw [getU16_eq_wire _ _ (by rw [b2]; omega) (by rw [b3]; omega)]
  exact wireU16_putHeader_2 d c sp dp len w1 w2 h

theorem getU16_putHeader_4 (d : List Nat) (c sp dp len w1 w2 : Nat) (h : c + 14 ≤ d.length) :
    getU16 (putHeader d c sp dp len w1 w2) (c + 4) = len % 2 ^ 16 := by
  obtain ⟨-, -, -, -, b4, b5, -⟩ := putHeader_bytes d c sp dp len w1 w2 h
  rw [getU16_eq_wire _ _ (by rw [b4]; omega) (by rw [b5]; omega)]
  exact wireU16_putHeader_4 d c sp dp len w1 w2 h

theorem getU32_putHeader_6 (d : List Nat) (c sp dp len w1 w2 : Nat) (h : c + 14 ≤ d.length) :
    getU32 (putHeader d c sp dp len w1 w2) (c + 6) = w1 % 2 ^ 32 := by
  obtain ⟨-, -, -, -, -, -, b6, b7, b8, b9, -⟩ := putHeader_bytes d c sp dp len w1 w2 h
  rw [getU32_eq_wire _ _ (by rw [b6]; omega) (by rw [b7]; omega) (by rw [b8]; omega)
    (by rw [b9]; omega)]
  exact wireU32_putHeader_6 d c sp dp len w1 w2 h

theorem getU32_putHeader_10 (d : List Nat) (c sp dp len w1 w2 : Nat) (h : c + 14 ≤ d.length) :
    getU32 (putHeader d c sp dp len w1 w2) (c + 10) = w2 % 2 ^ 32 := by
  obtain ⟨-, -, -, -, -, -, -, -, -, -, b10, b11, b12, b13⟩ := putHeader_bytes d c sp dp len w1 w2 h
  rw [getU32_eq_wire _ _ (by rw [b10]; omega) (by rw [b11]; omega) (by rw [b12]; omega)
    (by rw [b13]; omega)]
  exact wireU32_putHeader_10 d c sp dp len w1 w2 h

namespace RudpHeader

/-- Serialising and then decoding at the same offset: the decoder assigns from
the five written values, each reduced to the width of its wire field. -/
theorem Deserialize_Serialize (h target : RudpHeader) (start : Iterator)
    (hfit : start.cur + 14 ≤ start.data.length) :
    ∃ out, Serialize h start = some out ∧ out.cur = start.cur + 14 ∧
      out.data.length = start.data.length ∧
      wireU16 out.data (start.cur + 4) = lengthField h start % 2 ^ 16 ∧
      wireU32 out.data (start.cur + 6) = firstWord h % 2 ^ 32 ∧
      wireU32 out.data (start.cur + 10) = secondWord h % 2 ^ 32 ∧
      Deserialize target ⟨out.data, start.cur⟩ =
        some ⟨assign target (h.m_sourcePort % 2 ^ 16) (h.m_destinationPort % 2 ^ 16)
            (lengthField h start % 2 ^ 16) (firstWord h % 2 ^ 32) (secondWord h % 2 ^ 32),
          GetSerializedSize, ⟨out.data, start.cur + 14⟩⟩ := by
  refine ⟨_, Serialize_eq h start hfit, rfl, by simp, ?_, ?_, ?_, ?_⟩
  · exact wireU16_putHeader_4 _ _ _ _ _ _ _ hfit
  · exact wireU32_putHeader_6 _ _ _ _ _ _ _ hfit
  · exact wireU32_putHeader_10 _ _ _ _ _ _ _ hfit
  · rw [Deserialize_eq _ _ (by simpa using hfit)]
    simp only [getU16_putHeader_0 _ _ _ _ _ _ _ hfit, getU16_putHeader_2 _ _ _ _ _ _ _ hfit,
      getU16_putHeader_4 _ _ _ _ _ _ _ hfit, getU32_putHeader_6 _ _ _ _ _ _ _ hfit,
      getU32_putHeader_10 _ _ _ _ _ _ _ hfit]

theorem and_7fffffff (x : Nat) : x &&& 0x7fffffff = x % 2 ^ 31 :=
  Nat.and_pow_two_sub_one_eq_mod x 31

theorem and_1fffffff (x : Nat) : x &&& 0x1fffffff = x % 2 ^ 29 :=
  Nat.and_pow_two_sub_one_eq_mod x 29

theorem and_1ffffffff (x : Nat) : x &&& 0x1ffffffff = x % 2 ^ 33 :=
  Nat.and_pow_two_sub_one_eq_mod x 33

theorem firstWord_eq (h : RudpHeader) (hs : h.m_sequenceNumber < 2 ^ 31) :
    firstWord h % 2 ^ 32 = h.m_controlFlag.toNat * 2 ^ 31 + h.m_sequenceNumber := by
  unfold firstWord
  rw [shl_or_eq_add _ _ 31 hs]
  cases h.m_controlFlag <;> simp <;> omega

theorem secondWord_control (h : RudpHeader) (hc : h.m_controlFlag = true)
    (ht : h.m_typeBits < 8) (hm : h.m_messageNumber < 2 ^ 29) :
    secondWord h % 2 ^ 32 = h.m_typeBits * 2 ^ 29 + h.m_messageNumber := by
  unfold secondWord
  rw [if_pos hc, shl_or_eq_add _ _ 29 hm]
  omega

theorem secondWord_data (h : RudpHeader) (hc : h.m_controlFlag = false)
    (hp : h.m_positionFlag < 4) (hm : h.m_messageNumber < 2 ^ 29) :
    secondWord h % 2 ^ 32 =
      h.m_positionFlag * 2 ^ 30 + h.m_inorderFlag.toNat * 2 ^ 29 + h.m_messageNumber := by
  unfold secondWord
  have hb : h.m_inorderFlag.toNat ≤ 1 := Bool.toNat_le _
  have e1 : h.m_positionFlag <<< 30 ||| h.m_inorderFlag.toNat <<< 29
      = (h.m_positionFlag * 2 + h.m_inorderFlag.toNat) <<< 29 := by
    rw [Nat.shiftLeft_eq h.m_inorderFlag.toNat, shl_or_eq_add _ _ 30 (by omega), Nat.shiftLeft_eq]
    omega
  rw [hc]
  simp only [Bool.false_eq_true, if_false]
  rw [e1, shl_or_eq_add _ _ 29 hm]
  omega

theorem assign_sourcePort (t : RudpHeader) (sp dp len w1 w2 : Nat) :
    (assign t sp dp len w1 w2).m_sourcePort = sp := by
  unfold assign; dsimp only; split <;> rfl

theorem assign_destinationPort (t : RudpHeader) (sp dp len w1 w2 : Nat) :
    (assign t sp dp len w1 w2).m_destinationPort = dp := by
  unfold assign; dsimp only; split <;> rfl

theorem assign_payloadSize (t : RudpHeader) (sp dp len w1 w2 : Nat) :
    (assign t sp dp len w1 w2).m_payloadSize
      = ((len + 2 ^ 32 - GetSerializedSize) % 2 ^ 32) % 2 ^ 16 := by
  unfold assign; dsimp only; split <;> rfl

theorem assign_controlFlag (t : RudpHeader) (sp dp len w1 w2 : Nat) :
    (assign t sp dp len w1 w2).m_controlFlag = decide (w1 / 2 ^ 31 % 2 = 1) := by
  have e : decide ((w1 &&& 0x80000000) ≠ 0) = decide (w1 / 2 ^ 31 % 2 = 1) :=
    decide_eq_decide.mpr (and_bit31 w1)
  unfold assign; dsimp only; split <;> exact e

theorem assign_sequenceNumber (t : RudpHeader) (sp dp len w1 w2 : Nat) :
    (assign t sp dp len w1 w2).m_sequenceNumber = w1 % 2 ^ 31 := by
  unfold assign; dsimp only; split <;> exact and_7fffffff w1

theorem assign_messageNumber (t : RudpHeader) (sp dp len w1 w2 : Nat) :
    (assign t sp dp len w1 w2).m_messageNumber = w2 % 2 ^ 29 := by
  unfold assign; dsimp only; split <;> exact and_1fffffff w2

theorem assign_typeBits (t : RudpHeader) (sp dp len w1 w2 : Nat)
    (hc : w1 / 2 ^ 31 % 2 = 1) :
    (assign t sp dp len w1 w2).m_typeBits = w2 / 2 ^ 29 % 2 ^ 8 := by
  have e : decide ((w1 &&& 0x80000000) ≠ 0) = true := decide_eq_true ((and_bit31 w1).mpr hc)
  unfold assign; dsimp only
  rw [if_pos e, Nat.shiftRight_eq_div_pow]

theorem assign_positionFlag (t : RudpHeader) (sp dp len w1 w2 : Nat)
    (hc : ¬ w1 / 2 ^ 31 % 2 = 1) :
    (assign t sp dp len w1 w2).m_positionFlag = w2 / 2 ^ 30 % 2 ^ 8 := by
  have e : ¬ decide ((w1 &&& 0x80000000) ≠ 0) = true := by
    rw [decide_eq_true_iff]; exact fun hh => hc ((and_bit31 w1).mp hh)
  unfold assign; dsimp only
  rw [if_neg e, Nat.shiftRight_eq_div_pow]

theorem assign_inorderFlag (t : RudpHeader) (sp dp len w1 w2 : Nat)
    (hc : ¬ w1 / 2 ^ 31 % 2 = 1) :
    (assign t sp dp len w1 w2).m_inorderFlag = decide (w2 / 2 ^ 29 % 2 = 1) := by
  have e : ¬ decide ((w1 &&& 0x80000000) ≠ 0) = true := by
    rw [decide_eq_true_iff]; exact fun hh => hc ((and_bit31 w1).mp hh)
  unfold assign; dsimp only
  rw [if_neg e, Nat.shiftRight_eq_div_pow, Nat.and_one_is_mod]
  apply decide_eq_decide.mpr
  omega

/-! ## Round trip -/

/-- C1: for every header whose fields are in range (sequence number below
2^31, message number below 2^29, type bits below 8, one-bit position flag) and
for either value of the control flag, deserialising the bytes produced by
`Serialize` yields the same source port, destination port, control flag,
sequence number and message number. -/
theorem roundtrip_common_fields (h target : RudpHeader) (start : Iterator)
    (hty : h.WellTyped) (hr : h.InRange)
    (hfit : start.cur + 14 ≤ start.data.length) :
    ∃ out dec, Serialize h start = some out ∧
      Deserialize target ⟨out.data, start.cur⟩ = some dec ∧
      GetSourcePort dec.header = GetSourcePort h ∧
      GetDestinationPort dec.header = GetDestinationPort h ∧
      GetControlFlag dec.header = GetControlFlag h ∧
      GetSequenceNumber dec.header = GetSequenceNumber h ∧
      GetMessageNumber dec.header = GetMessageNumber h := by
  obtain ⟨out, hs, -, -, -, -, -, hd⟩ := Deserialize_Serialize h target start hfit
  obtain ⟨hsp, hdp, -, -, -, -, -⟩ := hty
  obtain ⟨hseq, hmsg, htb, hpf⟩ := hr
  refine ⟨out, _, hs, hd, ?_, ?_, ?_, ?_, ?_⟩
  · show (assign _ _ _ _ _ _).m_sourcePort = _
    rw [assign_sourcePort]; exact Nat.mod_eq_of_lt hsp
  · show (assign _ _ _ _ _ _).m_destinationPort = _
    rw [assign_destinationPort]; exact Nat.mod_eq_of_lt hdp
  · show (assign _ _ _ _ _ _).m_controlFlag = h.m_controlFlag
    rw [assign_controlFlag, firstWord_eq h hseq]
    cases h.m_controlFlag <;> simp <;> omega
  · show (assign _ _ _ _ _ _).m_sequenceNumber = h.m_sequenceNumber
    rw [assign_sequenceNumber, firstWord_eq h hseq]
    have := Bool.toNat_le h.m_controlFlag
    omega
  · show (assign _ _ _ _ _ _).m_messageNumber = h.m_messageNumber
    rw [assign_messageNumber]
    cases hc : h.m_controlFlag
    · rw [secondWord_data h hc (by omega) hmsg]
      have := Bool.toNat_le h.m_inorderFlag
      omega
    · rw [secondWord_control h hc htb hmsg]
      omega

/-- Witness for C1 at a control header written into a 16-byte buffer. -/
theorem roundtrip_common_fields_witness :
    sampleControl.WellTyped ∧ sampleControl.InRange ∧
    ∃ out dec, Serialize sampleControl (zeroBuffer 16) = some out ∧
      Deserialize init ⟨out.data, 0⟩ = some dec ∧
      GetSourcePort dec.header = 4660 ∧
      GetDestinationPort dec.header = 9000 ∧
      GetControlFlag dec.header = true ∧
      GetSequenceNumber dec.header = 0x7ffffffe ∧
      GetMessageNumber dec.header = 0x1ffffffd :=
  ⟨by decide, by decide,
    roundtrip_common_fields sampleControl init (zeroBuffer 16) (by decide) (by decide)
      (by decide)⟩

/-- C2: for every in-range header with the control flag set, decoding the
serialised bytes recovers the type bits; for every in-range header with the
control flag clear, it recovers both the position flag and the in-order flag. -/
theorem roundtrip_mode_fields (h target : RudpHeader) (start : Iterator)
    (hr : h.InRange) (hfit : start.cur + 14 ≤ start.data.length) :
    ∃ out dec, Serialize h start = some out ∧
      Deserialize target ⟨out.data, start.cur⟩ = some dec ∧
      (h.m_controlFlag = true → GetTypeBits dec.header = GetTypeBits h) ∧
      (h.m_controlFlag = false →
        GetPositionFlag dec.header = GetPositionFlag h ∧
        GetInorderFlag dec.header = GetInorderFlag h) := by
  obtain ⟨out, hs, -, -, -, -, -, hd⟩ := Deserialize_Serialize h target start hfit
  obtain ⟨hseq, hmsg, htb, hpf⟩ := hr
  refine ⟨out, _, hs, hd, ?_, ?_⟩
  · intro hc
    show (assign _ _ _ _ _ _).m_typeBits = h.m_typeBits
    have h1 : firstWord h % 2 ^ 32 / 2 ^ 31 % 2 = 1 := by
      rw [firstWord_eq h hseq, hc]; simp; omega
    rw [assign_typeBits _ _ _ _ _ _ h1, secondWord_control h hc htb hmsg]
    omega
  · intro hc
    have h1 : ¬ firstWord h % 2 ^ 32 / 2 ^ 31 % 2 = 1 := by
      rw [firstWord_eq h hseq, hc]; simp; omega
    have hb := Bool.toNat_le h.m_inorderFlag
    constructor
    · show (assign _ _ _ _ _ _).m_positionFlag = h.m_positionFlag
      rw [assign_positionFlag _ _ _ _ _ _ h1, secondWord_data h hc (by omega) hmsg]
      omega
    · show (assign _ _ _ _ _ _).m_inorderFlag = h.m_inorderFlag
      rw [assign_inorderFlag _ _ _ _ _ _ h1, secondWord_data h hc (by omega) hmsg]
      cases hi : h.m_inorderFlag <;> simp <;> omega

/-- Witness for C2 at a data header written into a 16-byte buffer. -/
theorem roundtrip_mode_fields_witness :
    sampleData.InRange ∧
    ∃ out dec, Serialize sampleData (zeroBuffer 16) = some out ∧
      Deserialize init ⟨out.data, 0⟩ = some dec ∧
      (sampleData.m_controlFlag = true → GetTypeBits dec.header = GetTypeBits sampleData) ∧
      (sampleData.m_controlFlag = false →
        GetPositionFlag dec.header = GetPositionFlag sampleData ∧
        GetInorderFlag dec.header = GetInorderFlag sampleData) :=
  ⟨by decide, roundtrip_mode_fields sampleData init (zeroBuffer 16) (by decide) (by decide)⟩

/-! ## Masking in the mutators -/

/-- The mask in `SetMessageNumber` is 33 bits wide, so a 32-bit argument is
stored unchanged. -/
theorem SetMessageNumber_stores_argument (h : RudpHeader) (x : Nat) (hx : x < 2 ^ 32) :
    GetMessageNumber (SetMessageNumber h x) = x := by
  show (x &&& 0x1ffffffff) % 2 ^ 32 = x
  rw [and_1ffffffff]
  omega

/-- C3: `SetMessageNumber` does not reduce its argument to 29 bits. For the
argument 2^29 the stored message number is 2^29, while 2^29 mod 2^29 is 0; the
same happens with the all-ones argument. -/
theorem SetMessageNumber_keeps_high_bits :
    GetMessageNumber (SetMessageNumber init 0x20000000) = 0x20000000 ∧
    0x20000000 % 2 ^ 29 = 0 ∧
    GetMessageNumber (SetMessageNumber init 0xffffffff) = 0xffffffff ∧
    0xffffffff % 2 ^ 29 = 0x1fffffff := by
  decide

/-- C4: for every 32-bit argument `x`, after `SetSequenceNumber x` the stored
sequence number is `x mod 2^31`; in the first serialised 32-bit word (offset 6)
the high bit equals the control flag and the low 31 bits equal `x mod 2^31`. -/
theorem SetSequenceNumber_masked (h : RudpHeader) (x : Nat) (start : Iterator)
    (_hx : x < 2 ^ 32) (hfit : start.cur + 14 ≤ start.data.length) :
    GetSequenceNumber (SetSequenceNumber h x) = x % 2 ^ 31 ∧
    ∃ out, Serialize (SetSequenceNumber h x) start = some out ∧
      wireU32 out.data (start.cur + 6) / 2 ^ 31 = (GetControlFlag h).toNat ∧
      wireU32 out.data (start.cur + 6) % 2 ^ 31 = x % 2 ^ 31 := by
  have hseq : (SetSequenceNumber h x).m_sequenceNumber = x % 2 ^ 31 := and_7fffffff x
  refine ⟨hseq, ?_⟩
  obtain ⟨out, hs, -, -, -, hw1, -, -⟩ :=
    Deserialize_Serialize (SetSequenceNumber h x) init start hfit
  have hlt : (SetSequenceNumber h x).m_sequenceNumber < 2 ^ 31 := by rw [hseq]; omega
  have hcf : (SetSequenceNumber h x).m_controlFlag = h.m_controlFlag := rfl
  have hb := Bool.toNat_le h.m_controlFlag
  refine ⟨out, hs, ?_, ?_⟩
  · rw [hw1, firstWord_eq _ hlt, hseq, hcf]
    show _ = h.m_controlFlag.toNat
    omega
  · rw [hw1, firstWord_eq _ hlt, hseq, hcf]
    omega

/-- Witness for C4: the all-ones argument on a control header. -/
theorem SetSequenceNumber_masked_witness :
    GetSequenceNumber (SetSequenceNumber sampleControl 0xffffffff) = 0xffffffff % 2 ^ 31 ∧
    ∃ out, Serialize (SetSequenceNumber sampleControl 0xffffffff) (zeroBuffer 16) = some out ∧
      wireU32 out.data 6 / 2 ^ 31 = 1 ∧
      wireU32 out.data 6 % 2 ^ 31 = 0xffffffff % 2 ^ 31 :=
  SetSequenceNumber_masked sampleControl 0xffffffff (zeroBuffer 16) (by decide) (by decide)

/-! ## Length field -/

/-- C5: a forced payload size does not survive the round trip. With
`ForcePayloadSize 100` the length field carries 100 and decoding stores
100 - 16 = 84; with `ForcePayloadSize 8` decoding stores 65528. -/
theorem forced_payloadSize_not_recovered :
    (∃ out dec, Serialize (ForcePayloadSize init 100) (zeroBuffer 16) = some out ∧
      wireU16 out.data 4 = 100 ∧
      Deserialize init ⟨out.data, 0⟩ = some dec ∧ dec.header.m_payloadSize = 84) ∧
    (∃ out dec, Serialize (ForcePayloadSize init 8) (zeroBuffer 16) = some out ∧
      Deserialize init ⟨out.data, 0⟩ = some dec ∧ dec.header.m_payloadSize = 65528) := by
  refine ⟨⟨_, _, rfl, by decide, rfl, by decide⟩, ⟨_, _, rfl, rfl, by decide⟩⟩

/-- C6: when no payload size has been forced (`m_payloadSize = 0`) and the
buffer being written holds the header and `payloadBytes` bytes of payload, the
16-bit length field at offset 4 holds header size + payload bytes, and decoding
those bytes stores `payloadSize = payloadBytes`. The total has to fit the
16-bit field. -/
theorem unforced_length_field (h target : RudpHeader) (start : Iterator) (payloadBytes : Nat)
    (hzero : h.m_payloadSize = 0)
    (hsize : start.GetSize = GetSerializedSize + payloadBytes)
    (h16 : GetSerializedSize + payloadBytes < 2 ^ 16)
    (hfit : start.cur + 14 ≤ start.data.length) :
    ∃ out dec, Serialize h start = some out ∧
      wireU16 out.data (start.cur + 4) = GetSerializedSize + payloadBytes ∧
      Deserialize target ⟨out.data, start.cur⟩ = some dec ∧
      dec.header.m_payloadSize = payloadBytes := by
  obtain ⟨out, hs, -, -, hlen, -, -, hd⟩ := Deserialize_Serialize h target start hfit
  have hl : lengthField h start = GetSerializedSize + payloadBytes := by
    unfold lengthField; rw [if_pos hzero, hsize]
  refine ⟨out, _, hs, ?_, hd, ?_⟩
  · rw [hlen, hl]; exact Nat.mod_eq_of_lt h16
  · show (assign _ _ _ _ _ _).m_payloadSize = payloadBytes
    rw [assign_payloadSize, hl]
    unfold GetSerializedSize at *
    omega

/-- Witness for C6: a 16-byte header followed by 100 bytes of payload. -/
theorem unforced_length_field_witness :
    ∃ out dec, Serialize init (zeroBuffer 116) = some out ∧
      wireU16 out.data 4 = 16 + 100 ∧
      Deserialize init ⟨out.data, 0⟩ = some dec ∧
      dec.header.m_payloadSize = 100 :=
  unforced_length_field init init (zeroBuffer 116) 100 (by decide) (by decide) (by decide)
    (by decide)

/-! ## Second word -/

/-- C7, as stated, fails. A data header with position flag 1 and in-order flag
false is serialised with bit 31 of the second word clear and bit 30 set; and
decoding a data word with only bit 31 set gives position flag 2 and in-order
flag false, while a word with only bit 29 set gives in-order flag true. -/
theorem data_word_bits_counterexample :
    (∃ out, Serialize (SetPositionFlag init 1) (zeroBuffer 16) = some out ∧
      GetControlFlag (SetPositionFlag init 1) = false ∧
      GetPositionFlag (SetPositionFlag init 1) = 1 ∧
      GetInorderFlag (SetPositionFlag init 1) = false ∧
      (wireU32 out.data 10).testBit 31 = false ∧
      (wireU32 out.data 10).testBit 30 = true) ∧
    (∃ dec, Deserialize init (wordBuffer 0x80 0 0 0) = some dec ∧
      GetPositionFlag dec.header = 2 ∧ GetInorderFlag dec.header = false) ∧
    (∃ dec, Deserialize init (wordBuffer 0x40 0 0 0) = some dec ∧
      GetPositionFlag dec.header = 1 ∧ GetInorderFlag dec.header = false) ∧
    (∃ dec, Deserialize init (wordBuffer 0x20 0 0 0) = some dec ∧
      GetPositionFlag dec.header = 0 ∧ GetInorderFlag dec.header = true) := by
  refine ⟨⟨_, rfl, rfl, rfl, rfl, by decide, by decide⟩, ⟨_, rfl, by decide, by decide⟩,
    ⟨_, rfl, by decide, by decide⟩, ⟨_, rfl, by decide, by decide⟩⟩

/-- C7, amended: in data mode the second 32-bit word written by `Serialize`
carries the position flag as a two-bit field in bits 31..30, the in-order flag
in bit 29 and the message number in the low 29 bits (for a position flag below
4 and a message number below 2^29), and `Deserialize` reads the position flag
from bits 31..30 and the in-order flag from bit 29 of that word. -/
theorem data_word_layout (h target : RudpHeader) (start : Iterator)
    (hdata : h.m_controlFlag = false) (hseq : h.m_sequenceNumber < 2 ^ 31)
    (hpos : h.m_positionFlag < 4) (hmsg : h.m_messageNumber < 2 ^ 29)
    (hfit : start.cur + 14 ≤ start.data.length) :
    ∃ out dec, Serialize h start = some out ∧
      wireU32 out.data (start.cur + 10) / 2 ^ 30 = GetPositionFlag h ∧
      wireU32 out.data (start.cur + 10) / 2 ^ 29 % 2 = (GetInorderFlag h).toNat ∧
      wireU32 out.data (start.cur + 10) % 2 ^ 29 = GetMessageNumber h ∧
      Deserialize target ⟨out.data, start.cur⟩ = some dec ∧
      GetPositionFlag dec.header = wireU32 out.data (start.cur + 10) / 2 ^ 30 ∧
      GetInorderFlag dec.header
        = decide (wireU32 out.data (start.cur + 10) / 2 ^ 29 % 2 = 1) := by
  obtain ⟨out, hs, -, -, -, -, hw2, hd⟩ := Deserialize_Serialize h target start hfit
  have hb := Bool.toNat_le h.m_inorderFlag
  have h1 : ¬ firstWord h % 2 ^ 32 / 2 ^ 31 % 2 = 1 := by
    rw [firstWord_eq h hseq, hdata]; simp; omega
  have hw := secondWord_data h hdata hpos hmsg
  refine ⟨out, _, hs, ?_, ?_, ?_, hd, ?_, ?_⟩
  · rw [hw2, hw]; show _ = h.m_positionFlag; omega
  · rw [hw2, hw]; show _ = h.m_inorderFlag.toNat; omega
  · rw [hw2, hw]; show _ = h.m_messageNumber; omega
  · show (assign _ _ _ _ _ _).m_positionFlag = _
    rw [assign_positionFlag _ _ _ _ _ _ h1, hw2, hw]
    omega
  · show (assign _ _ _ _ _ _).m_inorderFlag = _
    rw [assign_inorderFlag _ _ _ _ _ _ h1, hw2]

/-- Witness for the amended C7 at a data header with position flag 3. -/
theorem data_word_layout_witness :
    ∃ out dec, Serialize (SetPositionFlag sampleData 3) (zeroBuffer 16) = some out ∧
      wireU32 out.data 10 / 2 ^ 30 = 3 ∧
      wireU32 out.data 10 / 2 ^ 29 % 2 = 1 ∧
      wireU32 out.data 10 % 2 ^ 29 = 0x1ffffffd ∧
      Deserialize init ⟨out.data, 0⟩ = some dec ∧
      GetPositionFlag dec.header = wireU32 out.data 10 / 2 ^ 30 ∧
      GetInorderFlag dec.header = decide (wireU32 out.data 10 / 2 ^ 29 % 2 = 1) :=
  data_word_layout (SetPositionFlag sampleData 3) init (zeroBuffer 16) (by decide) (by decide)
    (by decide) (by decide) (by decide)

/-- C8: a message number set through the mutator reaches the top three bits of
the second word. Two control headers with type bits 0 that differ only in the
argument of `SetMessageNumber` (0 and 2^29) serialise with different top three
bits (0 and 1), and for the second one the low 29 bits (0) differ from the
stored message number (2^29). In data mode the same argument sets bit 29, which
decodes as the in-order flag. -/
theorem messageNumber_overflows_into_flags :
    (∃ outA outB,
      Serialize (SetMessageNumber (SetControlFlag init true) 0) (zeroBuffer 16) = some outA ∧
      Serialize (SetMessageNumber (SetControlFlag init true) 0x20000000) (zeroBuffer 16)
        = some outB ∧
      GetTypeBits (SetMessageNumber (SetControlFlag init true) 0x20000000) = 0 ∧
      wireU32 outA.data 10 / 2 ^ 29 = 0 ∧
      wireU32 outB.data 10 / 2 ^ 29 = 1 ∧
      wireU32 outB.data 10 % 2 ^ 29 = 0 ∧
      GetMessageNumber (SetMessageNumber (SetControlFlag init true) 0x20000000) = 0x20000000) ∧
    (∃ out dec,
      Serialize (SetMessageNumber init 0x20000000) (zeroBuffer 16) = some out ∧
      GetInorderFlag (SetMessageNumber init 0x20000000) = false ∧
      wireU32 out.data 10 / 2 ^ 29 = 1 ∧
      Deserialize init ⟨out.data, 0⟩ = some dec ∧
      GetInorderFlag dec.header = true) := by
  refine ⟨⟨_, _, rfl, rfl, rfl, by decide, by decide, by decide, by decide⟩,
    ⟨_, _, rfl, rfl, by decide, rfl, by decide⟩⟩

/-! ## Decoding a short length, and the size of the header -/

/-- C9, as stated, fails: a buffer whose length field declares 0 bytes is
decoded without error; `Deserialize` returns 16 and stores the payload size
65520. -/
theorem short_length_counterexample :
    wireU16 (zeroBuffer 16).data 4 = 0 ∧
    ∃ dec, Deserialize init (zeroBuffer 16) = some dec ∧ dec.consumed = 16 ∧
      dec.header.m_payloadSize = 65520 := by
  refine ⟨by decide, _, rfl, by decide, by decide⟩

/-- C9, amended: `Deserialize` makes no check of the declared length. For every
buffer with 14 readable bytes at the iterator it produces a header and returns
16, and the stored payload size is the declared total length minus 16 reduced
to 16 bits: `L - 16` when `L ≥ 16` and `L + 65520` when `L < 16`. -/
theorem Deserialize_no_length_check (h : RudpHeader) (start : Iterator)
    (hoct : Octets start.data) (hfit : start.cur + 14 ≤ start.data.length) :
    ∃ dec, Deserialize h start = some dec ∧ dec.consumed = 16 ∧
      (16 ≤ wireU16 start.data (start.cur + 4) →
        dec.header.m_payloadSize = wireU16 start.data (start.cur + 4) - 16) ∧
      (wireU16 start.data (start.cur + 4) < 16 →
        dec.header.m_payloadSize = wireU16 start.data (start.cur + 4) + 65520) := by
  have hb : ∀ k, k < 14 → start.data.getD (start.cur + k) 0 < 256 := by
    intro k hk
    rw [List.getD_eq_getElem?_getD, List.getElem?_eq_getElem (by omega)]
    exact hoct _ (List.getElem_mem _)
  have h4 := hb 4 (by omega)
  have h5 : start.data.getD (start.cur + 4 + 1) 0 < 256 := hb 5 (by omega)
  have hw : getU16 start.data (start.cur + 4) = wireU16 start.data (start.cur + 4) :=
    getU16_eq_wire _ _ h4 h5
  have hlt : wireU16 start.data (start.cur + 4) < 2 ^ 16 := by
    unfold wireU16; omega
  refine ⟨_, Deserialize_eq h start hfit, rfl, ?_, ?_⟩
  · intro hge
    show (assign _ _ _ _ _ _).m_payloadSize = _
    rw [assign_payloadSize, hw]
    unfold GetSerializedSize
    omega
  · intro hlt16
    show (assign _ _ _ _ _ _).m_payloadSize = _
    rw [assign_payloadSize, hw]
    unfold GetSerializedSize
    omega

/-- Witness for the amended C9: a buffer declaring a total length of 5. -/
theorem Deserialize_no_length_check_witness :
    ∃ dec, Deserialize init ⟨[0, 1, 0, 2, 0, 5, 0, 0, 0, 0, 0, 0, 0, 0, 0, 0], 0⟩ = some dec ∧
      dec.consumed = 16 ∧
      (16 ≤ wireU16 [0, 1, 0, 2, 0, 5, 0, 0, 0, 0, 0, 0, 0, 0, 0, 0] 4 →
        dec.header.m_payloadSize
          = wireU16 [0, 1, 0, 2, 0, 5, 0, 0, 0, 0, 0, 0, 0, 0, 0, 0] 4 - 16) ∧
      (wireU16 [0, 1, 0, 2, 0, 5, 0, 0, 0, 0, 0, 0, 0, 0, 0, 0] 4 < 16 →
        dec.header.m_payloadSize
          = wireU16 [0, 1, 0, 2, 0, 5, 0, 0, 0, 0, 0, 0, 0, 0, 0, 0] 4 + 65520) :=
  Deserialize_no_length_check init ⟨[0, 1, 0, 2, 0, 5, 0, 0, 0, 0, 0, 0, 0, 0, 0, 0], 0⟩
    (by decide) (by decide)

/-- C10: `GetSerializedSize` is 16, but `Serialize` advances the iterator by 14
and leaves the bytes at offsets 14 and 15 as they were, and `Deserialize`
returns 16 having advanced its iterator by 14; both succeed on a buffer of only
14 bytes. -/
theorem header_moves_fourteen_bytes :
    GetSerializedSize = 16 ∧
    (∃ out, Serialize sampleControl ⟨List.replicate 16 0xaa, 0⟩ = some out ∧ out.cur = 14 ∧
      out.data.getD 13 0 = 0xfd ∧ out.data.getD 14 0 = 0xaa ∧ out.data.getD 15 0 = 0xaa) ∧
    (∃ dec, Deserialize init (zeroBuffer 16) = some dec ∧ dec.consumed = 16 ∧
      dec.last.cur = 14) ∧
    (∃ out, Serialize sampleControl (zeroBuffer 14) = some out ∧ out.cur = 14) ∧
    (∃ dec, Deserialize init (zeroBuffer 14) = some dec ∧ dec.consumed = 16 ∧
      dec.last.cur = 14) := by
  refine ⟨rfl, ⟨_, rfl, by decide, by decide, by decide, by decide⟩,
    ⟨_, rfl, by decide, by decide⟩, ⟨_, rfl, by decide⟩, ⟨_, rfl, by decide, by decide⟩⟩

end RudpHeader

/-! ## Socket endpoint engine: lemmas and claims -/

namespace RudpSocketImpl

@[simp] theorem size_AddPacketTag (p : Packet) (t : Tag) : (p.AddPacketTag t).size = p.size := rfl

@[simp] theorem uid_AddPacketTag (p : Packet) (t : Tag) : (p.AddPacketTag t).uid = p.uid := rfl

@[simp] theorem size_RemovePacketTag (p : Packet) (k : Tag → Bool) :
    (p.RemovePacketTag k).1.size = p.size := rfl

@[simp] theorem uid_RemovePacketTag (p : Packet) (k : Tag → Bool) :
    (p.RemovePacketTag k).1.uid = p.uid := rfl

theorem size_tagged (s : RudpSocketImpl) (packet : Packet) (header : Ipv4Header) (i : Nat) :
    (tagged s packet header i).size = packet.size := by
  unfold tagged
  dsimp only
  split <;> split <;> split <;> rfl

theorem uid_tagged (s : RudpSocketImpl) (packet : Packet) (header : Ipv4Header) (i : Nat) :
    (tagged s packet header i).uid = packet.uid := by
  unfold tagged
  dsimp only
  split <;> split <;> split <;> rfl

theorem size_tagged6 (s : RudpSocketImpl) (packet : Packet) (header : Ipv6Header) (i : Nat) :
    (tagged6 s packet header i).size = packet.size := by
  unfold tagged6
  dsimp only
  split <;> split <;> split <;> rfl

theorem uid_tagged6 (s : RudpSocketImpl) (packet : Packet) (header : Ipv6Header) (i : Nat) :
    (tagged6 s packet header i).uid = packet.uid := by
  unfold tagged6
  dsimp only
  split <;> split <;> split <;> rfl

/-- Closed form of `ForwardUp`. -/
theorem ForwardUp_eq (s : RudpSocketImpl) (packet : Packet) (header : Ipv4Header)
    (port i : Nat) :
    ForwardUp s packet header port i =
      if s.m_shutdownRecv then s
      else if (s.m_rxAvailable + packet.size) % 2 ^ 32 ≤ s.m_rcvBufSize then
        enqueue s ((tagged s packet header i).AddPacketTag
          (Tag.SocketAddressTag (Address.InetSocketAddress header.source port)))
      else emit s (Event.Drop (tagged s packet header i)) := by
  unfold ForwardUp
  dsimp only
  split
  · rfl
  · rw [← size_tagged s packet header i]
    rfl

/-- Closed form of `ForwardUp6`. -/
theorem ForwardUp6_eq (s : RudpSocketImpl) (packet : Packet) (header : Ipv6Header)
    (port i : Nat) :
    ForwardUp6 s packet header port i =
      if s.m_shutdownRecv then s
      else if (s.m_rxAvailable + packet.size) % 2 ^ 32 ≤ s.m_rcvBufSize then
        enqueue s ((tagged6 s packet header i).AddPacketTag
          (Tag.SocketAddressTag (Address.Inet6SocketAddress header.source port)))
      else emit s (Event.Drop (tagged6 s packet header i)) := by
  unfold ForwardUp6
  dsimp only
  split
  · rfl
  · rw [← size_tagged6 s packet header i]
    rfl


@[simp] theorem queue_emit (s : RudpSocketImpl) (e : Event) :
    (emit s e).m_deliveryQueue = s.m_deliveryQueue := rfl

@[simp] theorem rx_emit (s : RudpSocketImpl) (e : Event) :
    (emit s e).m_rxAvailable = s.m_rxAvailable := rfl

@[simp] theorem queue_enqueue (s : RudpSocketImpl) (q : Packet) :
    (enqueue s q).m_deliveryQueue = s.m_deliveryQueue ++ [q] := rfl

@[simp] theorem rx_enqueue (s : RudpSocketImpl) (q : Packet) :
    (enqueue s q).m_rxAvailable = (s.m_rxAvailable + q.size) % 2 ^ 32 := rfl

theorem queuedBytes_enqueue (s : RudpSocketImpl) (q : Packet) :
    (enqueue s q).queuedBytes = s.queuedBytes + q.size := by
  simp [queuedBytes]

theorem queuedBytes_emit (s : RudpSocketImpl) (e : Event) :
    (emit s e).queuedBytes = s.queuedBytes := rfl

theorem queue_DeallocateEndPoint (s : RudpSocketImpl) :
    (DeallocateEndPoint s).m_deliveryQueue = s.m_deliveryQueue ∧
    (DeallocateEndPoint s).m_rxAvailable = s.m_rxAvailable := by
  unfold DeallocateEndPoint
  dsimp only
  split <;> split <;> exact ⟨rfl, rfl⟩

theorem queue_Ipv6LeaveGroup (s : RudpSocketImpl) :
    (Ipv6LeaveGroup s).m_deliveryQueue = s.m_deliveryQueue ∧
    (Ipv6LeaveGroup s).m_rxAvailable = s.m_rxAvailable := by
  unfold Ipv6LeaveGroup
  split <;> exact ⟨rfl, rfl⟩

theorem queue_Close (s : RudpSocketImpl) :
    (Close s).1.m_deliveryQueue = s.m_deliveryQueue ∧
    (Close s).1.m_rxAvailable = s.m_rxAvailable := by
  unfold Close
  split
  · exact ⟨rfl, rfl⟩
  · dsimp only
    obtain ⟨h1, h2⟩ := queue_Ipv6LeaveGroup s
    obtain ⟨h3, h4⟩ := queue_DeallocateEndPoint
      { Ipv6LeaveGroup s with m_shutdownRecv := true, m_shutdownSend := true }
    exact ⟨h3.trans h1, h4.trans h2⟩

theorem CounterMatches_of_same (s t : RudpSocketImpl) (h : CounterMatches s)
    (hq : t.m_deliveryQueue = s.m_deliveryQueue) (hr : t.m_rxAvailable = s.m_rxAvailable) :
    CounterMatches t := by
  unfold CounterMatches queuedBytes at *
  rw [hq, hr]; exact h

theorem CounterMatches_enqueue (s : RudpSocketImpl) (q : Packet) (h : CounterMatches s) :
    CounterMatches (enqueue s q) := by
  unfold CounterMatches at *
  rw [rx_enqueue, queuedBytes_enqueue, h]
  omega

theorem CounterMatches_ForwardUp (s : RudpSocketImpl) (packet : Packet) (header : Ipv4Header)
    (port i : Nat) (h : CounterMatches s) : CounterMatches (ForwardUp s packet header port i) := by
  rw [ForwardUp_eq]
  split
  · exact h
  · split
    · exact CounterMatches_enqueue _ _ h
    · exact CounterMatches_of_same s _ h rfl rfl

theorem CounterMatches_ForwardUp6 (s : RudpSocketImpl) (packet : Packet) (header : Ipv6Header)
    (port i : Nat) (h : CounterMatches s) : CounterMatches (ForwardUp6 s packet header port i) := by
  rw [ForwardUp6_eq]
  split
  · exact h
  · split
    · exact CounterMatches_enqueue _ _ h
    · exact CounterMatches_of_same s _ h rfl rfl

theorem CounterMatches_Recv (s : RudpSocketImpl) (maxSize : Nat) (h : CounterMatches s) :
    CounterMatches (Recv s maxSize).1 := by
  unfold Recv
  split
  · exact CounterMatches_of_same s _ h rfl rfl
  · rename_i p rest hq
    split
    · unfold CounterMatches queuedBytes at *
      rw [hq] at h
      simp only [List.map_cons, List.sum_cons] at h
      dsimp only
      rw [h]
      have := Nat.mod_lt p.size (show 0 < 2 ^ 32 by norm_num)
      omega
    · exact h

theorem CounterMatches_apply (s s1 : RudpSocketImpl) (op : Op) (h : CounterMatches s)
    (hs : Op.apply s op = some s1) : CounterMatches s1 := by
  cases op with
  | ForwardUp packet header port i =>
    simp only [Op.apply, Option.some.injEq] at hs
    subst hs; exact CounterMatches_ForwardUp _ _ _ _ _ h
  | ForwardUp6 packet header port i =>
    simp only [Op.apply, Option.some.injEq] at hs
    subst hs; exact CounterMatches_ForwardUp6 _ _ _ _ _ h
  | Recv maxSize =>
    simp only [Op.apply, Option.some.injEq] at hs
    subst hs; exact CounterMatches_Recv _ _ h
  | RecvFrom maxSize =>
    simp only [Op.apply, Option.map_eq_some'] at hs
    obtain ⟨r, hr, rfl⟩ := hs
    have : r.1 = (Recv s maxSize).1 := by
      unfold RecvFrom at hr
      split at hr
      · split at hr
        · simp only [Option.some.injEq] at hr; rw [← hr]
        · exact absurd hr (by simp)
      · simp only [Option.some.injEq] at hr; rw [← hr]
    rw [this]; exact CounterMatches_Recv _ _ h
  | ShutdownRecv =>
    simp only [Op.apply, Option.some.injEq] at hs
    subst hs; exact CounterMatches_of_same s _ h rfl rfl
  | ShutdownSend =>
    simp only [Op.apply, Option.some.injEq] at hs
    subst hs; exact CounterMatches_of_same s _ h rfl rfl
  | Close =>
    simp only [Op.apply, Option.some.injEq] at hs
    subst hs; exact CounterMatches_of_same s _ h (queue_Close s).1 (queue_Close s).2

theorem CounterMatches_run (ops : List Op) (s0 s : RudpSocketImpl) (h : CounterMatches s0)
    (hs : Op.run s0 ops = some s) : CounterMatches s := by
  induction ops generalizing s0 with
  | nil =>
    simp only [Op.run, Option.some.injEq] at hs
    subst hs; exact h
  | cons op ops ih =>
    simp only [Op.run, Option.bind_eq_some] at hs
    obtain ⟨s1, h1, h2⟩ := hs
    exact ih s1 (CounterMatches_apply s0 s1 op h h1) h2

/-- C12: in every state reached from a freshly constructed socket (empty
queue, counter 0, whatever its options) through `ForwardUp`, `ForwardUp6`,
`Recv`, `RecvFrom`, `ShutdownRecv`, `ShutdownSend` and `Close`, the counter
returned by `GetRxAvailable` equals the sum of the sizes of the queued payloads
in 32-bit unsigned arithmetic; it is that sum itself whenever the sum is below
2^32. -/
theorem rxAvailable_eq_queuedBytes (s0 : RudpSocketImpl) (ops : List Op) (s : RudpSocketImpl)
    (hq : s0.m_deliveryQueue = []) (hrx : s0.m_rxAvailable = 0)
    (hs : Op.run s0 ops = some s) :
    GetRxAvailable s = s.queuedBytes % 2 ^ 32 ∧
    (s.queuedBytes < 2 ^ 32 → GetRxAvailable s = s.queuedBytes) := by
  have h0 : CounterMatches s0 := by
    unfold CounterMatches queuedBytes
    rw [hq, hrx]; rfl
  have h : CounterMatches s := CounterMatches_run ops s0 s h0 hs
  refine ⟨h, fun hlt => ?_⟩
  show s.m_rxAvailable = _
  rw [h]; exact Nat.mod_eq_of_lt hlt

/-- Witness for C12: two accepted deliveries, one dropped, one retrieval and a
close. -/
theorem rxAvailable_eq_queuedBytes_witness :
    ∃ s, Op.run (fresh 100) sampleOps = some s ∧
      GetRxAvailable s = 30 ∧ s.queuedBytes = 30 ∧
      (GetRxAvailable s = s.queuedBytes % 2 ^ 32 ∧
        (s.queuedBytes < 2 ^ 32 → GetRxAvailable s = s.queuedBytes)) :=
  ⟨_, rfl, by decide, by decide, rxAvailable_eq_queuedBytes (fresh 100) sampleOps _ rfl rfl rfl⟩

theorem WithinBudget_enqueue (B : Nat) (s : RudpSocketImpl) (q : Packet)
    (h : WithinBudget B s) (hfit : s.m_rxAvailable + q.size ≤ B) (hB : B < 2 ^ 32) :
    WithinBudget B (enqueue s q) := by
  obtain ⟨h1, h2, h3, h4⟩ := h
  refine ⟨h1, h2, ?_, ?_⟩
  · rw [rx_enqueue, queuedBytes_enqueue, ← h3]
    exact Nat.mod_eq_of_lt (by omega)
  · rw [rx_enqueue, Nat.mod_eq_of_lt (by omega)]
    exact hfit

theorem WithinBudget_ForwardUp (B : Nat) (s : RudpSocketImpl) (packet : Packet)
    (header : Ipv4Header) (port i : Nat) (h : WithinBudget B s) (hB : B < 2 ^ 32)
    (hp : B + packet.size < 2 ^ 32) : WithinBudget B (ForwardUp s packet header port i) := by
  have hrx : s.m_rxAvailable ≤ B := h.2.2.2
  have hb : s.m_rcvBufSize = B := h.1
  rw [ForwardUp_eq]
  split
  · exact h
  · rw [Nat.mod_eq_of_lt (by omega), hb]
    split
    · rename_i hfit
      exact WithinBudget_enqueue B s _ h (by simpa [size_tagged] using hfit) hB
    · exact h

theorem WithinBudget_ForwardUp6 (B : Nat) (s : RudpSocketImpl) (packet : Packet)
    (header : Ipv6Header) (port i : Nat) (h : WithinBudget B s) (hB : B < 2 ^ 32)
    (hp : B + packet.size < 2 ^ 32) : WithinBudget B (ForwardUp6 s packet header port i) := by
  have hrx : s.m_rxAvailable ≤ B := h.2.2.2
  have hb : s.m_rcvBufSize = B := h.1
  rw [ForwardUp6_eq]
  split
  · exact h
  · rw [Nat.mod_eq_of_lt (by omega), hb]
    split
    · rename_i hfit
      exact WithinBudget_enqueue B s _ h (by simpa [size_tagged6] using hfit) hB
    · exact h

theorem WithinBudget_Recv (B : Nat) (s : RudpSocketImpl) (maxSize : Nat)
    (h : WithinBudget B s) (hB : B < 2 ^ 32) : WithinBudget B (Recv s maxSize).1 := by
  obtain ⟨h1, h2, h3, h4⟩ := h
  unfold Recv
  split
  · exact ⟨h1, h2, h3, h4⟩
  · rename_i p rest hq
    split
    · have hsum : s.m_rxAvailable = p.size + (rest.map Packet.size).sum := by
        rw [h3]; unfold queuedBytes; rw [hq]; simp
      have hmod : p.size % 2 ^ 32 = p.size := Nat.mod_eq_of_lt (by omega)
      have hnew : (s.m_rxAvailable + (2 ^ 32 - p.size % 2 ^ 32)) % 2 ^ 32
          = (rest.map Packet.size).sum := by
        rw [hmod]; omega
      refine ⟨h1, h2, ?_, ?_⟩
      · show (s.m_rxAvailable + (2 ^ 32 - p.size % 2 ^ 32)) % 2 ^ 32 = _
        rw [hnew]; rfl
      · show (s.m_rxAvailable + (2 ^ 32 - p.size % 2 ^ 32)) % 2 ^ 32 ≤ B
        rw [hnew]; omega
    · exact ⟨h1, h2, h3, h4⟩

theorem RecvFrom_state (s : RudpSocketImpl) (maxSize : Nat) (a : Address)
    (r : RudpSocketImpl × Option Packet × Address) (hr : RecvFrom s maxSize a = some r) :
    r.1 = (Recv s maxSize).1 := by
  unfold RecvFrom at hr
  split at hr
  · split at hr
    · simp only [Option.some.injEq] at hr; rw [← hr]
    · exact absurd hr (by simp)
  · simp only [Option.some.injEq] at hr; rw [← hr]

theorem WithinBudget_apply (B : Nat) (s s1 : RudpSocketImpl) (op : Op) (h : WithinBudget B s)
    (hB : B < 2 ^ 32) (hop : op.isReceivePath = true ∧ B + op.deliveredSize < 2 ^ 32)
    (hs : Op.apply s op = some s1) : WithinBudget B s1 := by
  cases op with
  | ForwardUp packet header port i =>
    simp only [Op.apply, Option.some.injEq] at hs
    subst hs; exact WithinBudget_ForwardUp B s _ _ _ _ h hB hop.2
  | ForwardUp6 packet header port i =>
    simp only [Op.apply, Option.some.injEq] at hs
    subst hs; exact WithinBudget_ForwardUp6 B s _ _ _ _ h hB hop.2
  | Recv maxSize =>
    simp only [Op.apply, Option.some.injEq] at hs
    subst hs; exact WithinBudget_Recv B s _ h hB
  | RecvFrom maxSize =>
    simp only [Op.apply, Option.map_eq_some'] at hs
    obtain ⟨r, hr, rfl⟩ := hs
    rw [RecvFrom_state s maxSize _ r hr]; exact WithinBudget_Recv B s _ h hB
  | ShutdownRecv => exact absurd hop.1 (by simp [Op.isReceivePath])
  | ShutdownSend => exact absurd hop.1 (by simp [Op.isReceivePath])
  | Close => exact absurd hop.1 (by simp [Op.isReceivePath])

theorem WithinBudget_run (B : Nat) (ops : List Op) (s0 s : RudpSocketImpl)
    (h : WithinBudget B s0) (hB : B < 2 ^ 32)
    (hops : ∀ op ∈ ops, op.isReceivePath = true ∧ B + op.deliveredSize < 2 ^ 32)
    (hs : Op.run s0 ops = some s) : WithinBudget B s := by
  induction ops generalizing s0 with
  | nil =>
    simp only [Op.run, Option.some.injEq] at hs
    subst hs; exact h
  | cons op ops ih =>
    simp only [Op.run, Option.bind_eq_some] at hs
    obtain ⟨s1, h1, h2⟩ := hs
    exact ih s1 (WithinBudget_apply B s0 s1 op h hB (hops op (List.mem_cons_self _ _)) h1)
      (fun o ho => hops o (List.mem_cons_of_mem _ ho)) h2

/-- C11, as stated, fails when the 32-bit sum wraps. With a budget of 100
bytes and 50 bytes queued, a delivery of 2^32 - 10 bytes is enqueued although
50 + (2^32 - 10) exceeds 100, and after the next `Recv` the counter returned by
`GetRxAvailable` is 2^32 - 10, above the budget. -/
theorem receive_backpressure_counterexample :
    ∃ s1 s2 s3,
      Op.run (fresh 100) [Op.ForwardUp (samplePacket 50) sampleHeader 9000 1] = some s1 ∧
      GetRxAvailable s1 = 50 ∧
      ¬ (GetRxAvailable s1 + (samplePacket (2 ^ 32 - 10)).size ≤ 100) ∧
      Op.apply s1 (Op.ForwardUp (samplePacket (2 ^ 32 - 10)) sampleHeader 9000 1) = some s2 ∧
      s2.m_deliveryQueue.length = 2 ∧
      Op.apply s2 (Op.Recv (2 ^ 32 - 1)) = some s3 ∧
      GetRxAvailable s3 = 2 ^ 32 - 10 ∧ ¬ (GetRxAvailable s3 ≤ 100) := by
  refine ⟨_, _, _, rfl, by decide, by decide, rfl, by decide, rfl, by decide, by decide⟩


theorem not_Enqueued_of_same_queue (s t : RudpSocketImpl) (packet : Packet)
    (h : t.m_deliveryQueue = s.m_deliveryQueue) : ¬ Enqueued s t packet := by
  rintro ⟨q, -, -, hq, -⟩
  rw [h] at hq
  have := congrArg List.length hq
  simp at this

theorem not_Dropped_of_longer_queue (s t : RudpSocketImpl) (packet q : Packet)
    (h : t.m_deliveryQueue = s.m_deliveryQueue ++ [q]) : ¬ Dropped s t packet := by
  rintro ⟨r, -, -, hq, -⟩
  rw [h] at hq
  have := congrArg List.length hq
  simp at this

theorem ForwardUp_within (B : Nat) (s : RudpSocketImpl) (packet : Packet) (header : Ipv4Header)
    (port i : Nat) (h : WithinBudget B s) (hp : B + packet.size < 2 ^ 32) :
    (Enqueued s (ForwardUp s packet header port i) packet ↔ s.m_rxAvailable + packet.size ≤ B) ∧
    (Dropped s (ForwardUp s packet header port i) packet ↔
      ¬ s.m_rxAvailable + packet.size ≤ B) := by
  obtain ⟨hb, hsh, -, hrx⟩ := h
  have hmod : (s.m_rxAvailable + packet.size) % 2 ^ 32 = s.m_rxAvailable + packet.size :=
    Nat.mod_eq_of_lt (by omega)
  rw [ForwardUp_eq, hsh, hmod, hb]
  simp only [Bool.false_eq_true, if_false]
  by_cases hfit : s.m_rxAvailable + packet.size ≤ B
  · rw [if_pos hfit]
    have hE : Enqueued s (enqueue s ((tagged s packet header i).AddPacketTag
        (Tag.SocketAddressTag (Address.InetSocketAddress header.source port)))) packet :=
      ⟨(tagged s packet header i).AddPacketTag
          (Tag.SocketAddressTag (Address.InetSocketAddress header.source port)),
        size_tagged s packet header i, uid_tagged s packet header i, rfl,
        by rw [rx_enqueue, size_AddPacketTag, size_tagged, hmod], rfl⟩
    exact ⟨⟨fun _ => hfit, fun _ => hE⟩,
      ⟨fun hd => absurd hd (not_Dropped_of_longer_queue _ _ _ _ rfl), fun hn => absurd hfit hn⟩⟩
  · rw [if_neg hfit]
    have hD : Dropped s (emit s (Event.Drop (tagged s packet header i))) packet :=
      ⟨_, size_tagged s packet header i, uid_tagged s packet header i, rfl, rfl, rfl⟩
    exact ⟨⟨fun he => absurd he (not_Enqueued_of_same_queue _ _ _ rfl), fun hf => absurd hf hfit⟩,
      ⟨fun _ => hfit, fun _ => hD⟩⟩

theorem ForwardUp6_within (B : Nat) (s : RudpSocketImpl) (packet : Packet) (header : Ipv6Header)
    (port i : Nat) (h : WithinBudget B s) (hp : B + packet.size < 2 ^ 32) :
    (Enqueued s (ForwardUp6 s packet header port i) packet ↔ s.m_rxAvailable + packet.size ≤ B) ∧
    (Dropped s (ForwardUp6 s packet header port i) packet ↔
      ¬ s.m_rxAvailable + packet.size ≤ B) := by
  obtain ⟨hb, hsh, -, hrx⟩ := h
  have hmod : (s.m_rxAvailable + packet.size) % 2 ^ 32 = s.m_rxAvailable + packet.size :=
    Nat.mod_eq_of_lt (by omega)
  rw [ForwardUp6_eq, hsh, hmod, hb]
  simp only [Bool.false_eq_true, if_false]
  by_cases hfit : s.m_rxAvailable + packet.size ≤ B
  · rw [if_pos hfit]
    have hE : Enqueued s (enqueue s ((tagged6 s packet header i).AddPacketTag
        (Tag.SocketAddressTag (Address.Inet6SocketAddress header.source port)))) packet :=
      ⟨(tagged6 s packet header i).AddPacketTag
          (Tag.SocketAddressTag (Address.Inet6SocketAddress header.source port)),
        size_tagged6 s packet header i, uid_tagged6 s packet header i, rfl,
        by rw [rx_enqueue, size_AddPacketTag, size_tagged6, hmod], rfl⟩
    exact ⟨⟨fun _ => hfit, fun _ => hE⟩,
      ⟨fun hd => absurd hd (not_Dropped_of_longer_queue _ _ _ _ rfl), fun hn => absurd hfit hn⟩⟩
  · rw [if_neg hfit]
    have hD : Dropped s (emit s (Event.Drop (tagged6 s packet header i))) packet :=
      ⟨_, size_tagged6 s packet header i, uid_tagged6 s packet header i, rfl, rfl, rfl⟩
    exact ⟨⟨fun he => absurd he (not_Enqueued_of_same_queue _ _ _ rfl), fun hf => absurd hf hfit⟩,
      ⟨fun _ => hfit, fun _ => hD⟩⟩

/-- C11, amended: for a fixed receive-buffer budget `B` (a 32-bit value) and
every sequence of `ForwardUp` / `ForwardUp6` deliveries interleaved with `Recv`
/ `RecvFrom` calls starting from an empty socket (empty queue, counter 0,
reception not shut down, whatever its options), in which every delivered
payload satisfies `B + size < 2^32` (so that the 32-bit sum cannot wrap),
`GetRxAvailable ()` never exceeds `B`; a further such payload is enqueued iff
queued bytes + payload size is at most `B`, and is otherwise dropped, the drop
trace firing with queue and counter unchanged. -/
theorem receive_backpressure (B : Nat) (s0 : RudpSocketImpl) (ops : List Op)
    (s : RudpSocketImpl) (hB : B < 2 ^ 32)
    (hbuf : s0.m_rcvBufSize = B) (hq : s0.m_deliveryQueue = []) (hrx : s0.m_rxAvailable = 0)
    (hsh : s0.m_shutdownRecv = false)
    (hops : ∀ op ∈ ops, op.isReceivePath = true ∧ B + op.deliveredSize < 2 ^ 32)
    (hs : Op.run s0 ops = some s) :
    GetRxAvailable s ≤ B ∧
    ∀ (packet : Packet) (header : Ipv4Header) (header6 : Ipv6Header) (port i : Nat),
      B + packet.size < 2 ^ 32 →
      (Enqueued s (ForwardUp s packet header port i) packet ↔
        GetRxAvailable s + packet.size ≤ B) ∧
      (Dropped s (ForwardUp s packet header port i) packet ↔
        ¬ GetRxAvailable s + packet.size ≤ B) ∧
      (Enqueued s (ForwardUp6 s packet header6 port i) packet ↔
        GetRxAvailable s + packet.size ≤ B) ∧
      (Dropped s (ForwardUp6 s packet header6 port i) packet ↔
        ¬ GetRxAvailable s + packet.size ≤ B) := by
  have h0 : WithinBudget B s0 := by
    refine ⟨hbuf, hsh, ?_, ?_⟩
    · unfold queuedBytes; rw [hq, hrx]; rfl
    · rw [hrx]; exact Nat.zero_le _
  have h : WithinBudget B s := WithinBudget_run B ops s0 s h0 hB hops hs
  refine ⟨h.2.2.2, ?_⟩
  intro packet header header6 port i hp
  obtain ⟨h1, h2⟩ := ForwardUp_within B s packet header port i h hp
  obtain ⟨h3, h4⟩ := ForwardUp6_within B s packet header6 port i h hp
  exact ⟨h1, h2, h3, h4⟩

/-- Witness for the amended C11: budget 100, deliveries of 60, 30 and 20 bytes
around one retrieval. -/
theorem receive_backpressure_witness :
    ∃ s, Op.run (fresh 100) sampleDeliveries = some s ∧ GetRxAvailable s = 50 ∧
      (GetRxAvailable s ≤ 100 ∧
      ∀ (packet : Packet) (header : Ipv4Header) (header6 : Ipv6Header) (port i : Nat),
        100 + packet.size < 2 ^ 32 →
        (Enqueued s (ForwardUp s packet header port i) packet ↔
          GetRxAvailable s + packet.size ≤ 100) ∧
        (Dropped s (ForwardUp s packet header port i) packet ↔
          ¬ GetRxAvailable s + packet.size ≤ 100) ∧
        (Enqueued s (ForwardUp6 s packet header6 port i) packet ↔
          GetRxAvailable s + packet.size ≤ 100) ∧
        (Dropped s (ForwardUp6 s packet header6 port i) packet ↔
          ¬ GetRxAvailable s + packet.size ≤ 100)) :=
  ⟨_, rfl, by decide,
    receive_backpressure 100 (fresh 100) sampleDeliveries _ (by decide) rfl rfl rfl rfl
      (by decide) rfl⟩

/-- C13: when the queue is non-empty and the front payload fits `maxSize`,
`Recv` returns exactly the front payload, removes only that entry and leaves
the rest of the queue in order, and decreases the queued-byte counter by the
payload size (a 32-bit subtraction, exact when the counter is at least the
size); nothing else in the socket changes. Deliveries only ever append at the
back of the queue, so the front is the oldest accepted payload. -/
theorem Recv_fifo (s : RudpSocketImpl) (p : Packet) (rest : List Packet) (maxSize : Nat)
    (hq : s.m_deliveryQueue = p :: rest) (hfit : p.size ≤ maxSize)
    (hp : p.size < 2 ^ 32) :
    (Recv s maxSize).2 = some p ∧
    (Recv s maxSize).1.m_deliveryQueue = rest ∧
    (Recv s maxSize).1.m_rxAvailable = (s.m_rxAvailable + 2 ^ 32 - p.size) % 2 ^ 32 ∧
    (p.size ≤ s.m_rxAvailable → s.m_rxAvailable < 2 ^ 32 →
      (Recv s maxSize).1.m_rxAvailable = s.m_rxAvailable - p.size) ∧
    (Recv s maxSize).1 =
      { s with m_deliveryQueue := rest, m_rxAvailable := (Recv s maxSize).1.m_rxAvailable } ∧
    (∀ (packet : Packet) (header : Ipv4Header) (header6 : Ipv6Header) (port i : Nat),
      ((ForwardUp s packet header port i).m_deliveryQueue = s.m_deliveryQueue ∨
        ∃ q, q.uid = packet.uid ∧
          (ForwardUp s packet header port i).m_deliveryQueue = s.m_deliveryQueue ++ [q]) ∧
      ((ForwardUp6 s packet header6 port i).m_deliveryQueue = s.m_deliveryQueue ∨
        ∃ q, q.uid = packet.uid ∧
          (ForwardUp6 s packet header6 port i).m_deliveryQueue = s.m_deliveryQueue ++ [q])) := by
  have hR : Recv s maxSize =
      ({ s with
          m_deliveryQueue := rest
          m_rxAvailable := (s.m_rxAvailable + (2 ^ 32 - p.size % 2 ^ 32)) % 2 ^ 32 }, some p) := by
    unfold Recv
    rw [hq]
    simp only [if_pos hfit]
  have hmod : p.size % 2 ^ 32 = p.size := Nat.mod_eq_of_lt hp
  rw [hR]
  refine ⟨rfl, rfl, ?_, ?_, rfl, ?_⟩
  · show (s.m_rxAvailable + (2 ^ 32 - p.size % 2 ^ 32)) % 2 ^ 32 = _
    rw [hmod]; omega
  · intro hle hlt
    show (s.m_rxAvailable + (2 ^ 32 - p.size % 2 ^ 32)) % 2 ^ 32 = _
    rw [hmod]; omega
  · intro packet header header6 port i
    constructor
    · rw [ForwardUp_eq]
      split
      · exact Or.inl rfl
      · split
        · exact Or.inr ⟨(tagged s packet header i).AddPacketTag
            (Tag.SocketAddressTag (Address.InetSocketAddress header.source port)),
            uid_tagged s packet header i, rfl⟩
        · exact Or.inl rfl
    · rw [ForwardUp6_eq]
      split
      · exact Or.inl rfl
      · split
        · exact Or.inr ⟨(tagged6 s packet header6 i).AddPacketTag
            (Tag.SocketAddressTag (Address.Inet6SocketAddress header6.source port)),
            uid_tagged6 s packet header6 i, rfl⟩
        · exact Or.inl rfl


/-- Witness for C13: a 100-byte payload in front of a 10-byte payload. -/
theorem Recv_fifo_witness :
    (Recv sampleQueued 100).2 = some (samplePacket 100) ∧
    (Recv sampleQueued 100).1.m_deliveryQueue = [samplePacket 10] ∧
    (Recv sampleQueued 100).1.m_rxAvailable = 10 :=
  have h := Recv_fifo sampleQueued (samplePacket 100) [samplePacket 10] 100 rfl (by decide)
    (by decide)
  ⟨h.1, h.2.1, by decide⟩

/-- C14: `Recv` returns nothing and leaves the delivery queue and the
queued-byte counter unchanged exactly when the queue is empty or the front
entry is strictly larger than `maxSize`. In the empty case the last error
becomes `ERROR_AGAIN` and nothing else changes; in the oversized case the
socket is unchanged altogether, so the entry stays at the front whatever
follows it in the queue. -/
theorem Recv_nothing_iff (s : RudpSocketImpl) (maxSize : Nat) :
    (((Recv s maxSize).2 = none ∧
        (Recv s maxSize).1.m_deliveryQueue = s.m_deliveryQueue ∧
        (Recv s maxSize).1.m_rxAvailable = s.m_rxAvailable) ↔
      (s.m_deliveryQueue = [] ∨
        ∃ p rest, s.m_deliveryQueue = p :: rest ∧ maxSize < p.size)) ∧
    (s.m_deliveryQueue = [] →
      Recv s maxSize = ({ s with m_errno := SocketErrno.ERROR_AGAIN }, none)) ∧
    (∀ p rest, s.m_deliveryQueue = p :: rest → maxSize < p.size →
      Recv s maxSize = (s, none)) := by
  refine ⟨?_, ?_, ?_⟩
  · unfold Recv
    split
    · rename_i hq
      exact ⟨fun _ => Or.inl hq, fun _ => ⟨rfl, rfl, rfl⟩⟩
    · rename_i p rest hq
      split
      · rename_i hfit
        constructor
        · intro h; exact absurd h.1 (by simp)
        · rintro (h | ⟨p1, rest1, h1, h2⟩)
          · rw [hq] at h; exact absurd h (by simp)
          · rw [hq] at h1
            simp only [List.cons.injEq] at h1
            rw [← h1.1] at h2
            omega
      · rename_i hbig
        exact ⟨fun _ => Or.inr ⟨p, rest, hq, by omega⟩, fun _ => ⟨rfl, rfl, rfl⟩⟩
  · intro hq
    unfold Recv
    rw [hq]
  · intro p rest hq hbig
    unfold Recv
    rw [hq]
    simp only [if_neg (show ¬ p.size ≤ maxSize by omega)]

/-- Witness for C14: a 100-byte payload in front of a 10-byte payload and
`maxSize` 50; the later entry would fit, yet nothing is returned. -/
theorem Recv_nothing_iff_witness :
    Recv sampleQueued 50 = (sampleQueued, none) ∧
    Recv (fresh 100) 50 = ({ fresh 100 with m_errno := SocketErrno.ERROR_AGAIN }, none) :=
  ⟨(Recv_nothing_iff sampleQueued 50).2.2 (samplePacket 100) [samplePacket 10] rfl (by decide),
    (Recv_nothing_iff (fresh 100) 50).2.1 rfl⟩

/-- C20: while receive-shutdown is active every `ForwardUp` / `ForwardUp6`
delivery leaves the socket exactly as it was (queue, counter, last error and
the record of notifications and drop events included); `ShutdownRecv` and a
successful `Close` both activate it. -/
theorem shutdownRecv_discards (s s0 : RudpSocketImpl) (packet : Packet) (header : Ipv4Header)
    (header6 : Ipv6Header) (port i : Nat) (h : s.m_shutdownRecv = true) :
    ForwardUp s packet header port i = s ∧
    ForwardUp6 s packet header6 port i = s ∧
    (ShutdownRecv s0).1.m_shutdownRecv = true ∧
    ForwardUp (ShutdownRecv s0).1 packet header port i = (ShutdownRecv s0).1 ∧
    ForwardUp6 (ShutdownRecv s0).1 packet header6 port i = (ShutdownRecv s0).1 ∧
    ((Close s0).2 = 0 →
      (Close s0).1.m_shutdownRecv = true ∧
      ForwardUp (Close s0).1 packet header port i = (Close s0).1 ∧
      ForwardUp6 (Close s0).1 packet header6 port i = (Close s0).1) := by
  have key4 : ∀ t : RudpSocketImpl, t.m_shutdownRecv = true →
      ForwardUp t packet header port i = t := by
    intro t ht
    rw [ForwardUp_eq, if_pos ht]
  have key6 : ∀ t : RudpSocketImpl, t.m_shutdownRecv = true →
      ForwardUp6 t packet header6 port i = t := by
    intro t ht
    rw [ForwardUp6_eq, if_pos ht]
  have hsr : (ShutdownRecv s0).1.m_shutdownRecv = true := rfl
  refine ⟨key4 s h, key6 s h, hsr, key4 _ hsr, key6 _ hsr, ?_⟩
  intro hc
  have hcl : (Close s0).1.m_shutdownRecv = true := by
    unfold Close at hc ⊢
    split
    · rename_i hboth
      rw [if_pos hboth] at hc
      simp at hc
    · dsimp only
      unfold DeallocateEndPoint
      dsimp only
      split <;> split <;> rfl
  exact ⟨hcl, key4 _ hcl, key6 _ hcl⟩

/-- Witness for C20: a delivery after `ShutdownRecv` on a socket with two
queued payloads. -/
theorem shutdownRecv_discards_witness :
    ForwardUp (ShutdownRecv sampleQueued).1 (samplePacket 20) sampleHeader 9000 1
      = (ShutdownRecv sampleQueued).1 ∧
    ForwardUp6 (ShutdownRecv sampleQueued).1 (samplePacket 20) sampleHeader6 9000 1
      = (ShutdownRecv sampleQueued).1 ∧
    (ShutdownRecv sampleQueued).1.m_deliveryQueue = [samplePacket 100, samplePacket 10] ∧
    (ShutdownRecv sampleQueued).1.trace = [] :=
  have h := shutdownRecv_discards (ShutdownRecv sampleQueued).1 sampleQueued (samplePacket 20)
    sampleHeader sampleHeader6 9000 1 rfl
  ⟨h.1, h.2.1, rfl, rfl⟩


theorem Close_failed (s : RudpSocketImpl)
    (h : s.m_shutdownRecv = true ∧ s.m_shutdownSend = true) :
    Close s = ({ s with m_errno := SocketErrno.ERROR_BADF }, -1) := by
  unfold Close
  rw [if_pos h]

theorem DeallocateEndPoint_spec (s : RudpSocketImpl) :
    (DeallocateEndPoint s).m_endPoint = none ∧ (DeallocateEndPoint s).m_endPoint6 = none ∧
    (DeallocateEndPoint s).m_shutdownRecv = s.m_shutdownRecv ∧
    (DeallocateEndPoint s).m_shutdownSend = s.m_shutdownSend ∧
    (DeallocateEndPoint s).trace = s.trace ++ pendingDeallocations s := by
  unfold DeallocateEndPoint pendingDeallocations
  cases h4 : s.m_endPoint <;> cases h6 : s.m_endPoint6 <;> simp [emit, h4, h6]

theorem Ipv6LeaveGroup_spec (s : RudpSocketImpl) :
    (Ipv6LeaveGroup s).m_endPoint = s.m_endPoint ∧
    (Ipv6LeaveGroup s).m_endPoint6 = s.m_endPoint6 ∧
    (Ipv6LeaveGroup s).trace.filter isDeAllocate = s.trace.filter isDeAllocate := by
  unfold Ipv6LeaveGroup
  split
  · exact ⟨rfl, rfl, rfl⟩
  · refine ⟨rfl, rfl, ?_⟩
    simp [emit, isDeAllocate]

theorem filter_pendingDeallocations (s : RudpSocketImpl) :
    (pendingDeallocations s).filter isDeAllocate = pendingDeallocations s := by
  unfold pendingDeallocations
  cases s.m_endPoint <;> cases s.m_endPoint6 <;> simp [isDeAllocate]

theorem Close_succeeded (s : RudpSocketImpl)
    (h : ¬ (s.m_shutdownRecv = true ∧ s.m_shutdownSend = true)) :
    (Close s).2 = 0 ∧ (Close s).1.m_shutdownRecv = true ∧ (Close s).1.m_shutdownSend = true ∧
    (Close s).1.m_endPoint = none ∧ (Close s).1.m_endPoint6 = none ∧
    (Close s).1.trace.filter isDeAllocate
      = s.trace.filter isDeAllocate ++ pendingDeallocations s := by
  unfold Close
  rw [if_neg h]
  dsimp only
  obtain ⟨g4, g6, gt⟩ := Ipv6LeaveGroup_spec s
  obtain ⟨d4, d6, dr, ds, dt⟩ := DeallocateEndPoint_spec
    { Ipv6LeaveGroup s with m_shutdownRecv := true, m_shutdownSend := true }
  refine ⟨rfl, dr, ds, d4, d6, ?_⟩
  rw [dt, List.filter_append, filter_pendingDeallocations]
  have : pendingDeallocations
      { Ipv6LeaveGroup s with m_shutdownRecv := true, m_shutdownSend := true }
      = pendingDeallocations s := by
    unfold pendingDeallocations
    show (List.map _ (Ipv6LeaveGroup s).m_endPoint.toList) ++
      (List.map _ (Ipv6LeaveGroup s).m_endPoint6.toList) = _
    rw [g4, g6]
  rw [this]
  show List.filter isDeAllocate (Ipv6LeaveGroup s).trace ++ _ = _
  rw [gt]

/-- C17: `Close` returns -1 iff both shutdown flags are already set; in that
case only the last error changes, to `ERROR_BADF`. Otherwise it returns 0,
sets both shutdown flags, leaves both end point references null and requests
exactly one deallocation for each end point that was non-null. A second
consecutive `Close` therefore fails with `ERROR_BADF` and changes nothing but
the last error, so it requests no deallocation. -/
theorem Close_contract (s : RudpSocketImpl) :
    ((Close s).2 = -1 ↔ (s.m_shutdownRecv = true ∧ s.m_shutdownSend = true)) ∧
    (s.m_shutdownRecv = true ∧ s.m_shutdownSend = true →
      Close s = ({ s with m_errno := SocketErrno.ERROR_BADF }, -1)) ∧
    (¬ (s.m_shutdownRecv = true ∧ s.m_shutdownSend = true) →
      (Close s).2 = 0 ∧
      (Close s).1.m_shutdownRecv = true ∧ (Close s).1.m_shutdownSend = true ∧
      (Close s).1.m_endPoint = none ∧ (Close s).1.m_endPoint6 = none ∧
      (Close s).1.trace.filter isDeAllocate
        = s.trace.filter isDeAllocate ++ pendingDeallocations s) ∧
    Close (Close s).1 = ({ (Close s).1 with m_errno := SocketErrno.ERROR_BADF }, -1) := by
  have hflags : (Close s).1.m_shutdownRecv = true ∧ (Close s).1.m_shutdownSend = true := by
    by_cases h : s.m_shutdownRecv = true ∧ s.m_shutdownSend = true
    · rw [Close_failed s h]; exact h
    · exact ⟨(Close_succeeded s h).2.1, (Close_succeeded s h).2.2.1⟩
  refine ⟨?_, Close_failed s, Close_succeeded s, Close_failed _ hflags⟩
  constructor
  · intro hr
    by_contra h
    rw [(Close_succeeded s h).1] at hr
    exact absurd hr (by decide)
  · intro h
    rw [Close_failed s h]

/-- Witness for C17: closing a socket that holds both end points, twice. -/
theorem Close_contract_witness :
    (Close sampleBound).2 = 0 ∧
    (Close sampleBound).1.m_endPoint = none ∧ (Close sampleBound).1.m_endPoint6 = none ∧
    (Close sampleBound).1.trace
      = [Event.DeAllocate sampleEndPoint, Event.DeAllocate6 wildcardEndPoint] ∧
    (Close (Close sampleBound).1).2 = -1 ∧
    (Close (Close sampleBound).1).1.m_errno = SocketErrno.ERROR_BADF ∧
    (Close (Close sampleBound).1).1.trace = (Close sampleBound).1.trace :=
  have h := Close_contract sampleBound
  have h2 := congrArg Prod.snd h.2.2.2
  have h1 := congrArg Prod.fst h.2.2.2
  ⟨(h.2.2.1 (by decide)).1, (h.2.2.1 (by decide)).2.2.2.1, (h.2.2.1 (by decide)).2.2.2.2.1,
    by decide, h2, by rw [h1], by rw [h1]⟩


theorem size_sendTagged (s : RudpSocketImpl) (p : Packet) (dest : Nat) :
    (sendTagged s p dest).size = p.size := by
  unfold sendTagged
  dsimp only
  split <;> split <;> split <;> rfl

theorem size_sendTagged6 (s : RudpSocketImpl) (p : Packet) (dest : Nat) :
    (sendTagged6 s p dest).size = p.size := by
  unfold sendTagged6
  dsimp only
  split <;> split <;> rfl

/-- Closed form of the IPv4 send path once an end point is present. -/
theorem DoSendToIpv4Bound_eq (env : Env) (s : RudpSocketImpl) (p : Packet) (dest port : Nat) :
    DoSendToIpv4Bound env s p dest port =
      if s.m_shutdownSend then some ({ s with m_errno := SocketErrno.ERROR_SHUTDOWN }, -1)
      else if p.size > GetTxAvailable then
        some ({ s with m_errno := SocketErrno.ERROR_MSGSIZE }, -1)
      else
        match s.m_endPoint with
        | none => none
        | some ep =>
          if ep.localAddress ≠ 0 then
            some (emit (emit (emit s
              (Event.Send (sendTagged s p dest) ep.localAddress dest ep.localPort port none))
              (Event.NotifyDataSent p.size)) (Event.NotifySend GetTxAvailable), (p.size : Int))
          else
            match env.RoutingProtocol with
            | some routing =>
              match (routing (sendTagged s p dest) dest s.m_boundnetdevice).route with
              | some route =>
                some (emit (emit s
                  (Event.Send (sendTagged s p dest) route.source dest ep.localPort port
                    (some route))) (Event.NotifyDataSent p.size), (p.size : Int))
              | none =>
                some ({ s with
                  m_errno := (routing (sendTagged s p dest) dest s.m_boundnetdevice).errno_ }, -1)
            | none => some ({ s with m_errno := SocketErrno.ERROR_NOROUTETOHOST }, -1) := by
  unfold DoSendToIpv4Bound
  split
  · rfl
  · split
    · rfl
    · rw [← size_sendTagged s p dest]
      rfl

/-- Closed form of the IPv6 send path once an end point is present. -/
theorem DoSendToIpv6Bound_eq (env : Env) (s : RudpSocketImpl) (p : Packet) (dest port : Nat) :
    DoSendToIpv6Bound env s p dest port =
      if s.m_shutdownSend then some ({ s with m_errno := SocketErrno.ERROR_SHUTDOWN }, -1)
      else if p.size > GetTxAvailable then
        some ({ s with m_errno := SocketErrno.ERROR_MSGSIZE }, -1)
      else
        match s.m_endPoint6 with
        | none => none
        | some ep =>
          if ep.localAddress ≠ 0 then
            some (emit (emit (emit s
              (Event.Send6 (sendTagged6 s p dest) ep.localAddress dest ep.localPort port none))
              (Event.NotifyDataSent p.size)) (Event.NotifySend GetTxAvailable), (p.size : Int))
          else
            match env.RoutingProtocol6 with
            | some routing =>
              match (routing (sendTagged6 s p dest) dest s.m_boundnetdevice).route with
              | some route =>
                some (emit (emit s
                  (Event.Send6 (sendTagged6 s p dest) route.source dest ep.localPort port
                    (some route))) (Event.NotifyDataSent p.size), (p.size : Int))
              | none =>
                some ({ s with
                  m_errno := (routing (sendTagged6 s p dest) dest s.m_boundnetdevice).errno_ }, -1)
            | none => some ({ s with m_errno := SocketErrno.ERROR_NOROUTETOHOST }, -1) := by
  unfold DoSendToIpv6Bound
  split
  · rfl
  · split
    · rfl
    · rw [← size_sendTagged6 s p dest]
      rfl

/-- Closed form of `FinishBind`. -/
theorem FinishBind_eq (s : RudpSocketImpl) :
    FinishBind s =
      ({ s with
          m_endPoint := s.m_endPoint.map registered
          m_endPoint6 := s.m_endPoint6.map registered6 },
        if s.m_endPoint.isSome || s.m_endPoint6.isSome then 0 else -1) := by
  unfold FinishBind
  cases s
  rename_i e4 e6 _ _ _ _ _ _ _ _ _ _ _ _ _ _ _ _ _ _ _ _ _ _ _ _ _ _
  cases e4 <;> cases e6 <;> simp [registered, registered6]

/-- Closed form of `Bind ()`. -/
theorem Bind_eq (env : Env) (s : RudpSocketImpl) :
    Bind env s =
      ({ s with
          m_endPoint := (env.Allocate AllocRequest.any).ptr.map registered
          m_endPoint6 := s.m_endPoint6.map registered6
          trace := s.trace ++ [Event.Allocate AllocRequest.any] },
        if (env.Allocate AllocRequest.any).ptr.isSome || s.m_endPoint6.isSome then 0 else -1) := by
  unfold Bind
  rw [FinishBind_eq]
  rfl

/-- Closed form of `Bind6 ()`. -/
theorem Bind6_eq (env : Env) (s : RudpSocketImpl) :
    Bind6 env s =
      ({ s with
          m_endPoint := s.m_endPoint.map registered
          m_endPoint6 := (env.Allocate6 AllocRequest.any).ptr.map registered6
          trace := s.trace ++ [Event.Allocate6 AllocRequest.any] },
        if s.m_endPoint.isSome || (env.Allocate6 AllocRequest.any).ptr.isSome then 0 else -1) := by
  unfold Bind6
  rw [FinishBind_eq]
  rfl


theorem uid_sendTagged (s : RudpSocketImpl) (p : Packet) (dest : Nat) :
    (sendTagged s p dest).uid = p.uid := by
  unfold sendTagged
  dsimp only
  split <;> split <;> split <;> rfl

theorem DoSendToIpv4_of_endPoint (env : Env) (s : RudpSocketImpl) (p : Packet) (dest port : Nat)
    (ep : EndPoint) (h : s.m_endPoint = some ep) :
    DoSendToIpv4 env s p dest port = DoSendToIpv4Bound env s p dest port := by
  unfold DoSendToIpv4
  rw [if_neg (by rw [h]; simp)]

theorem DoSendToIpv4_lazy (env : Env) (s : RudpSocketImpl) (p : Packet) (dest port : Nat)
    (ep : EndPoint) (h : s.m_endPoint = none)
    (ha : (env.Allocate AllocRequest.any).ptr = some ep) :
    DoSendToIpv4 env s p dest port = DoSendToIpv4Bound env (Bind env s).1 p dest port ∧
    (Bind env s).1.m_endPoint = some (registered ep) := by
  have hb := Bind_eq env s
  rw [ha] at hb
  have h2 : (Bind env s).2 = 0 := by rw [hb]; simp
  have h1 : (Bind env s).1.m_endPoint = some (registered ep) := by rw [hb]; rfl
  refine ⟨?_, h1⟩
  unfold DoSendToIpv4
  rw [if_pos h, if_neg (by rw [h2]; decide), if_neg (by rw [h1]; simp)]

theorem DoSendToIpv6_of_endPoint (env : Env) (s : RudpSocketImpl) (p : Packet) (dest port : Nat)
    (ep : EndPoint) (hm : IsIpv4MappedAddress dest = false) (h : s.m_endPoint6 = some ep) :
    DoSendToIpv6 env s p dest port = DoSendToIpv6Bound env s p dest port := by
  unfold DoSendToIpv6
  rw [hm]
  simp only [Bool.false_eq_true, if_false]
  rw [if_neg (by rw [h]; simp)]

/-- C16: on the IPv4 send path, for a socket that is not send-shutdown, whose
IPv4 end point is present or is obtained by the lazy bind, and for which a
source address (a non-wildcard local address) or a route is available, a
payload of `n <= 65507` bytes is accepted, `n` is returned and one packet is
handed to the network layer for the destination; a payload of `n >= 65508`
bytes gets -1 with last error `ERROR_MSGSIZE` and nothing is handed to the
network layer. -/
theorem send_ceiling (env : Env) (s : RudpSocketImpl) (p : Packet) (dest port : Nat)
    (ep : EndPoint) (hsd : s.m_shutdownSend = false)
    (hep : s.m_endPoint = some ep ∨
      (s.m_endPoint = none ∧ (env.Allocate AllocRequest.any).ptr = some ep))
    (hsrc : ep.localAddress ≠ 0 ∨
      ∃ routing, env.RoutingProtocol = some routing ∧
        ∀ q oif, (routing q dest oif).route ≠ none) :
    (p.size ≤ 65507 →
      ∃ t q src route, DoSendToIpv4 env s p dest port = some (t, (p.size : Int)) ∧
        q.size = p.size ∧ q.uid = p.uid ∧
        t.trace.filter isSend
          = s.trace.filter isSend ++ [Event.Send q src dest ep.localPort port route]) ∧
    (65508 ≤ p.size →
      ∃ t, DoSendToIpv4 env s p dest port = some (t, -1) ∧
        t.m_errno = SocketErrno.ERROR_MSGSIZE ∧
        t.trace.filter isSend = s.trace.filter isSend) := by
  -- the state in which the send proper starts
  have hstart : ∃ s1 ep1, DoSendToIpv4 env s p dest port = DoSendToIpv4Bound env s1 p dest port ∧
      s1.m_endPoint = some ep1 ∧ ep1.localAddress = ep.localAddress ∧
      ep1.localPort = ep.localPort ∧ s1.m_shutdownSend = false ∧
      s1.trace.filter isSend = s.trace.filter isSend := by
    rcases hep with h | ⟨h, ha⟩
    · exact ⟨s, ep, DoSendToIpv4_of_endPoint env s p dest port ep h, h, rfl, rfl, hsd, rfl⟩
    · obtain ⟨h1, h2⟩ := DoSendToIpv4_lazy env s p dest port ep h ha
      refine ⟨(Bind env s).1, registered ep, h1, h2, rfl, rfl, ?_, ?_⟩
      · rw [Bind_eq]; exact hsd
      · rw [Bind_eq]
        show List.filter isSend (s.trace ++ [Event.Allocate AllocRequest.any]) = _
        simp [isSend]
  obtain ⟨s1, ep1, hrun, hep1, hla, hlp, hsd1, htr⟩ := hstart
  rw [hrun, DoSendToIpv4Bound_eq, hsd1, hep1]
  simp only [Bool.false_eq_true, if_false, GetTxAvailable]
  constructor
  · intro hle
    rw [if_neg (by omega)]
    rcases hsrc with hloc | ⟨routing, hrp, hroute⟩
    · rw [if_pos (by rw [hla]; exact hloc)]
      refine ⟨_, sendTagged s1 p dest, ep1.localAddress, none, rfl, size_sendTagged _ _ _,
        uid_sendTagged _ _ _, ?_⟩
      simp [emit, isSend, htr, hlp]
    · by_cases hloc : ep1.localAddress ≠ 0
      · rw [if_pos hloc]
        refine ⟨_, sendTagged s1 p dest, ep1.localAddress, none, rfl, size_sendTagged _ _ _,
          uid_sendTagged _ _ _, ?_⟩
        simp [emit, isSend, htr, hlp]
      · rw [if_neg hloc, hrp]
        dsimp only
        cases hr : (routing (sendTagged s1 p dest) dest s1.m_boundnetdevice).route with
        | none => exact absurd hr (hroute _ _)
        | some route =>
          refine ⟨_, sendTagged s1 p dest, route.source, some route, rfl,
            size_sendTagged _ _ _, uid_sendTagged _ _ _, ?_⟩
          simp [emit, isSend, htr, hlp]
  · intro hge
    rw [if_pos (by omega)]
    exact ⟨_, rfl, rfl, htr⟩

/-- Witness for C16: a fresh socket, whose lazy bind obtains an end point bound
to 10.0.0.1, sends 65507 bytes to 10.0.0.5, port 9000. -/
theorem send_ceiling_witness :
    ∃ t q src route,
      DoSendToIpv4 sampleEnv (fresh 131072) (samplePacket 65507) 0x0a000005 9000
        = some (t, 65507) ∧
      q.size = 65507 ∧ q.uid = 65507 ∧
      t.trace.filter isSend = [Event.Send q src 0x0a000005 49153 9000 route] :=
  (send_ceiling sampleEnv (fresh 131072) (samplePacket 65507) 0x0a000005 9000 sampleEndPoint
    rfl (Or.inr ⟨rfl, rfl⟩) (Or.inl (by decide))).1 (by decide)


/-- C19, as stated, fails: with end points bound to the wildcard address and a
routing layer that returns no route and reports `ERROR_NODEV`, a 100-byte send
to 10.0.0.5 (and to the IPv6 address ::5), port 9000, returns -1 with last
error `ERROR_NODEV`, not `ERROR_NOROUTETOHOST`. -/
theorem no_route_errno_counterexample :
    (∃ t, DoSendToIpv4 noRouteEnv sampleWildcard (samplePacket 100) 0x0a000005 9000
        = some (t, -1) ∧
      GetErrno t = SocketErrno.ERROR_NODEV ∧ GetErrno t ≠ SocketErrno.ERROR_NOROUTETOHOST) ∧
    (∃ t, DoSendToIpv6 noRouteEnv sampleWildcard (samplePacket 100) 5 9000 = some (t, -1) ∧
      GetErrno t = SocketErrno.ERROR_NODEV ∧ GetErrno t ≠ SocketErrno.ERROR_NOROUTETOHOST) := by
  refine ⟨⟨_, rfl, by decide, by decide⟩, ⟨_, rfl, by decide, by decide⟩⟩

/-- C19, amended: on the per-family send path, for a socket that is not
send-shutdown, a payload of at most 65507 bytes and an end point of the
destination's family bound to the wildcard local address (whether or not the
socket also holds an end point of the other family): if the routing layer
returns no route the call returns -1 and the last error is the error the
routing layer reported in `errno_` (`ERROR_NOROUTETOHOST` when the node has no
routing protocol at all); if it returns a route the call returns the payload
size, one packet is handed to the network layer and the data-sent notification
fires exactly once. -/
theorem wildcard_send_routing (env : Env) (s : RudpSocketImpl) (p : Packet)
    (dest dest6 port : Nat)
    (hsd : s.m_shutdownSend = false) (hsz : p.size ≤ 65507) :
    (∀ ep, s.m_endPoint = some ep → ep.localAddress = 0 →
      (∀ routing, env.RoutingProtocol = some routing →
        ((routing (sendTagged s p dest) dest s.m_boundnetdevice).route = none →
          DoSendToIpv4 env s p dest port =
            some ({ s with
              m_errno := (routing (sendTagged s p dest) dest s.m_boundnetdevice).errno_ },
              -1)) ∧
        (∀ route, (routing (sendTagged s p dest) dest s.m_boundnetdevice).route = some route →
          DoSendToIpv4 env s p dest port =
            some ({ s with
              trace := s.trace ++
                [Event.Send (sendTagged s p dest) route.source dest ep.localPort port
                   (some route),
                 Event.NotifyDataSent p.size] }, (p.size : Int)))) ∧
      (env.RoutingProtocol = none →
        DoSendToIpv4 env s p dest port =
          some ({ s with m_errno := SocketErrno.ERROR_NOROUTETOHOST }, -1))) ∧
    (∀ ep6, s.m_endPoint6 = some ep6 → ep6.localAddress = 0 →
      IsIpv4MappedAddress dest6 = false →
      (∀ routing, env.RoutingProtocol6 = some routing →
        ((routing (sendTagged6 s p dest6) dest6 s.m_boundnetdevice).route = none →
          DoSendToIpv6 env s p dest6 port =
            some ({ s with
              m_errno := (routing (sendTagged6 s p dest6) dest6 s.m_boundnetdevice).errno_ },
              -1)) ∧
        (∀ route,
          (routing (sendTagged6 s p dest6) dest6 s.m_boundnetdevice).route = some route →
          DoSendToIpv6 env s p dest6 port =
            some ({ s with
              trace := s.trace ++
                [Event.Send6 (sendTagged6 s p dest6) route.source dest6 ep6.localPort port
                   (some route),
                 Event.NotifyDataSent p.size] }, (p.size : Int)))) ∧
      (env.RoutingProtocol6 = none →
        DoSendToIpv6 env s p dest6 port =
          some ({ s with m_errno := SocketErrno.ERROR_NOROUTETOHOST }, -1))) := by
  constructor
  · intro ep h4 hw4
    have e4 : DoSendToIpv4 env s p dest port =
        match env.RoutingProtocol with
        | some routing =>
          match (routing (sendTagged s p dest) dest s.m_boundnetdevice).route with
          | some route =>
            some (emit (emit s
              (Event.Send (sendTagged s p dest) route.source dest ep.localPort port
                (some route))) (Event.NotifyDataSent p.size), (p.size : Int))
          | none =>
            some ({ s with
              m_errno := (routing (sendTagged s p dest) dest s.m_boundnetdevice).errno_ }, -1)
        | none => some ({ s with m_errno := SocketErrno.ERROR_NOROUTETOHOST }, -1) := by
      rw [DoSendToIpv4_of_endPoint env s p dest port ep h4, DoSendToIpv4Bound_eq, hsd, h4]
      simp only [Bool.false_eq_true, if_false, GetTxAvailable]
      rw [if_neg (by omega)]
      simp only [hw4, ne_eq, not_true_eq_false, if_false]
    refine ⟨?_, ?_⟩
    · intro routing hr
      rw [e4, hr]
      dsimp only
      constructor
      · intro hn; rw [hn]
      · intro route hs
        rw [hs]
        simp [emit]
    · intro hr
      rw [e4, hr]
  · intro ep6 h6 hw6 hmap
    have e6 : DoSendToIpv6 env s p dest6 port =
        match env.RoutingProtocol6 with
        | some routing =>
          match (routing (sendTagged6 s p dest6) dest6 s.m_boundnetdevice).route with
          | some route =>
            some (emit (emit s
              (Event.Send6 (sendTagged6 s p dest6) route.source dest6 ep6.localPort port
                (some route))) (Event.NotifyDataSent p.size), (p.size : Int))
          | none =>
            some ({ s with
              m_errno := (routing (sendTagged6 s p dest6) dest6 s.m_boundnetdevice).errno_ },
              -1)
        | none => some ({ s with m_errno := SocketErrno.ERROR_NOROUTETOHOST }, -1) := by
      rw [DoSendToIpv6_of_endPoint env s p dest6 port ep6 hmap h6, DoSendToIpv6Bound_eq, hsd,
        h6]
      simp only [Bool.false_eq_true, if_false, GetTxAvailable]
      rw [if_neg (by omega)]
      simp only [hw6, ne_eq, not_true_eq_false, if_false]
    refine ⟨?_, ?_⟩
    · intro routing hr
      rw [e6, hr]
      dsimp only
      constructor
      · intro hn; rw [hn]
      · intro route hs
        rw [hs]
        simp [emit]
    · intro hr
      rw [e6, hr]

/-- Witness for the amended C19: a socket holding only an IPv4 wildcard end
point sends 100 bytes to 10.0.0.5, port 9000, through a routing layer that
returns a route with source 10.0.0.1; a socket holding only an IPv6 wildcard
end point sends 100 bytes to ::5, port 9000, through a routing layer that
finds no route and reports `ERROR_NODEV`. -/
theorem wildcard_send_routing_witness :
    sampleWildcard4.m_endPoint6 = none ∧ sampleWildcard6.m_endPoint = none ∧
    DoSendToIpv4 routedEnv sampleWildcard4 (samplePacket 100) 0x0a000005 9000 =
      some ({ sampleWildcard4 with
        trace :=
          [Event.Send (sendTagged sampleWildcard4 (samplePacket 100) 0x0a000005) 0x0a000001
             0x0a000005 49153 9000 (some { source := 0x0a000001, uid := 1 }),
           Event.NotifyDataSent 100] }, 100) ∧
    DoSendToIpv6 noRouteEnv sampleWildcard6 (samplePacket 100) 5 9000 =
      some ({ sampleWildcard6 with m_errno := SocketErrno.ERROR_NODEV }, -1) :=
  ⟨rfl, rfl,
    (((wildcard_send_routing routedEnv sampleWildcard4 (samplePacket 100) 0x0a000005 5 9000
      rfl (by decide)).1 (registered wildcardEndPoint) rfl rfl).1 _ rfl).2 _ rfl,
    (((wildcard_send_routing noRouteEnv sampleWildcard6 (samplePacket 100) 0x0a000005 5 9000
      rfl (by decide)).2 (registered6 wildcardEndPoint) rfl rfl (by decide)).1 _ rfl).1 rfl⟩

/-- C15: on a socket connected to 10.0.0.5, port 9000, `Send` hands the
network layer a packet for 10.0.0.5, port 9000, but `SendTo` with the address
10.0.0.9, port 7000, hands it a packet for 10.0.0.9, port 7000: the explicit
address is used, not the latched one. -/
theorem SendTo_connected_uses_argument :
    (Connect (fresh 131072) (Address.InetSocketAddress 0x0a000005 9000)).2 = 0 ∧
    sampleConnected.m_connected = true ∧
    (∃ t, Send sampleEnv sampleConnected (samplePacket 100) = some (t, 100) ∧
      t.trace.filter isSend = [Event.Send sentPacket 0x0a000001 0x0a000005 49153 9000 none]) ∧
    (∃ t, SendTo sampleEnv sampleConnected (samplePacket 100)
        (Address.InetSocketAddress 0x0a000009 7000) = some (t, 100) ∧
      t.trace.filter isSend = [Event.Send sentPacket 0x0a000001 0x0a000009 49153 7000 none]) := by
  refine ⟨rfl, rfl, ⟨_, rfl, by decide⟩, ⟨_, rfl, by decide⟩⟩


/-- C18, as stated, fails: when a specific address (10.0.0.1) and a specific
port (9000) are requested and the allocator fails because the address cannot
be bound, `Bind` returns -1 with last error `ERROR_ADDRINUSE`, not
`ERROR_ADDRNOTAVAIL`. -/
theorem Bind_address_cause_counterexample :
    addressFailEnv.Allocate (bindRequest 0x0a000001 9000) = AllocResult.addressNotAvailable ∧
    ∃ t, BindAddress addressFailEnv (fresh 131072) (Address.InetSocketAddress 0x0a000001 9000)
        = some (t, -1) ∧
      GetErrno t = SocketErrno.ERROR_ADDRINUSE ∧ GetErrno t ≠ SocketErrno.ERROR_ADDRNOTAVAIL := by
  refine ⟨rfl, _, rfl, by decide, by decide⟩

/-- C18, amended: `Bind (address)` returns -1 with `ERROR_INVAL`, changing
nothing else and allocating nothing, when the address is neither an IPv4 nor
an IPv6 socket address. When the allocation fails it returns -1 with
`ERROR_ADDRINUSE` whenever the requested port is non-zero, whatever made the
allocation fail and whether or not a specific address was requested, and with
`ERROR_ADDRNOTAVAIL` whenever the requested port is zero; the end point
reference stays null. (The call asserts that no IPv4 end point is held yet.) -/
theorem BindAddress_errors (env : Env) (s : RudpSocketImpl) (address : Address) :
    (isInetSocketAddress address = false → isInet6SocketAddress address = false →
      BindAddress env s address = some ({ s with m_errno := SocketErrno.ERROR_INVAL }, -1)) ∧
    (∀ ipv4 port, address = Address.InetSocketAddress ipv4 port → s.m_endPoint = none →
      (env.Allocate (bindRequest ipv4 port)).ptr = none →
      ∃ t, BindAddress env s address = some (t, -1) ∧ t.m_endPoint = none ∧
        (port ≠ 0 → GetErrno t = SocketErrno.ERROR_ADDRINUSE) ∧
        (port = 0 → GetErrno t = SocketErrno.ERROR_ADDRNOTAVAIL)) ∧
    (∀ ipv6 port, address = Address.Inet6SocketAddress ipv6 port → s.m_endPoint = none →
      (env.Allocate6 (bindRequest ipv6 port)).ptr = none →
      ∃ t, BindAddress env s address = some (t, -1) ∧ t.m_endPoint6 = none ∧
        (port ≠ 0 → GetErrno t = SocketErrno.ERROR_ADDRINUSE) ∧
        (port = 0 → GetErrno t = SocketErrno.ERROR_ADDRNOTAVAIL)) := by
  refine ⟨?_, ?_, ?_⟩
  · intro h4 h6
    cases address with
    | InetSocketAddress a p => simp [isInetSocketAddress] at h4
    | Inet6SocketAddress a p => simp [isInet6SocketAddress] at h6
    | _ => rfl
  · intro ipv4 port ha hnull hfail
    subst ha
    unfold BindAddress
    simp only [hnull, ne_eq, not_true_eq_false, if_false, hfail, if_true]
    refine ⟨_, rfl, rfl, ?_, ?_⟩
    · intro hp; simp [GetErrno, hp]
    · intro hp; simp [GetErrno, hp]
  · intro ipv6 port ha hnull hfail
    subst ha
    unfold BindAddress
    simp only [hnull, ne_eq, not_true_eq_false, if_false, hfail, if_true]
    refine ⟨_, rfl, rfl, ?_, ?_⟩
    · intro hp; simp [GetErrno, hp]
    · intro hp; simp [GetErrno, hp]

/-- Witness for the amended C18: the wildcard address with port 9000 and an
allocator that reports the port as taken; and an address of another type. -/
theorem BindAddress_errors_witness :
    (∃ t, BindAddress { sampleEnv with Allocate := fun _ => AllocResult.portInUse } (fresh 131072)
        (Address.InetSocketAddress 0 9000) = some (t, -1) ∧ t.m_endPoint = none ∧
      (9000 ≠ 0 → GetErrno t = SocketErrno.ERROR_ADDRINUSE) ∧
      (9000 = 0 → GetErrno t = SocketErrno.ERROR_ADDRNOTAVAIL)) ∧
    BindAddress sampleEnv (fresh 131072) (Address.other 3)
      = some ({ fresh 131072 with m_errno := SocketErrno.ERROR_INVAL }, -1) :=
  ⟨(BindAddress_errors { sampleEnv with Allocate := fun _ => AllocResult.portInUse }
      (fresh 131072) (Address.InetSocketAddress 0 9000)).2.1 0 9000 rfl rfl rfl,
    (BindAddress_errors sampleEnv (fresh 131072) (Address.other 3)).1 rfl rfl⟩

end RudpSocketImpl

/-! ## Socket endpoint engine: reachable states and the lazy bind -/

namespace RudpSocketImpl

theorem peer_Bind (env : Env) (s : RudpSocketImpl) : peer (Bind env s).1 = peer s := by
  rw [Bind_eq]; rfl

theorem peer_Bind6 (env : Env) (s : RudpSocketImpl) : peer (Bind6 env s).1 = peer s := by
  rw [Bind6_eq]; rfl

theorem peer_FinishBind (s : RudpSocketImpl) : peer (FinishBind s).1 = peer s := by
  rw [FinishBind_eq]; rfl

theorem peer_BindAddress (env : Env) (s : RudpSocketImpl) (address : Address)
    (r : RudpSocketImpl × Int) (h : BindAddress env s address = some r) :
    peer r.1 = peer s := by
  unfold BindAddress at h
  split at h
  · split at h
    · exact absurd h (by simp)
    · dsimp only at h
      split at h
      · simp only [Option.some.injEq] at h; rw [← h]; rfl
      · simp only [Option.some.injEq] at h; rw [← h, peer_FinishBind]; rfl
  · split at h
    · exact absurd h (by simp)
    · dsimp only at h
      split at h
      · simp only [Option.some.injEq] at h; rw [← h]; rfl
      · simp only [Option.some.injEq] at h; rw [← h, peer_FinishBind]; rfl
  · simp only [Option.some.injEq] at h; rw [← h]; rfl

theorem peer_DeallocateEndPoint (s : RudpSocketImpl) : peer (DeallocateEndPoint s) = peer s := by
  unfold DeallocateEndPoint
  dsimp only
  split <;> split <;> rfl

theorem peer_Ipv6LeaveGroup (s : RudpSocketImpl) : peer (Ipv6LeaveGroup s) = peer s := by
  unfold Ipv6LeaveGroup
  split <;> rfl

theorem peer_Close (s : RudpSocketImpl) : peer (Close s).1 = peer s := by
  unfold Close
  split
  · rfl
  · dsimp only
    rw [peer_DeallocateEndPoint]
    exact peer_Ipv6LeaveGroup s

theorem peer_DoSendToIpv4Bound (env : Env) (s : RudpSocketImpl) (p : Packet) (dest port : Nat)
    (r : RudpSocketImpl × Int) (h : DoSendToIpv4Bound env s p dest port = some r) :
    peer r.1 = peer s := by
  rw [DoSendToIpv4Bound_eq] at h
  repeat' split at h
  all_goals (cases h <;> rfl)

theorem peer_DoSendToIpv6Bound (env : Env) (s : RudpSocketImpl) (p : Packet) (dest port : Nat)
    (r : RudpSocketImpl × Int) (h : DoSendToIpv6Bound env s p dest port = some r) :
    peer r.1 = peer s := by
  rw [DoSendToIpv6Bound_eq] at h
  repeat' split at h
  all_goals (cases h <;> rfl)

theorem peer_DoSendToIpv4 (env : Env) (s : RudpSocketImpl) (p : Packet) (dest port : Nat)
    (r : RudpSocketImpl × Int) (h : DoSendToIpv4 env s p dest port = some r) :
    peer r.1 = peer s := by
  unfold DoSendToIpv4 at h
  split at h
  · split at h
    · split at h
      · simp only [Option.some.injEq] at h; rw [← h]; exact peer_Bind env s
      · exact absurd h (by simp)
    · split at h
      · exact absurd h (by simp)
      · exact (peer_DoSendToIpv4Bound env _ p dest port r h).trans (peer_Bind env s)
  · exact peer_DoSendToIpv4Bound env s p dest port r h

theorem peer_DoSendToIpv6 (env : Env) (s : RudpSocketImpl) (p : Packet) (dest port : Nat)
    (r : RudpSocketImpl × Int) (h : DoSendToIpv6 env s p dest port = some r) :
    peer r.1 = peer s := by
  unfold DoSendToIpv6 at h
  split at h
  · exact peer_DoSendToIpv4 env s p _ port r h
  · split at h
    · split at h
      · split at h
        · simp only [Option.some.injEq] at h; rw [← h]; exact peer_Bind6 env s
        · exact absurd h (by simp)
      · split at h
        · exact absurd h (by simp)
        · exact (peer_DoSendToIpv6Bound env _ p dest port r h).trans (peer_Bind6 env s)
    · exact peer_DoSendToIpv6Bound env s p dest port r h

theorem peer_DoSendToAddress (env : Env) (s : RudpSocketImpl) (p : Packet) (address : Address)
    (r : RudpSocketImpl × Int) (h : DoSendToAddress env s p address = some r) :
    peer r.1 = peer s := by
  unfold DoSendToAddress at h
  split at h
  · split at h
    · exact peer_DoSendToIpv4 env s p _ _ r h
    · exact peer_DoSendToIpv6 env s p _ _ r h
    · simp only [Option.some.injEq] at h; rw [← h]
  · split at h
    · exact peer_DoSendToIpv4 env s p _ _ r h
    · exact peer_DoSendToIpv6 env s p _ _ r h
    · simp only [Option.some.injEq] at h; rw [← h]; rfl

theorem peer_DoSendBound (env : Env) (s : RudpSocketImpl) (p : Packet)
    (r : RudpSocketImpl × Int) (h : DoSendBound env s p = some r) : peer r.1 = peer s := by
  unfold DoSendBound at h
  split at h
  · simp only [Option.some.injEq] at h; rw [← h]; rfl
  · exact peer_DoSendToAddress env s p _ r h

theorem peer_DoSend (env : Env) (s : RudpSocketImpl) (p : Packet)
    (r : RudpSocketImpl × Int) (h : DoSend env s p = some r) : peer r.1 = peer s := by
  unfold DoSend at h
  split at h
  · split at h
    · split at h
      · simp only [Option.some.injEq] at h; rw [← h]; exact peer_Bind env s
      · exact absurd h (by simp)
    · split at h
      · exact absurd h (by simp)
      · exact (peer_DoSendBound env _ p r h).trans (peer_Bind env s)
  · split at h
    · split at h
      · split at h
        · simp only [Option.some.injEq] at h; rw [← h]; exact peer_Bind6 env s
        · exact absurd h (by simp)
      · split at h
        · exact absurd h (by simp)
        · exact (peer_DoSendBound env _ p r h).trans (peer_Bind6 env s)
    · exact peer_DoSendBound env s p r h

theorem peer_Send (env : Env) (s : RudpSocketImpl) (p : Packet)
    (r : RudpSocketImpl × Int) (h : Send env s p = some r) : peer r.1 = peer s := by
  unfold Send at h
  split at h
  · simp only [Option.some.injEq] at h; rw [← h]; rfl
  · exact peer_DoSend env s p r h

theorem peer_SendTo (env : Env) (s : RudpSocketImpl) (p : Packet) (address : Address)
    (r : RudpSocketImpl × Int) (h : SendTo env s p address = some r) : peer r.1 = peer s := by
  unfold SendTo at h
  split at h
  · exact peer_DoSendToIpv4 env s _ _ _ r h
  · exact peer_DoSendToIpv6 env s _ _ _ r h
  · simp only [Option.some.injEq] at h; rw [← h]

theorem peer_Recv (s : RudpSocketImpl) (maxSize : Nat) : peer (Recv s maxSize).1 = peer s := by
  unfold Recv
  split
  · rfl
  · split <;> rfl

theorem peer_GetPeerName (s : RudpSocketImpl) (a : Address)
    (r : RudpSocketImpl × Address × Int) (h : GetPeerName s a = some r) :
    peer r.1 = peer s := by
  unfold GetPeerName at h
  split at h
  · simp only [Option.some.injEq] at h; rw [← h]; rfl
  · split at h
    · simp only [Option.some.injEq] at h; rw [← h]
    · simp only [Option.some.injEq] at h; rw [← h]
    · exact absurd h (by simp)

theorem peer_BindToNetDeviceIpv6 (env : Env) (s t : RudpSocketImpl) (netdevice : Option Nat)
    (h : BindToNetDeviceIpv6 env s netdevice = some t) : peer t = peer s := by
  unfold BindToNetDeviceIpv6 at h
  dsimp only at h
  split at h
  · split at h
    · split at h
      · simp only [Option.some.injEq] at h; rw [← h, peer_Bind6]; rfl
      · exact absurd h (by simp)
    · split at h
      · exact absurd h (by simp)
      · simp only [Option.some.injEq] at h; rw [← h]
        show peer (Bind6 env _).1 = _
        rw [peer_Bind6]; rfl
  · simp only [Option.some.injEq] at h; rw [← h]; rfl

theorem peer_BindToNetDevice (env : Env) (s t : RudpSocketImpl) (netdevice : Option Nat)
    (h : BindToNetDevice env s netdevice = some t) : peer t = peer s := by
  unfold BindToNetDevice at h
  dsimp only at h
  split at h
  · split at h
    · split at h
      · simp only [Option.some.injEq] at h; rw [← h, peer_Bind]; rfl
      · exact absurd h (by simp)
    · split at h
      · exact absurd h (by simp)
      · rw [peer_BindToNetDeviceIpv6 env _ t netdevice h, peer_Bind]; rfl
  · rw [peer_BindToNetDeviceIpv6 env _ t netdevice h]; rfl

theorem peer_ForwardUp (s : RudpSocketImpl) (packet : Packet) (header : Ipv4Header)
    (port i : Nat) : peer (ForwardUp s packet header port i) = peer s := by
  rw [ForwardUp_eq]
  split
  · rfl
  · split <;> rfl

theorem peer_ForwardUp6 (s : RudpSocketImpl) (packet : Packet) (header : Ipv6Header)
    (port i : Nat) : peer (ForwardUp6 s packet header port i) = peer s := by
  rw [ForwardUp6_eq]
  split
  · rfl
  · split <;> rfl

end RudpSocketImpl

namespace RudpSocketImpl

theorem PeerIsIp_of_peer (s t : RudpSocketImpl) (h : peer t = peer s) (hs : PeerIsIp s) :
    PeerIsIp t := by
  unfold peer at h
  simp only [Prod.mk.injEq] at h
  unfold PeerIsIp at *
  rw [h.1, h.2.1]
  exact hs

theorem PeerIsIp_Connect (s : RudpSocketImpl) (address : Address) (hs : PeerIsIp s) :
    PeerIsIp (Connect s address).1 := by
  unfold Connect
  split
  · intro _; rfl
  · intro _; rfl
  · exact hs

theorem PeerIsIp_apply (s t : RudpSocketImpl) (op : PublicOp) (hs : PeerIsIp s)
    (h : PublicOp.apply s op = some t) : PeerIsIp t := by
  cases op with
  | Bind env =>
    simp only [PublicOp.apply, Option.some.injEq] at h
    subst h; exact PeerIsIp_of_peer s _ (peer_Bind env s) hs
  | Bind6 env =>
    simp only [PublicOp.apply, Option.some.injEq] at h
    subst h; exact PeerIsIp_of_peer s _ (peer_Bind6 env s) hs
  | BindAddress env address =>
    simp only [PublicOp.apply, Option.map_eq_some'] at h
    obtain ⟨r, hr, rfl⟩ := h
    exact PeerIsIp_of_peer s _ (peer_BindAddress env s address r hr) hs
  | ShutdownSend =>
    simp only [PublicOp.apply, Option.some.injEq] at h
    subst h; exact PeerIsIp_of_peer s _ rfl hs
  | ShutdownRecv =>
    simp only [PublicOp.apply, Option.some.injEq] at h
    subst h; exact PeerIsIp_of_peer s _ rfl hs
  | Close =>
    simp only [PublicOp.apply, Option.some.injEq] at h
    subst h; exact PeerIsIp_of_peer s _ (peer_Close s) hs
  | Connect address =>
    simp only [PublicOp.apply, Option.some.injEq] at h
    subst h; exact PeerIsIp_Connect s address hs
  | Listen =>
    simp only [PublicOp.apply, Option.some.injEq] at h
    subst h; exact PeerIsIp_of_peer s _ rfl hs
  | Send env p =>
    simp only [PublicOp.apply, Option.map_eq_some'] at h
    obtain ⟨r, hr, rfl⟩ := h
    exact PeerIsIp_of_peer s _ (peer_Send env s p r hr) hs
  | SendTo env p address =>
    simp only [PublicOp.apply, Option.map_eq_some'] at h
    obtain ⟨r, hr, rfl⟩ := h
    exact PeerIsIp_of_peer s _ (peer_SendTo env s p address r hr) hs
  | Recv maxSize =>
    simp only [PublicOp.apply, Option.some.injEq] at h
    subst h; exact PeerIsIp_of_peer s _ (peer_Recv s maxSize) hs
  | RecvFrom maxSize =>
    simp only [PublicOp.apply, Option.map_eq_some'] at h
    obtain ⟨r, hr, rfl⟩ := h
    rw [RecvFrom_state s maxSize _ r hr]
    exact PeerIsIp_of_peer s _ (peer_Recv s maxSize) hs
  | GetPeerName =>
    simp only [PublicOp.apply, Option.map_eq_some'] at h
    obtain ⟨r, hr, rfl⟩ := h
    exact PeerIsIp_of_peer s _ (peer_GetPeerName s _ r hr) hs
  | BindToNetDevice env netdevice =>
    simp only [PublicOp.apply] at h
    exact PeerIsIp_of_peer s _ (peer_BindToNetDevice env s t netdevice h) hs
  | SetRcvBufSize size =>
    simp only [PublicOp.apply, Option.some.injEq] at h
    subst h; exact PeerIsIp_of_peer s _ rfl hs
  | SetMtuDiscover discover =>
    simp only [PublicOp.apply, Option.some.injEq] at h
    subst h; exact PeerIsIp_of_peer s _ rfl hs
  | SetSocketOptions o =>
    simp only [PublicOp.apply, Option.some.injEq] at h
    subst h; exact PeerIsIp_of_peer s _ rfl hs
  | ForwardUp packet header port i =>
    simp only [PublicOp.apply, Option.some.injEq] at h
    subst h; exact PeerIsIp_of_peer s _ (peer_ForwardUp s packet header port i) hs
  | ForwardUp6 packet header port i =>
    simp only [PublicOp.apply, Option.some.injEq] at h
    subst h; exact PeerIsIp_of_peer s _ (peer_ForwardUp6 s packet header port i) hs
  | Destroy =>
    simp only [PublicOp.apply, Option.some.injEq] at h
    subst h; exact PeerIsIp_of_peer s _ rfl hs
  | Destroy6 =>
    simp only [PublicOp.apply, Option.some.injEq] at h
    subst h; exact PeerIsIp_of_peer s _ rfl hs

theorem PeerIsIp_run (ops : List PublicOp) (s0 s : RudpSocketImpl) (h0 : PeerIsIp s0)
    (hs : PublicOp.run s0 ops = some s) : PeerIsIp s := by
  induction ops generalizing s0 with
  | nil =>
    simp only [PublicOp.run, Option.some.injEq] at hs
    subst hs; exact h0
  | cons op ops ih =>
    simp only [PublicOp.run, Option.bind_eq_some] at hs
    obtain ⟨s1, h1, h2⟩ := hs
    exact ih s1 (PeerIsIp_apply s0 s1 op h0 h1) h2

/-- C22: in every state reached from a freshly constructed socket (not
connected, whatever its options) through the public operations and the end
point callbacks, `m_connected = true` implies that the default address is of
IPv4 or IPv6 address type. Hence `GetPeerName` never reaches its "unexpected
address type" assertion, and on a connected socket `DoSendTo (p, address)`
always takes the IPv4 or the IPv6 branch, never the `ERROR_AFNOSUPPORT`
fall-through. `Connect` with an address that is neither an IPv4 nor an IPv6
socket address returns -1 and leaves the socket as it was. -/
theorem connected_peer_is_ip (s0 : RudpSocketImpl) (ops : List PublicOp) (s : RudpSocketImpl)
    (h0 : s0.m_connected = false) (hs : PublicOp.run s0 ops = some s) :
    (s.m_connected = true → isIpAddress s.m_defaultAddress = true) ∧
    (∀ a, GetPeerName s a ≠ none) ∧
    (s.m_connected = true → ∀ a, ∃ peerName, GetPeerName s a = some (s, peerName, 0)) ∧
    (s.m_connected = true → ∀ env p address,
      (∃ ipv4, s.m_defaultAddress = Address.Ipv4Address ipv4 ∧
        DoSendToAddress env s p address = DoSendToIpv4 env s p ipv4 s.m_defaultPort) ∨
      (∃ ipv6, s.m_defaultAddress = Address.Ipv6Address ipv6 ∧
        DoSendToAddress env s p address = DoSendToIpv6 env s p ipv6 s.m_defaultPort)) ∧
    (∀ (t : RudpSocketImpl) (address : Address),
      isInetSocketAddress address = false → isInet6SocketAddress address = false →
      Connect t address = (t, -1)) := by
  have hinv : PeerIsIp s :=
    PeerIsIp_run ops s0 s (fun hc => absurd hc (by rw [h0]; decide)) hs
  refine ⟨hinv, ?_, ?_, ?_, ?_⟩
  · intro a
    unfold GetPeerName
    by_cases hc : s.m_connected = true
    · have hip := hinv hc
      rw [hc]
      cases hd : s.m_defaultAddress <;> simp_all [isIpAddress]
    · simp [hc]
  · intro hc a
    have hip := hinv hc
    unfold GetPeerName
    rw [hc]
    cases hd : s.m_defaultAddress <;> simp_all [isIpAddress]
  · intro hc env p address
    have hip := hinv hc
    unfold DoSendToAddress
    rw [hc]
    cases hd : s.m_defaultAddress <;> simp_all [isIpAddress]
  · intro t address h4 h6
    cases address with
    | InetSocketAddress a p => simp [isInetSocketAddress] at h4
    | Inet6SocketAddress a p => simp [isInet6SocketAddress] at h6
    | _ => rfl

/-- Witness for C22: a sequence with a successful and a rejected `Connect`,
sends, a delivery, a device binding and a close. -/
theorem connected_peer_is_ip_witness :
    ∃ s, PublicOp.run (fresh 131072) samplePublicOps = some s ∧
      s.m_connected = true ∧
      s.m_defaultAddress = Address.Ipv4Address 0x0a000005 ∧
      GetPeerName s Address.invalid
        = some (s, Address.InetSocketAddress 0x0a000005 9000, 0) ∧
      isIpAddress s.m_defaultAddress = true :=
  ⟨_, rfl, rfl, rfl, rfl,
    (connected_peer_is_ip (fresh 131072) samplePublicOps _ rfl rfl).1 rfl⟩

end RudpSocketImpl

namespace RudpSocketImpl

/-- C21: the assertion after the lazy bind can fail. A socket bound only
through `Bind (Inet6SocketAddress (::, 9000))` holds an IPv6 end point and no
IPv4 end point; when the IPv4 allocator has nothing to hand out, the
parameterless `Bind ()` returns 0 (because `FinishBind` finds the IPv6 end
point) and leaves `m_endPoint` null, so the send to 10.0.0.5:9000 stops at
`NS_ASSERT (m_endPoint != 0)`. Symmetrically, a socket bound only to an IPv4
end point, with a failing IPv6 allocator, stops at `NS_ASSERT (m_endPoint6
!= 0)` on a send to ::7. -/
theorem lazy_bind_assertion_fails :
    (∃ s6, BindAddress v4FailEnv (fresh 131072) (Address.Inet6SocketAddress 0 9000)
        = some (s6, 0) ∧
      s6.m_endPoint = none ∧ s6.m_endPoint6.isSome = true ∧
      (Bind v4FailEnv s6).2 = 0 ∧ (Bind v4FailEnv s6).1.m_endPoint = none ∧
      DoSendToIpv4 v4FailEnv s6 (samplePacket 100) 0x0a000005 9000 = none ∧
      SendTo v4FailEnv s6 (samplePacket 100) (Address.InetSocketAddress 0x0a000005 9000)
        = none) ∧
    (∃ s4, BindAddress v6FailEnv (fresh 131072) (Address.InetSocketAddress 0 9000)
        = some (s4, 0) ∧
      s4.m_endPoint6 = none ∧ s4.m_endPoint.isSome = true ∧
      (Bind6 v6FailEnv s4).2 = 0 ∧ (Bind6 v6FailEnv s4).1.m_endPoint6 = none ∧
      DoSendToIpv6 v6FailEnv s4 (samplePacket 100) 7 9000 = none ∧
      SendTo v6FailEnv s4 (samplePacket 100) (Address.Inet6SocketAddress 7 9000) = none) :=
  ⟨⟨_, rfl, rfl, rfl, rfl, rfl, rfl, rfl⟩, ⟨_, rfl, rfl, rfl, rfl, rfl, rfl, rfl⟩⟩

/-- Counterexample to C23 as written: after a successful `Close` of a fresh
socket, with an allocator that has nothing to hand out, `SendTo` to
10.0.0.5:9000 returns -1 but the last error is still `ERROR_NOTERROR`, not
`ERROR_SHUTDOWN`: the failed lazy bind returns before the shutdown check. -/
theorem shutdown_errno_counterexample :
    (Close (fresh 131072)).2 = 0 ∧
    sampleClosed.m_shutdownSend = true ∧ sampleClosed.m_endPoint = none ∧
    ∃ t, SendTo v4FailEnv sampleClosed (samplePacket 100)
        (Address.InetSocketAddress 0x0a000005 9000) = some (t, -1) ∧
      GetErrno t = SocketErrno.ERROR_NOTERROR ∧
      GetErrno t ≠ SocketErrno.ERROR_SHUTDOWN :=
  ⟨rfl, rfl, rfl, _, rfl, rfl, by decide⟩

/-- C23 (amended): with send-shutdown active and no IPv4 end point, `SendTo`
to an IPv4 destination runs the lazy bind before the shutdown check. When the
allocator hands out an end point the call returns -1 with last error
`ERROR_SHUTDOWN`, hands nothing to the network layer, and leaves the socket
holding that end point with its three callbacks registered, so the socket is
not left as it was. When the allocator fails and the socket holds no IPv6 end
point either, the call returns -1 without touching the last error, hands
nothing to the network layer, and the socket still has no IPv4 end point. -/
theorem shutdown_send_after_lazy_bind (env : Env) (s : RudpSocketImpl) (p : Packet)
    (dest port : Nat) (hsd : s.m_shutdownSend = true) (h4 : s.m_endPoint = none) :
    (∀ ep, (env.Allocate AllocRequest.any).ptr = some ep →
      ∃ t, SendTo env s p (Address.InetSocketAddress dest port) = some (t, -1) ∧
        GetErrno t = SocketErrno.ERROR_SHUTDOWN ∧
        t.trace.filter isSend = s.trace.filter isSend ∧
        t.m_endPoint = some { ep with
          rxCallback := some Callback.ForwardUp
          icmpCallback := some Callback.ForwardIcmp
          destroyCallback := some Callback.Destroy } ∧
        t ≠ s) ∧
    ((env.Allocate AllocRequest.any).ptr = none → s.m_endPoint6 = none →
      ∃ t, SendTo env s p (Address.InetSocketAddress dest port) = some (t, -1) ∧
        GetErrno t = GetErrno s ∧
        t.trace.filter isSend = s.trace.filter isSend ∧
        t.m_endPoint = none) := by
  constructor
  · intro ep ha
    unfold SendTo
    dsimp only
    generalize (if s.m_manualIpTos = true then
      p.AddPacketTag (Tag.SocketIpTosTag s.m_ipTos) else p) = q
    obtain ⟨hl, he⟩ := DoSendToIpv4_lazy env s q dest port ep h4 ha
    have hb := Bind_eq env s
    have hs1 : (Bind env s).1.m_shutdownSend = true := by rw [hb]; exact hsd
    have ht1 : (Bind env s).1.trace = s.trace ++ [Event.Allocate AllocRequest.any] := by
      rw [hb]
    rw [hl, DoSendToIpv4Bound_eq, hs1]
    refine ⟨_, rfl, rfl, ?_, ?_, ?_⟩
    · show ((Bind env s).1.trace).filter isSend = _
      rw [ht1, List.filter_append]
      simp [isSend]
    · show (Bind env s).1.m_endPoint = _
      rw [he]; rfl
    · intro hts
      have h5 : (Bind env s).1.m_endPoint = s.m_endPoint := by
        have := congrArg RudpSocketImpl.m_endPoint hts
        exact this
      rw [he, h4] at h5
      exact absurd h5 (by simp)
  · intro ha h6
    unfold SendTo
    dsimp only
    generalize (if s.m_manualIpTos = true then
      p.AddPacketTag (Tag.SocketIpTosTag s.m_ipTos) else p) = q
    have hb := Bind_eq env s
    rw [ha, h6] at hb
    have h2 : (Bind env s).2 = -1 := by rw [hb]; rfl
    have h1 : (Bind env s).1.m_endPoint = none := by rw [hb]; rfl
    have ht1 : (Bind env s).1.trace = s.trace ++ [Event.Allocate AllocRequest.any] := by
      rw [hb]
    have he1 : (Bind env s).1.m_errno = s.m_errno := by rw [hb]
    unfold DoSendToIpv4
    rw [if_pos h4, if_pos h2, if_pos h1]
    refine ⟨_, rfl, he1, ?_, h1⟩
    rw [ht1, List.filter_append]
    simp [isSend]

/-- Witness for C23 (amended): the socket that a successful `Close` leaves,
with an allocator that hands out 10.0.0.1:49153. -/
theorem shutdown_send_after_lazy_bind_witness :
    sampleClosed.m_shutdownSend = true ∧ sampleClosed.m_endPoint = none ∧
    ∃ t, SendTo sampleEnv sampleClosed (samplePacket 100)
        (Address.InetSocketAddress 0x0a000005 9000) = some (t, -1) ∧
      GetErrno t = SocketErrno.ERROR_SHUTDOWN ∧
      t.m_endPoint.isSome = true :=
  ⟨rfl, rfl,
    match (shutdown_send_after_lazy_bind sampleEnv sampleClosed (samplePacket 100)
      0x0a000005 9000 rfl rfl).1 sampleEndPoint rfl with
    | ⟨t, h1, h2, _, h4, _⟩ => ⟨t, h1, h2, by rw [h4]; rfl⟩⟩

end RudpSocketImpl

end Rudp
